import Mathlib

/-!
# SkyCast: the weather-effects engine of `app/static/js/main.js`

A shallow embedding of the class `SkyCast`: the day/night test `isNightTime`,
the classifier `updateWeatherEffects` / `updateBackgroundTheme`, the particle
populations with their per-frame updates, and the lightning timer.

Conventions of the embedding

* JavaScript numbers are rationals, `none` standing for `NaN` (`JSNum`);
  time values of `Date` objects are integers of milliseconds, `none` standing
  for an invalid date.
* A binary64 number is the rational it denotes, and `fl` rounds a rational to
  the nearest binary64 number, ties to even. The arithmetic of
  `createRainParticles`, of `createCloudParticles` and of the period of the
  lightning timer is rounded operation by operation, as the code's is: there
  the end of a stated range is reached by rounding. The per-frame updates and
  the other populations are computed exactly.
* `Math.random()` is a stream `Env.random` of draws; the state counts the
  calls made so far, so every call reads a fresh draw.
* `new Date()` is `Env.now`: one operation of the page (a weather load, a
  click, a frame) reads one instant.
* The host's local time zone, which `getHours`, `getMinutes` and `getSeconds`
  apply, is `Env.localTZA`.
-/

namespace SkyCast

/-! ## Numbers -/

/-- A JavaScript number: an exact rational, or `NaN` (`none`). -/
abbrev JSNum := Option ℚ

/-- The sum `a + b` of JavaScript (`NaN` is absorbing). -/
def JSNum.add (a b : JSNum) : JSNum :=
  match a, b with
  | some x, some y => some (x + y)
  | _, _ => none

/-- The difference `a - b`. -/
def JSNum.sub (a b : JSNum) : JSNum :=
  match a, b with
  | some x, some y => some (x - y)
  | _, _ => none

/-- The product `a * b`. -/
def JSNum.mul (a b : JSNum) : JSNum :=
  match a, b with
  | some x, some y => some (x * y)
  | _, _ => none

/-- The unary minus `-a`. -/
def JSNum.neg (a : JSNum) : JSNum := a.map (fun x => -x)

/-- The comparison `a > b`: false as soon as one side is `NaN`. -/
def JSNum.gt (a b : JSNum) : Bool :=
  match a, b with
  | some x, some y => decide (y < x)
  | _, _ => false

/-- The comparison `a < b`: false as soon as one side is `NaN`. -/
def JSNum.lt (a b : JSNum) : Bool :=
  match a, b with
  | some x, some y => decide (x < y)
  | _, _ => false

/-- The value `a || 0`: `NaN`, `undefined` and `0` give `0`. -/
def JSNum.orZero (a : JSNum) : ℚ := a.getD 0

/-- The integer nearest to `y`, the even one of the two when `y` is half way
between two integers. -/
def roundHalfEven (y : ℚ) : Int :=
  if y - ⌊y⌋ < 1 / 2 then ⌊y⌋
  else if 1 / 2 < y - ⌊y⌋ then ⌊y⌋ + 1
  else if ⌊y⌋ % 2 = 0 then ⌊y⌋ else ⌊y⌋ + 1

/-- The exponent of the spacing of the binary64 numbers around `x`: 52 below
the exponent of `x`, which is at least `-1022` (below it the numbers are
subnormal, all with the spacing `2 ^ (-1074)`). -/
def ulpExp (x : ℚ) : Int := max (Int.log 2 |x|) (-1022) - 52

/-- The binary64 number nearest to `x`, ties going to the even significand:
the result of an arithmetic operation whose exact value is `x`, and the value
of a decimal literal `x`. (Values beyond the largest binary64 number, which
round to `Infinity`, do not arise: the operands are draws below 1, literals
and the size of the canvas.) -/
def fl (x : ℚ) : ℚ := roundHalfEven (x / 2 ^ ulpExp x) * 2 ^ ulpExp x

/-- The integer `n` is nearest to `y`, and even when `y` is half way between
two integers. -/
def RoundsTo (y : ℚ) (n : Int) : Prop :=
  (y - 1 / 2 < n ∧ (n : ℚ) < y + 1 / 2) ∨
    (((n : ℚ) = y - 1 / 2 ∨ (n : ℚ) = y + 1 / 2) ∧ n % 2 = 0)

/-! ## Strings -/

/-- The method `toLowerCase`, on the letters `A`-`Z`. (The words the code
compares with, `rain`, `drizzle`, `thunderstorm`, `snow`, `clouds`, `clear`
and `light`, have no letter that a character outside `A`-`Z` lowers to.) -/
def toLowerCase (s : String) : String := String.mk (s.data.map Char.toLower)

/-- Whether the list `sub` occurs in `l` as a block of consecutive items. -/
def includesList (l sub : List Char) : Bool :=
  match l with
  | [] => sub.isEmpty
  | c :: cs => sub.isPrefixOf (c :: cs) || includesList cs sub

/-- The method `String.prototype.includes`. -/
def includes (s sub : String) : Bool := includesList s.data sub.data

/-! ## Dates -/

/-- The environment of one operation of the page. -/
structure Env where
  /-- The time value of `new Date()`, in milliseconds since the epoch. -/
  now : Int
  /-- The offset of the host's local time zone, in milliseconds, at a time
  value (`LocalTZA(t, true)` of ECMAScript). -/
  localTZA : Int → Int
  /-- The successive results of `Math.random()`. -/
  random : Nat → ℚ

/-- The operation `TimeClip` of ECMAScript, which `new Date(v)` applies:
`NaN` and values beyond 8.64e15 ms give an invalid date, the others are
truncated toward zero. -/
def timeClip (v : JSNum) : Option Int :=
  match v with
  | none => none
  | some q => if abs q > 8640000000000000 then none else some (if 0 ≤ q then ⌊q⌋ else ⌈q⌉)

/-- The method `getTime()`. -/
def getTime (d : Option Int) : JSNum := d.map (fun t => (t : ℚ))

/-- The local time `LocalTime(t)` of ECMAScript. -/
def localTime (env : Env) (t : Int) : Int := t + env.localTZA t

/-- `HourFromTime(t) = floor(t / msPerHour) modulo 24`. -/
def hourFromTime (t : Int) : Int := (t / 3600000) % 24

/-- `MinFromTime(t) = floor(t / msPerMinute) modulo 60`. -/
def minFromTime (t : Int) : Int := (t / 60000) % 60

/-- `SecFromTime(t) = floor(t / msPerSecond) modulo 60`. -/
def secFromTime (t : Int) : Int := (t / 1000) % 60

/-- The method `getHours()` (`NaN` on an invalid date). -/
def getHours (env : Env) (d : Option Int) : Option Int :=
  d.map (fun t => hourFromTime (localTime env t))

/-- The method `getMinutes()`. -/
def getMinutes (env : Env) (d : Option Int) : Option Int :=
  d.map (fun t => minFromTime (localTime env t))

/-- The method `getSeconds()`. -/
def getSeconds (env : Env) (d : Option Int) : Option Int :=
  d.map (fun t => secFromTime (localTime env t))

/-- The expression `hours * 3600 + minutes * 60 + seconds` on the results of
`getHours`, `getMinutes`, `getSeconds`. -/
def secondsOfDayExpr (h m s : Option Int) : Option Int :=
  match h, m, s with
  | some a, some b, some c => some (a * 3600 + b * 60 + c)
  | _, _, _ => none

/-- The comparison `<` on two such numbers (`NaN` compares false). -/
def numLt (a b : Option Int) : Bool :=
  match a, b with
  | some x, some y => decide (x < y)
  | _, _ => false

/-- The comparison `>`. -/
def numGt (a b : Option Int) : Bool := numLt b a

/-! ## The weather snapshot -/

/-- The forms in which `sunrise` and `sunset` reach `isNightTime`. -/
inductive SunTime where
  /-- A string; `parsed` is the time value `new Date(string)` gives it
  (`none` when the string does not parse). -/
  | str (parsed : Option Int)
  /-- A `Date` object with its time value. -/
  | date (tv : Option Int)
  /-- Anything else, taken as a number of seconds. -/
  | num (secs : JSNum)

/-- The field `current.weather`. -/
structure Weather where
  main : String
  description : String
  icon : String

/-- The fields of `currentWeatherData.current` the engine reads. -/
structure Current where
  weather : Weather
  timezone : Int
  sunrise : SunTime
  sunset : SunTime

/-- The object `currentWeatherData`. -/
structure WeatherData where
  current : Current

/-- The conversion of `sunrise` / `sunset` to a timestamp in seconds at the
head of `isNightTime`. -/
def toTimestamp (v : SunTime) : JSNum :=
  match v with
  | .str parsed => (getTime parsed).map (fun x => x / 1000)
  | .date tv => (getTime tv).map (fun x => x / 1000)
  | .num secs => secs

/-- The date `new Date(ts * 1000 + timezone * 1000)`. -/
def shiftedDate (ts : JSNum) (timezone : Int) : Option Int :=
  timeClip (JSNum.add (JSNum.mul ts (some 1000)) (some ((timezone : ℚ) * 1000)))

/-- The seconds of the day of a date as `isNightTime` extracts them. -/
def secondsOfDay (env : Env) (d : Option Int) : Option Int :=
  secondsOfDayExpr (getHours env d) (getMinutes env d) (getSeconds env d)

/-- The method `isNightTime`. -/
def isNightTime (env : Env) (data : Option WeatherData) : Bool :=
  match data with
  | none => false
  | some d =>
    let timezone := d.current.timezone
    let nowLocal := timeClip (JSNum.add (some (env.now : ℚ)) (some ((timezone : ℚ) * 1000)))
    let sunriseTimestamp := toTimestamp d.current.sunrise
    let sunsetTimestamp := toTimestamp d.current.sunset
    let sunriseLocal := shiftedDate sunriseTimestamp timezone
    let sunsetLocal := shiftedDate sunsetTimestamp timezone
    let nowSecondsOfDay := secondsOfDay env nowLocal
    let sunriseSecondsOfDay := secondsOfDay env sunriseLocal
    let sunsetSecondsOfDay := secondsOfDay env sunsetLocal
    numLt nowSecondsOfDay sunriseSecondsOfDay || numGt nowSecondsOfDay sunsetSecondsOfDay

/-! ## The state of the page -/

/-- A precipitation particle, an item of `this.particles`. A field an object
lacks (`length`, `angle` and `type` on a snowflake, `size` and `drift` on a
drop) reads as `undefined`, which is `NaN` in arithmetic: `none`. -/
structure Particle where
  x : JSNum
  y : JSNum
  speed : JSNum
  opacity : JSNum
  length : JSNum
  angle : JSNum
  size : JSNum
  drift : JSNum
  type : Option String

/-- A star, an item of `this.stars`. The field `phase` holds the draw `r` of
`Math.random() * Math.PI * 2`, that is the phase in turns. -/
structure Star where
  x : ℚ
  y : ℚ
  size : ℚ
  opacity : ℚ
  twinkle : ℚ
  phase : ℚ

/-- A cloud, an item of `this.clouds`. -/
structure Cloud where
  x : ℚ
  y : ℚ
  speed : ℚ
  size : ℚ
  opacity : ℚ
  shape : Int

/-- The flags `this.effects[key].active`. -/
structure Effects where
  rain : Bool
  snow : Bool
  storm : Bool
  stars : Bool
  clouds : Bool

/-- The values the field `lightningInterval` takes: absent (the constructor
does not create it), `null`, or the handle `setInterval` returned. -/
inductive Handle where
  | undefined
  | null
  | id (n : Nat)
  deriving DecidableEq

/-- The truth value of a handle in `if (this.lightningInterval)`: the handles
`setInterval` returns are positive integers, hence true. -/
def Handle.truthy (h : Handle) : Bool :=
  match h with
  | .id _ => true
  | _ => false

/-- A live interval timer created by `activateStormEffect`. -/
structure Timer where
  id : Nat
  period : ℚ

/-- The fields of the `SkyCast` object and of the page the engine uses. -/
structure State where
  currentWeatherData : Option WeatherData
  /-- The fields `canvas.width` and `canvas.height`. -/
  canvasWidth : ℚ
  canvasHeight : ℚ
  particles : List Particle
  stars : List Star
  /-- The field `this.clouds`, absent until `createCloudParticles` runs. -/
  clouds : Option (List Cloud)
  effects : Effects
  lightningInterval : Handle
  /-- The lightning timers created and not yet cancelled. -/
  timers : List Timer
  /-- The handle the next `setInterval` returns. -/
  nextTimerId : Nat
  /-- The style `opacity` of the element `.glitch-container`. -/
  glitchOpacity : String
  /-- The attribute `className` of the body. -/
  bodyClass : String
  /-- The number of calls of `Math.random()` made so far. -/
  randomCalls : Nat

/-- The draw of the `k`-th call of `Math.random()` from now. -/
def rnd (env : Env) (s : State) (k : Nat) : ℚ := env.random (s.randomCalls + k)

/-- The state the constructor leaves, with the canvas sized by `setupCanvas`. -/
def construct (width height : ℚ) : State :=
  { currentWeatherData := none
    canvasWidth := width
    canvasHeight := height
    particles := []
    stars := []
    clouds := none
    effects := { rain := false, snow := false, storm := false, stars := false, clouds := false }
    lightningInterval := .undefined
    timers := []
    nextTimerId := 1
    glitchOpacity := ""
    bodyClass := ""
    randomCalls := 0 }

/-! ## Particle populations -/

/-- A drop as `createRainParticles` and `createDrizzleParticles` build them:
the properties `x`, `y`, `speed`, `length`, `opacity`, `angle` and `type`. -/
def mkDrop (type : String) (x y speed length opacity angle : ℚ) : Particle :=
  { x := some x, y := some y, speed := some speed, opacity := some opacity, length := some length
    angle := some angle, size := none, drift := none, type := some type }

/-- A snowflake as `createSnowParticles` builds them: the properties `x`, `y`,
`speed`, `size`, `opacity` and `drift`. -/
def mkFlake (x y speed size opacity drift : ℚ) : Particle :=
  { x := some x, y := some y, speed := some speed, opacity := some opacity, size := some size
    drift := some drift, length := none, angle := none, type := none }

/-- The object pushed at one iteration of the loop of `createRainParticles`,
from the six draws `r 0 .. r 5` in the order of the properties, every
operation rounded to binary64. -/
def rainParticle (width height speedMultiplier : ℚ) (isNight : Bool) (r : Nat → ℚ) : Particle :=
  mkDrop "rain" (fl (r 0 * width)) (fl (fl (r 1 * height) - height))
    (fl (fl (fl (r 2 * 15) + 15) * speedMultiplier))
    (fl (fl (r 3 * 15) + 15))
    (if isNight then fl (fl (r 4 * fl (7 / 10)) + fl (4 / 10))
      else fl (fl (r 4 * fl (9 / 10)) + fl (3 / 10)))
    (fl (fl (r 5 * 10) - 5))

/-- The method `createRainParticles`, with the snapshot `d` loaded. -/
def createRainParticles (env : Env) (d : WeatherData) (s : State) : State :=
  let weatherMain := toLowerCase d.current.weather.main
  let isNight := isNightTime env (some d)
  let particleCount : Nat := if weatherMain = "thunderstorm" then 200 else 150
  let speedMultiplier : ℚ := if weatherMain = "thunderstorm" then 3 / 2 else 1
  { s with
    particles := (List.range particleCount).map (fun i =>
      rainParticle s.canvasWidth s.canvasHeight speedMultiplier isNight (fun k => rnd env s (6 * i + k)))
    randomCalls := s.randomCalls + 6 * particleCount }

/-- The object pushed at one iteration of the loop of `createDrizzleParticles`. -/
def drizzleParticle (width height : ℚ) (isNight : Bool) (r : Nat → ℚ) : Particle :=
  mkDrop "drizzle" (r 0 * width) (r 1 * height - height) ((r 2 * 10 + 8) * (7 / 10))
    (r 3 * 8 + 5) (if isNight then r 4 * (5 / 10) + 3 / 10 else r 4 * (7 / 10) + 2 / 10)
    (r 5 * 8 - 4)

/-- The method `createDrizzleParticles`. No method of the class calls it. -/
def createDrizzleParticles (env : Env) (s : State) : State :=
  let isNight := isNightTime env s.currentWeatherData
  { s with
    particles := (List.range 200).map (fun i =>
      drizzleParticle s.canvasWidth s.canvasHeight isNight (fun k => rnd env s (6 * i + k)))
    randomCalls := s.randomCalls + 6 * 200 }

/-- The object pushed at one iteration of the loop of `createSnowParticles`. -/
def snowParticle (width height : ℚ) (r : Nat → ℚ) : Particle :=
  mkFlake (r 0 * width) (r 1 * height - height) (r 2 * 3 + 1) (r 3 * 4 + 2)
    (r 4 * (8 / 10) + 2 / 10) (r 5 * 2 - 1)

/-- The method `createSnowParticles`. -/
def createSnowParticles (env : Env) (s : State) : State :=
  { s with
    particles := (List.range 50).map (fun i =>
      snowParticle s.canvasWidth s.canvasHeight (fun k => rnd env s (6 * i + k)))
    randomCalls := s.randomCalls + 6 * 50 }

/-- The object pushed at one iteration of the loop of `createStarParticles`:
the draw `r 0` decides whether the star is large. -/
def starParticle (width height : ℚ) (r : Nat → ℚ) : Star :=
  let isLargeStar := decide (r 0 < 1 / 10)
  { size := if isLargeStar then r 1 * 3 + 3 / 2 else r 1 * (3 / 2) + 1 / 2
    opacity := if isLargeStar then r 2 * (9 / 10) + 1 / 2 else r 2 * (8 / 10) + 3 / 10
    twinkle := if isLargeStar then r 3 * (3 / 100) + 2 / 100 else r 3 * (2 / 100) + 1 / 100
    x := r 4 * width
    y := r 5 * height
    phase := r 6 }

/-- The method `createStarParticles`. -/
def createStarParticles (env : Env) (s : State) : State :=
  { s with
    stars := (List.range 300).map (fun i =>
      starParticle s.canvasWidth s.canvasHeight (fun k => rnd env s (7 * i + k)))
    randomCalls := s.randomCalls + 7 * 300 }

/-- The object pushed at one iteration of the loop of `createCloudParticles`,
every operation rounded to binary64. -/
def cloudParticle (width height opacityBase opacityVariation : ℚ) (r : Nat → ℚ) : Cloud :=
  { size := fl (fl (r 0 * 120) + 60)
    speed := fl (fl (r 1 * fl (3 / 10)) + fl (1 / 10))
    opacity := fl (fl (r 2 * opacityVariation) + opacityBase)
    x := fl (fl (r 3 * fl (width + 200)) - 100)
    y := fl (fl (r 4 * height) * fl (7 / 10))
    shape := ⌊fl (r 5 * 3)⌋ }

/-- The number of clouds `createCloudParticles` creates for a category. -/
def cloudCount (weatherMain : String) : Nat :=
  if weatherMain = "clouds" then 25
  else if weatherMain = "rain" ∨ weatherMain = "drizzle" then 20
  else if weatherMain = "thunderstorm" then 30
  else 15

/-- The decimal literal assigned to `opacityBase`. -/
def cloudOpacityBase (weatherMain : String) : ℚ :=
  if weatherMain = "clouds" then 4 / 10
  else if weatherMain = "rain" ∨ weatherMain = "drizzle" then 5 / 10
  else if weatherMain = "thunderstorm" then 6 / 10
  else 3 / 10

/-- The decimal literal assigned to `opacityVariation`. -/
def cloudOpacityVariation (weatherMain : String) : ℚ :=
  if weatherMain = "clouds" then 3 / 10
  else if weatherMain = "rain" ∨ weatherMain = "drizzle" then 2 / 10
  else if weatherMain = "thunderstorm" then 2 / 10
  else 2 / 10

/-- The method `createCloudParticles`, with the snapshot `d` loaded: the
literals are binary64 numbers, and `opacityBase *= 0.7` rounds its product. -/
def createCloudParticles (env : Env) (d : WeatherData) (s : State) : State :=
  let weatherMain := toLowerCase d.current.weather.main
  let isNight := isNightTime env (some d)
  let opacityBase :=
    if isNight then fl (fl (cloudOpacityBase weatherMain) * fl (7 / 10))
    else fl (cloudOpacityBase weatherMain)
  let opacityVariation := fl (cloudOpacityVariation weatherMain)
  { s with
    clouds := some ((List.range (cloudCount weatherMain)).map (fun i =>
      cloudParticle s.canvasWidth s.canvasHeight opacityBase opacityVariation
        (fun k => rnd env s (6 * i + k))))
    randomCalls := s.randomCalls + 6 * cloudCount weatherMain }

/-! ## The lightning timer -/

/-- The call `clearInterval(h)`: the timer of that handle is no longer live. -/
def clearInterval (h : Handle) (timers : List Timer) : List Timer :=
  match h with
  | .id n => timers.filter (fun t => t.id != n)
  | _ => timers

/-- The method `activateStormEffect`: the overlay is shown, the stored timer
is cancelled if the field holds one, and a new timer of period
`2000 + Math.random() * 3000`, the product and the sum rounded to binary64, is
created and stored. -/
def activateStormEffect (env : Env) (s : State) : State :=
  let timers := if s.lightningInterval.truthy then clearInterval s.lightningInterval s.timers else s.timers
  { s with
    glitchOpacity := "1"
    timers := timers ++ [{ id := s.nextTimerId, period := fl (2000 + fl (rnd env s 0 * 3000)) }]
    lightningInterval := .id s.nextTimerId
    nextTimerId := s.nextTimerId + 1
    randomCalls := s.randomCalls + 1 }

/-- The callback of a lightning timer: whether it calls
`createOrganicLightning`, and the state after the draw of its guard
`this.effects.storm.active && Math.random() < 0.15` (the draw is made only
when the storm flag is set). -/
def lightningCallback (env : Env) (s : State) : Bool × State :=
  if s.effects.storm then
    (decide (rnd env s 0 < 15 / 100), { s with randomCalls := s.randomCalls + 1 })
  else
    (false, s)

/-! ## The classifier -/

/-- The loop that resets every flag of `this.effects`. -/
def resetEffects (s : State) : State :=
  { s with effects := { rain := false, snow := false, storm := false, stars := false, clouds := false } }

/-- The chain of tests on the category in `updateWeatherEffects`. -/
def activateByCategory (env : Env) (d : WeatherData) (weatherMain weatherDescription : String)
    (isNight : Bool) (s : State) : State :=
  if weatherMain = "rain" then
    let s1 :=
      if includes weatherDescription "light" || includes weatherDescription "drizzle" then
        createRainParticles env d { s with effects := { s.effects with rain := true } }
      else
        createRainParticles env d { s with effects := { s.effects with rain := true } }
    createCloudParticles env d { s1 with effects := { s1.effects with clouds := true } }
  else if weatherMain = "drizzle" then
    let s1 := createRainParticles env d { s with effects := { s.effects with rain := true } }
    createCloudParticles env d { s1 with effects := { s1.effects with clouds := true } }
  else if weatherMain = "thunderstorm" then
    let s1 := { s with effects := { s.effects with rain := true, storm := true, clouds := true } }
    activateStormEffect env (createCloudParticles env d (createRainParticles env d s1))
  else if weatherMain = "snow" then
    let s1 := { s with effects := { s.effects with snow := true, clouds := true } }
    createCloudParticles env d (createSnowParticles env s1)
  else if weatherMain = "clouds" then
    createCloudParticles env d { s with effects := { s.effects with clouds := true } }
  else if weatherMain = "clear" then
    if isNight then
      createStarParticles env { s with effects := { s.effects with stars := true } }
    else s
  else s

/-- The night rule of `updateWeatherEffects`, applied whatever the category. -/
def applyNightRule (env : Env) (isNight : Bool) (s : State) : State :=
  if isNight then
    let s1 := { s with effects := { s.effects with stars := true } }
    if s1.stars.length = 0 then createStarParticles env s1 else s1
  else
    { s with effects := { s.effects with stars := false }, stars := [] }

/-- The last block of `updateWeatherEffects`: outside a thunderstorm the
stored timer is cancelled and the overlay hidden. -/
def clearStormEffects (weatherMain : String) (s : State) : State :=
  if weatherMain ≠ "thunderstorm" ∧ s.lightningInterval.truthy = true then
    { s with
      timers := clearInterval s.lightningInterval s.timers
      lightningInterval := .null
      glitchOpacity := "0" }
  else s

/-- The method `updateWeatherEffects`. -/
def updateWeatherEffects (env : Env) (s : State) : State :=
  match s.currentWeatherData with
  | none => s
  | some d =>
    let weatherMain := toLowerCase d.current.weather.main
    let weatherDescription := toLowerCase d.current.weather.description
    let isNight := isNightTime env s.currentWeatherData
    let s1 := resetEffects s
    let s2 := activateByCategory env d weatherMain weatherDescription isNight s1
    let s3 := applyNightRule env isNight s2
    clearStormEffects weatherMain s3

/-- The value of `weatherCondition` in `updateBackgroundTheme`. -/
def weatherCondition (weatherMain weatherDescription : String) : String :=
  if weatherMain = "clear" then "clear"
  else if weatherMain = "clouds" then "cloudy"
  else if weatherMain = "rain" then
    if includes weatherDescription "light" || includes weatherDescription "drizzle" then "drizzle"
    else "rainy"
  else if weatherMain = "drizzle" then "drizzle"
  else if weatherMain = "thunderstorm" then "stormy"
  else if weatherMain = "snow" then "snow"
  else "clear"

/-- The value of `themeClass` in `updateBackgroundTheme`. -/
def themeClass (env : Env) (d : WeatherData) : String :=
  let weatherMain := toLowerCase d.current.weather.main
  let weatherDescription := toLowerCase d.current.weather.description
  let timeOfDay := if isNightTime env (some d) then "night" else "day"
  weatherCondition weatherMain weatherDescription ++ "-" ++ timeOfDay

/-- The method `updateBackgroundTheme`: the body's classes are replaced by the
theme key, then `updateWeatherEffects` runs. -/
def updateBackgroundTheme (env : Env) (s : State) : State :=
  match s.currentWeatherData with
  | none => s
  | some d => updateWeatherEffects env { s with bodyClass := themeClass env d }

/-! ## Operations of the page -/

/-- The snapshot `forceScenario` builds from `base` for a scenario name. -/
def forcedWeather (env : Env) (scenario : String) (base : Current) : Current :=
  if scenario = "clear" then
    { base with weather := { main := "Clear", description := "Céu limpo", icon := "01d" } }
  else if scenario = "rain" then
    { base with weather := { main := "Rain", description := "Chuva", icon := "10d" } }
  else if scenario = "snow" then
    { base with weather := { main := "Snow", description := "Neve", icon := "13d" } }
  else if scenario = "thunderstorm" then
    { base with weather := { main := "Thunderstorm", description := "Tempestade", icon := "11d" } }
  else if scenario = "clouds" then
    { base with weather := { main := "Clouds", description := "Nublado", icon := "03d" } }
  else if scenario = "night" then
    { base with
      weather := { main := "Clear", description := "Noite limpa", icon := "01n" }
      sunrise := .date (timeClip (some ((env.now : ℚ) - 12 * 3600 * 1000)))
      sunset := .date (timeClip (some ((env.now : ℚ) - 6 * 3600 * 1000))) }
  else base

/-- The method `forceScenario`. (`updateWeatherDisplay`, which it also calls,
writes text into the page only.) -/
def forceScenario (env : Env) (scenario : String) (s : State) : State :=
  match s.currentWeatherData with
  | none => s
  | some d =>
    let s1 := { s with currentWeatherData := some { d with current := forcedWeather env scenario d.current } }
    updateBackgroundTheme env (updateWeatherEffects env s1)

/-- The method `loadWeatherData`, given the outcome of the fetch: `some data`
when the response has `success`, `none` otherwise (the error is shown and the
state kept). -/
def loadWeatherData (env : Env) (fetched : Option WeatherData) (s : State) : State :=
  match fetched with
  | none => s
  | some data =>
    updateBackgroundTheme env (updateWeatherEffects env { s with currentWeatherData := some data })

/-- The last statement of `init`, `this.lightningInterval = null`, which runs
once the first `loadWeatherData` has returned. -/
def initEnd (s : State) : State := { s with lightningInterval := .null }

/-- What can happen to the page once it is constructed. -/
inductive Action where
  /-- A call of `loadWeatherData` (from `init`, the refresh button, a search or
  the 10-minute timer) with the outcome of its fetch. -/
  | load (fetched : Option WeatherData)
  /-- A click on a scenario button. -/
  | force (scenario : String)
  /-- The end of `init`. -/
  | initEnd

/-- The effect of one action. -/
def step (env : Env) (a : Action) (s : State) : State :=
  match a with
  | .load fetched => loadWeatherData env fetched s
  | .force scenario => forceScenario env scenario s
  | .initEnd => initEnd s

/-- The effect of a sequence of actions, each in its own environment. -/
def run (s : State) (trace : List (Env × Action)) : State :=
  trace.foldl (fun st ea => step ea.1 ea.2 st) s

/-- The life of a page: actions while `init` awaits (clicks can already
arrive), the load of `init` followed at once by its last statement, then any
further actions. -/
def pageTrace (before : List (Env × Action)) (envInit : Env) (first : Option WeatherData)
    (after : List (Env × Action)) : List (Env × Action) :=
  before ++ [(envInit, .load first), (envInit, .initEnd)] ++ after

/-! ## Per-frame updates of the precipitation particles

Drawing on the canvas leaves the state unchanged and is left out. Each step
returns the particle after the callback of `forEach` and the number of draws
of `Math.random()` the callback made, the draws being `r 0, r 1, ...`. -/

/-- The number of draws `createRainSplash` makes: one when the first draw
exceeds 0.5 (no splash is drawn), else the size and the draw for the secondary
splashes, and three more for each of the three secondary splashes. -/
def rainSplashDraws (r : Nat → ℚ) : Nat :=
  if r 0 > 1 / 2 then 1 else if r 2 > 7 / 10 then 12 else 3

/-- The callback of `animateRain` on one particle; the last component tells
whether `createRainSplash` was called. -/
def rainStep (width height : ℚ) (r : Nat → ℚ) (p : Particle) : Particle × Nat × Bool :=
  if p.type ≠ some "rain" then (p, 0, false)
  else
    let y1 := JSNum.add p.y p.speed
    let x1 := JSNum.sub p.x (some (1 + p.angle.orZero * (1 / 10)))
    let splash := JSNum.gt y1 (some (height - 20))
    let k := if splash then rainSplashDraws r else 0
    if JSNum.gt y1 (some height) then
      ({ p with y := JSNum.neg p.length, x := some (r k * width), angle := some (r (k + 1) * 10 - 5) },
        k + 2, splash)
    else
      ({ p with y := y1, x := x1 }, k, splash)

/-- The callback of `animateDrizzle` on one particle; the last component tells
whether `createRainSplash` was called, which this callback never does. -/
def drizzleStep (width height : ℚ) (r : Nat → ℚ) (p : Particle) : Particle × Nat × Bool :=
  if p.type ≠ some "drizzle" then (p, 0, false)
  else
    let y1 := JSNum.add p.y p.speed
    let x1 := JSNum.sub p.x (some (1 / 2 + p.angle.orZero * (5 / 100)))
    if JSNum.gt y1 (some height) then
      ({ p with y := JSNum.neg p.length, x := some (r 0 * width), angle := some (r 1 * 8 - 4) },
        2, false)
    else
      ({ p with y := y1, x := x1 }, 0, false)

/-- The callback of `animateSnow` on one particle. -/
def snowStep (width height : ℚ) (r : Nat → ℚ) (p : Particle) : Particle × Nat :=
  let y1 := JSNum.add p.y p.speed
  let x1 := JSNum.add p.x p.drift
  let recycled := JSNum.gt y1 (some height)
  let y2 := if recycled then JSNum.neg p.size else y1
  let x2 := if recycled then some (r 0 * width) else x1
  let k := if recycled then 1 else 0
  if JSNum.gt x2 (some width) || JSNum.lt x2 (some 0) then
    ({ p with y := y2, x := some (r k * width) }, k + 1)
  else
    ({ p with y := y2, x := x2 }, k)

/-- A particle after `n` frames of rain, frame `j` drawing from `rs j`. -/
def rainFrames (width height : ℚ) (rs : Nat → Nat → ℚ) (n : Nat) (p : Particle) : Particle :=
  match n with
  | 0 => p
  | n + 1 => (rainStep width height (rs n) (rainFrames width height rs n p)).1

/-- A particle after `n` frames of drizzle. -/
def drizzleFrames (width height : ℚ) (rs : Nat → Nat → ℚ) (n : Nat) (p : Particle) : Particle :=
  match n with
  | 0 => p
  | n + 1 => (drizzleStep width height (rs n) (drizzleFrames width height rs n p)).1

/-- A particle after `n` frames of snow. -/
def snowFrames (width height : ℚ) (rs : Nat → Nat → ℚ) (n : Nat) (p : Particle) : Particle :=
  match n with
  | 0 => p
  | n + 1 => (snowStep width height (rs n) (snowFrames width height rs n p)).1

/-- The callback of `animateClouds` on one cloud. -/
def cloudStep (width height : ℚ) (r : Nat → ℚ) (c : Cloud) : Cloud × Nat :=
  let x1 := c.x + c.speed
  if x1 > width + c.size then
    ({ c with x := -c.size * 2, y := r 0 * height * (7 / 10), opacity := r 1 * (3 / 10) + 2 / 10 }, 2)
  else
    ({ c with x := x1 }, 0)

/-! ## The frame

A method that reads a property of `undefined` or `null` throws: its result is
`none`. -/

/-- The loop `forEach` over a population: each callback draws after the
draws of the callbacks before it. The result is the population after the
loop and the number of draws made. -/
def forEachDraws {α : Type} (f : (Nat → ℚ) → α → α × Nat) (r : Nat → ℚ) :
    List α → List α × Nat
  | [] => ([], 0)
  | a :: rest =>
    let t := f r a
    let u := forEachDraws f (fun i => r (t.2 + i)) rest
    (t.1 :: u.1, t.2 + u.2)

/-- The method `animateStars`: it draws the stars and changes no field. -/
def animateStars (s : State) : State := s

/-- The method `animateClouds`: `this.clouds.forEach` throws when the field
is absent. -/
def animateClouds (env : Env) (s : State) : Option State :=
  match s.clouds with
  | none => none
  | some clouds =>
    let t := forEachDraws (cloudStep s.canvasWidth s.canvasHeight) (rnd env s) clouds
    some { s with clouds := some t.1, randomCalls := s.randomCalls + t.2 }

/-- The method `animateSnow`. -/
def animateSnow (env : Env) (s : State) : Option State :=
  let t := forEachDraws (snowStep s.canvasWidth s.canvasHeight) (rnd env s) s.particles
  some { s with particles := t.1, randomCalls := s.randomCalls + t.2 }

/-- The method `animateRain`: `this.currentWeatherData.current` throws when
no snapshot is loaded. -/
def animateRain (env : Env) (s : State) : Option State :=
  match s.currentWeatherData with
  | none => none
  | some _ =>
    let t := forEachDraws
      (fun r p => ((rainStep s.canvasWidth s.canvasHeight r p).1,
        (rainStep s.canvasWidth s.canvasHeight r p).2.1)) (rnd env s) s.particles
    some { s with particles := t.1, randomCalls := s.randomCalls + t.2 }

/-- The callback `animate` of `startAnimation`, one frame: the canvas is
cleared, then the active effects run in the order stars, clouds, snow, rain.
(The object `this.effects` has no key `drizzle`, so the test
`this.effects.drizzle && this.effects.drizzle.active` fails and
`animateDrizzle` does not run.) -/
def animate (env : Env) (s : State) : Option State :=
  let s1 := if s.effects.stars then animateStars s else s
  (if s1.effects.clouds then animateClouds env s1 else some s1).bind (fun s2 =>
    (if s2.effects.snow then animateSnow env s2 else some s2).bind (fun s3 =>
      if s3.effects.rain then animateRain env s3 else some s3))

/-- The methods one frame calls, in order. -/
def frameCalls (s : State) : List String :=
  ["clearCanvas"] ++ (if s.effects.stars then ["animateStars"] else [])
    ++ (if s.effects.clouds then ["animateClouds"] else [])
    ++ (if s.effects.snow then ["animateSnow"] else [])
    ++ (if s.effects.rain then ["animateRain"] else [])

/-- What a frame needs of the state: the clouds exist when their flag is
set, and a snapshot is loaded when the rain flag is set. -/
def State.FrameSafe (s : State) : Prop :=
  (s.effects.clouds = true → s.clouds.isSome = true) ∧
  (s.effects.rain = true → s.currentWeatherData.isSome = true)

/-! ## The lightning flash -/

/-- An item of `flashSequence`: an intensity and a duration in milliseconds. -/
structure FlashStage where
  intensity : ℚ
  duration : Nat

/-- The constant `flashSequence` of `createOrganicLightning`. -/
def flashSequence : List FlashStage :=
  [⟨4 / 10, 50⟩, ⟨0, 30⟩, ⟨7 / 10, 80⟩, ⟨0, 20⟩, ⟨9 / 10, 40⟩, ⟨0, 100⟩]

/-- A value of the style `background` of the overlay: a value the page gave
it, or the white `rgba(255, 255, 255, alpha)` of a flash. -/
inductive Background where
  | css (value : String)
  | white (alpha : ℚ)

/-- The variables of one call of `createOrganicLightning` and the two styles
its closure writes: the background of the overlay and the brightness of the
filter of the body (`none`: as the page had it). -/
structure FlashState where
  originalBg : Background
  currentFlash : Nat
  overlayBackground : Background
  bodyBrightness : Option ℚ

/-- The start of `createOrganicLightning`: the background of the overlay is
kept in `originalBg` and `currentFlash` is 0. -/
def createOrganicLightning (overlay : Background) (bodyBrightness : Option ℚ) : FlashState :=
  { originalBg := overlay, currentFlash := 0, overlayBackground := overlay
    bodyBrightness := bodyBrightness }

/-- One call of the closure `executeFlash`. Past the end of the sequence it
restores the background and returns (`none`); else it applies the stage
`flashSequence[currentFlash]`, increments `currentFlash` and schedules itself
after the duration of the stage (`some` of that stage). -/
def executeFlash (st : FlashState) : FlashState × Option FlashStage :=
  if h : st.currentFlash ≥ flashSequence.length then
    ({ st with overlayBackground := st.originalBg }, none)
  else
    let flash := flashSequence.get ⟨st.currentFlash, Nat.lt_of_not_ge h⟩
    if flash.intensity > 0 then
      ({ st with
          overlayBackground := .white flash.intensity
          bodyBrightness := some (1 + flash.intensity)
          currentFlash := st.currentFlash + 1 }, some flash)
    else
      ({ st with
          overlayBackground := st.originalBg
          bodyBrightness := some 1
          currentFlash := st.currentFlash + 1 }, some flash)

/-- The calls of `executeFlash` that follow one another through `setTimeout`,
at most `fuel` of them: the state when a call returns without scheduling
another, with the stages applied in order; `none` when `fuel` calls do not
reach that point. -/
def runFlash (fuel : Nat) (st : FlashState) : Option (FlashState × List FlashStage) :=
  match fuel with
  | 0 => none
  | fuel + 1 =>
    match executeFlash st with
    | (st1, none) => some (st1, [])
    | (st1, some flash) => (runFlash fuel st1).map (fun t => (t.1, flash :: t.2))

/-- The seconds of the day, `hours * 3600 + minutes * 60 + seconds`, that the
host's clock shows at the time value `t`. -/
def daySeconds (env : Env) (t : Int) : Int :=
  hourFromTime (localTime env t) * 3600 + minFromTime (localTime env t) * 60
    + secFromTime (localTime env t)

/-- The forms of `sunrise` / `sunset` that stand for the instant `t`
(milliseconds since the epoch): a string that parses to it, a `Date` of it,
or the number of seconds `t / 1000`. -/
def SunTime.Denotes (v : SunTime) (t : Int) : Prop :=
  v = .str (some t) ∨ v = .date (some t) ∨ v = .num (some ((t : ℚ) / 1000))

/-- The bound of the time values a `Date` can hold. -/
def dateRange (t : Int) : Prop := abs t ≤ 8640000000000000

/-- The handles left of `ids` once `clearInterval(h)` has run. -/
def idsAfterClear (h : Handle) (ids : List Nat) : List Nat :=
  match h with
  | .id n => ids.filter (fun i => i != n)
  | _ => ids

/-- Whether an action brings a snapshot: a load whose fetch succeeded. -/
def Action.bringsData (a : Action) : Bool :=
  match a with
  | .load (some _) => true
  | _ => false

/-- A drop of the given type, streak length, height `y` and speed. -/
def Particle.IsDrop (p : Particle) (type : String) (length y speed : ℚ) : Prop :=
  p.type = some type ∧ p.length = some length ∧ p.y = some y ∧ p.speed = some speed

/-- A snowflake of the given size, height `y` and speed, at a position `x`
with a drift. -/
def Particle.IsFlake (p : Particle) (size y speed : ℚ) : Prop :=
  p.size = some size ∧ p.y = some y ∧ p.speed = some speed ∧
    (∃ x, p.x = some x) ∧ ∃ drift, p.drift = some drift

/-- The state holds no snapshot, no active effect and no particle. -/
def State.Idle (s : State) : Prop :=
  s.currentWeatherData = none ∧
  s.effects = { rain := false, snow := false, storm := false, stars := false, clouds := false } ∧
  s.particles = [] ∧ s.stars = [] ∧ s.clouds = none ∧ s.timers = []

/-- The state once `d` is the snapshot held in `currentWeatherData`. -/
def State.withData (s : State) (d : WeatherData) : State :=
  { s with currentWeatherData := some d }

/-- The host's zone offsets at the given instants differ pairwise by at most
`bound` milliseconds. -/
def Env.zoneSpreadLe (env : Env) (bound : Int) (instants : List Int) : Prop :=
  ∀ t ∈ instants, ∀ u ∈ instants, env.localTZA t - env.localTZA u ≤ bound

/-! ## The rules as the specification words them -/

/-- The rule table of the classifier for the flags `(rain, snow, storm,
clouds)`, by lower-cased category: Rain or Drizzle give rain and clouds;
Thunderstorm gives rain, storm and clouds; Snow gives snow and clouds; Clouds
gives clouds; Clear and every other category give none. -/
def ruleTable (category : String) : Bool × Bool × Bool × Bool :=
  if category = "rain" ∨ category = "drizzle" then (true, false, false, true)
  else if category = "thunderstorm" then (true, false, true, true)
  else if category = "snow" then (false, true, false, true)
  else if category = "clouds" then (false, false, false, true)
  else (false, false, false, false)

/-- The cloud table of the specification, by lower-cased category: the
number of clouds, the opacity baseline and the opacity variation. -/
def cloudProfile (category : String) : Nat × ℚ × ℚ :=
  if category = "clouds" then (25, 4 / 10, 3 / 10)
  else if category = "rain" ∨ category = "drizzle" then (20, 5 / 10, 2 / 10)
  else if category = "thunderstorm" then (30, 6 / 10, 2 / 10)
  else (15, 3 / 10, 2 / 10)

/-- The twelve theme keys. -/
def themeKeys : List String :=
  ["clear-day", "clear-night", "cloudy-day", "cloudy-night", "rainy-day", "rainy-night",
   "drizzle-day", "drizzle-night", "stormy-day", "stormy-night", "snow-day", "snow-night"]

/-! ## Example inputs -/

/-- A host whose clock is UTC. -/
def utcHost (now : Int) : Env := { now := now, localTZA := fun _ => 0, random := fun _ => 0 }

/-- A host whose clock is UTC and whose every draw is `r`. -/
def drawHost (now : Int) (r : ℚ) : Env :=
  { now := now, localTZA := fun _ => 0, random := fun _ => r }

/-- A host whose clock is eight hours ahead of UTC. -/
def aheadHost (now : Int) : Env :=
  { now := now, localTZA := fun _ => 28800000, random := fun _ => 0 }

/-- A clear day at UTC: sunrise at 06:00 and sunset at 18:00 of the first day
of the epoch. -/
def clearDay : WeatherData :=
  ⟨⟨⟨"Clear", "clear sky", "01d"⟩, 0, .date (some 21600000), .date (some 64800000)⟩⟩

/-- A snapshot of a high latitude, two hours ahead of UTC: the sun rises at
02:00 local time and sets at 00:30 local time of the following night. -/
def polarDay : WeatherData :=
  ⟨⟨⟨"Clear", "clear sky", "01d"⟩, 7200, .date (some 0), .date (some 81000000)⟩⟩

/-- A thunderstorm by day at UTC. -/
def stormDay : WeatherData :=
  ⟨⟨⟨"Thunderstorm", "heavy thunderstorm", "11d"⟩, 0, .date (some 21600000), .date (some 64800000)⟩⟩

/-- The snapshot of the thunderstorm scenario evaluated at the instant `t`:
sunrise three hours before `t`, sunset three hours after, offset 0. -/
def stormAround (t : Int) : WeatherData :=
  ⟨⟨⟨"Thunderstorm", "heavy thunderstorm", "11d"⟩, 0, .date (some (t - 10800000)),
    .date (some (t + 10800000))⟩⟩

/-- The snapshot of the clear-night scenario evaluated at the instant `t`
with the offset `tz`: sunrise six hours before `t`, sunset one hour before. -/
def clearAfterSunset (t tz : Int) : WeatherData :=
  ⟨⟨⟨"Clear", "clear sky", "01n"⟩, tz, .date (some (t - 21600000)), .date (some (t - 3600000))⟩⟩

/-- A host on the clock of Santiago de Chile around the end of summer time
2024: three hours behind UTC until 2024-04-07 03:00 UTC (time value
1712458800000), when the clock goes from 24:00 back to 23:00, four hours
behind from then on. -/
def santiagoHost (now : Int) : Env :=
  { now := now
    localTZA := fun t => if t < 1712458800000 then -10800000 else -14400000
    random := fun _ => 0 }

/-- A snowfall by day at UTC. -/
def snowDay : WeatherData :=
  ⟨⟨⟨"Snow", "light snow", "13d"⟩, 0, .date (some 21600000), .date (some 64800000)⟩⟩

/-- An overcast sky at UTC, sunrise at 06:00 and sunset at 18:00. -/
def cloudsDay : WeatherData :=
  ⟨⟨⟨"Clouds", "overcast clouds", "04d"⟩, 0, .date (some 21600000), .date (some 64800000)⟩⟩

/-- A drizzle by day at UTC. -/
def drizzleDay : WeatherData :=
  ⟨⟨⟨"Drizzle", "light intensity drizzle", "09d"⟩, 0, .date (some 21600000),
    .date (some 64800000)⟩⟩

/-- A host whose clock is UTC and whose first 2100 draws are 0, the later
ones 1/2. -/
def twoPhaseHost (now : Int) : Env :=
  { now := now, localTZA := fun _ => 0, random := fun n => if n < 2100 then 0 else 1 / 2 }

/-- A page on a clear night, at 20:00 with the sunset at 19:00, after one
`updateWeatherEffects`: it holds 300 stars, built from draws that are all 0. -/
def starryPage : State :=
  updateWeatherEffects (twoPhaseHost 72000000)
    ((construct 800 600).withData (clearAfterSunset 72000000 0))

/-- The page after a first load of `data` at the instant `now`, on a canvas of
800 by 600. -/
def loadedPage (now : Int) (data : WeatherData) : State :=
  loadWeatherData (utcHost now) (some data) (construct 800 600)

/-! ## Facts on rounding -/

theorem roundHalfEven_spec (y : ℚ) : RoundsTo y (roundHalfEven y) := by
  have h1 : (⌊y⌋ : ℚ) ≤ y := Int.floor_le y
  have h2 : y < ⌊y⌋ + 1 := Int.lt_floor_add_one y
  unfold roundHalfEven RoundsTo
  split_ifs with a b c
  · left
    constructor <;> linarith
  · left
    push_cast
    constructor <;> linarith
  · right
    refine ⟨Or.inl ?_, c⟩
    linarith
  · right
    refine ⟨Or.inr ?_, by omega⟩
    push_cast
    linarith

theorem roundsTo_unique (y : ℚ) (m n : Int) (hm : RoundsTo y m) (hn : RoundsTo y n) : m = n := by
  unfold RoundsTo at hm hn
  have key : ∀ a b : Int, (a : ℚ) < b + 1 → a ≤ b := fun a b h => by
    have : (a : ℚ) < ((b + 1 : Int) : ℚ) := by push_cast; exact h
    have := Int.cast_lt.1 this
    omega
  have keq : ∀ a b : Int, (a : ℚ) = b + 1 → a = b + 1 := fun a b h => by
    have : (a : ℚ) = ((b + 1 : Int) : ℚ) := by push_cast; exact h
    exact Int.cast_inj.1 this
  rcases hm with ⟨m1, m2⟩ | ⟨m1 | m1, me⟩ <;> rcases hn with ⟨n1, n2⟩ | ⟨n1 | n1, ne⟩
  · have := key m n (by linarith)
    have := key n m (by linarith)
    omega
  · have := key m n (by linarith)
    have := key n m (by linarith)
    omega
  · have := key m n (by linarith)
    have := key n m (by linarith)
    omega
  · have := key m n (by linarith)
    have := key n m (by linarith)
    omega
  · exact Int.cast_inj.1 (by rw [m1, n1])
  · have := keq n m (by linarith)
    omega
  · have := key m n (by linarith)
    have := key n m (by linarith)
    omega
  · have := keq m n (by linarith)
    omega
  · exact Int.cast_inj.1 (by rw [m1, n1])

theorem roundHalfEven_eq (y : ℚ) (n : Int) (h : RoundsTo y n) : roundHalfEven y = n :=
  roundsTo_unique y _ _ (roundHalfEven_spec y) h

theorem roundHalfEven_intCast (n : Int) : roundHalfEven n = n :=
  roundHalfEven_eq _ _ (Or.inl ⟨by linarith, by linarith⟩)

theorem roundHalfEven_neg (y : ℚ) : roundHalfEven (-y) = -roundHalfEven y := by
  apply roundHalfEven_eq
  rcases roundHalfEven_spec y with ⟨a, b⟩ | ⟨a | a, e⟩
  · left
    push_cast
    constructor <;> linarith
  · right
    refine ⟨Or.inr ?_, by omega⟩
    push_cast
    linarith
  · right
    refine ⟨Or.inl ?_, by omega⟩
    push_cast
    linarith

theorem roundHalfEven_mono (y z : ℚ) (h : y ≤ z) : roundHalfEven y ≤ roundHalfEven z := by
  by_contra hlt
  push_neg at hlt
  have h1 : (roundHalfEven z : ℚ) + 1 ≤ roundHalfEven y := by
    have : roundHalfEven z + 1 ≤ roundHalfEven y := hlt
    exact_mod_cast this
  have hy : (roundHalfEven y : ℚ) ≤ y + 1 / 2 := by
    rcases roundHalfEven_spec y with ⟨_, b⟩ | ⟨a | a, _⟩ <;> linarith
  have hz : z - 1 / 2 ≤ (roundHalfEven z : ℚ) := by
    rcases roundHalfEven_spec z with ⟨a, _⟩ | ⟨a | a, _⟩ <;> linarith
  have e : y = z := by linarith
  rw [e] at hlt
  exact lt_irrefl _ hlt

theorem two_zpow_log_le (x : ℚ) (hx : 0 < x) : (2 : ℚ) ^ Int.log 2 x ≤ x := by
  simpa using Int.zpow_log_le_self (b := 2) one_lt_two hx

theorem lt_two_zpow_log (x : ℚ) : x < (2 : ℚ) ^ (Int.log 2 x + 1) := by
  simpa using Int.lt_zpow_succ_log_self (b := 2) one_lt_two x

theorem log_two_eq (x : ℚ) (k : Int) (h1 : (2 : ℚ) ^ k ≤ x) (h2 : x < (2 : ℚ) ^ (k + 1)) :
    Int.log 2 x = k := by
  have hx : 0 < x := lt_of_lt_of_le (zpow_pos (by norm_num) k) h1
  have a : k ≤ Int.log 2 x :=
    (Int.zpow_le_iff_le_log (b := 2) one_lt_two hx).1 (by simpa using h1)
  have b : Int.log 2 x < k + 1 :=
    (Int.lt_zpow_iff_log_lt (b := 2) one_lt_two hx).1 (by simpa using h2)
  omega

theorem ulpExp_eq (x : ℚ) (k : Int) (h1 : (2 : ℚ) ^ k ≤ |x|) (h2 : |x| < (2 : ℚ) ^ (k + 1))
    (hk : -1022 ≤ k) : ulpExp x = k - 52 := by
  unfold ulpExp
  rw [log_two_eq |x| k h1 h2, max_eq_left hk]

/-- The value of `fl` at a number of a known binade. -/
theorem fl_eq (x : ℚ) (k n : Int) (h1 : (2 : ℚ) ^ k ≤ |x|) (h2 : |x| < (2 : ℚ) ^ (k + 1))
    (hk : -1022 ≤ k) (hn : RoundsTo (x / 2 ^ (k - 52)) n) : fl x = n * 2 ^ (k - 52) := by
  unfold fl
  rw [ulpExp_eq x k h1 h2 hk, roundHalfEven_eq _ n hn]

theorem fl_zero : fl 0 = 0 := by
  unfold fl
  rw [zero_div]
  have := roundHalfEven_intCast 0
  simp only [Int.cast_zero] at this
  rw [this]
  simp

theorem fl_neg (x : ℚ) : fl (-x) = -fl x := by
  have e : ulpExp (-x) = ulpExp x := by unfold ulpExp; rw [abs_neg]
  unfold fl
  rw [e, neg_div, roundHalfEven_neg]
  push_cast
  ring

theorem fl_nonneg (x : ℚ) (hx : 0 ≤ x) : 0 ≤ fl x := by
  unfold fl
  have hp : (0 : ℚ) < 2 ^ ulpExp x := zpow_pos (by norm_num) _
  have h0 : roundHalfEven ((0 : Int) : ℚ) ≤ roundHalfEven (x / 2 ^ ulpExp x) :=
    roundHalfEven_mono _ _ (by simpa using div_nonneg hx hp.le)
  rw [roundHalfEven_intCast] at h0
  have : (0 : ℚ) ≤ roundHalfEven (x / 2 ^ ulpExp x) := by exact_mod_cast h0
  exact mul_nonneg this hp.le

theorem two_pow_mul_zpow (n : ℕ) (e k : Int) (hk : k = e + n) :
    ((2 ^ n : Int) : ℚ) * 2 ^ e = 2 ^ k := by
  rw [hk, Int.cast_pow, Int.cast_ofNat, zpow_add₀ (by norm_num : (2 : ℚ) ≠ 0), zpow_natCast,
    mul_comm]

theorem fl_mono_pos (x y : ℚ) (hx : 0 < x) (h : x ≤ y) : fl x ≤ fl y := by
  have hy : 0 < y := lt_of_lt_of_le hx h
  have hlog : Int.log 2 x ≤ Int.log 2 y := Int.log_mono_right hx h
  have hex : ulpExp x = max (Int.log 2 x) (-1022) - 52 := by unfold ulpExp; rw [abs_of_pos hx]
  have hey : ulpExp y = max (Int.log 2 y) (-1022) - 52 := by unfold ulpExp; rw [abs_of_pos hy]
  have hle : ulpExp x ≤ ulpExp y := by rw [hex, hey]; omega
  have hpx : (0 : ℚ) < 2 ^ ulpExp x := zpow_pos (by norm_num) _
  have hpy : (0 : ℚ) < 2 ^ ulpExp y := zpow_pos (by norm_num) _
  rcases eq_or_lt_of_le hle with he | hlt
  · unfold fl
    rw [he]
    have := roundHalfEven_mono (x / 2 ^ ulpExp y) (y / 2 ^ ulpExp y)
      (div_le_div_of_nonneg_right h hpy.le)
    have : (roundHalfEven (x / 2 ^ ulpExp y) : ℚ) ≤ roundHalfEven (y / 2 ^ ulpExp y) := by
      exact_mod_cast this
    exact mul_le_mul_of_nonneg_right this hpy.le
  · have hylog : ulpExp y = Int.log 2 y - 52 := by rw [hey]; omega
    -- the rounded `x` is at most the next power of two
    have a1 : x < (2 : ℚ) ^ (ulpExp x + 53) :=
      lt_of_lt_of_le (lt_two_zpow_log x)
        (zpow_le_zpow_right₀ (by norm_num) (by rw [hex]; omega))
    have a2 : x / 2 ^ ulpExp x ≤ ((2 ^ 53 : Int) : ℚ) := by
      rw [div_le_iff₀ hpx, two_pow_mul_zpow 53 _ (ulpExp x + 53) (by norm_num)]
      exact a1.le
    have a3 := roundHalfEven_mono _ _ a2
    rw [roundHalfEven_intCast] at a3
    have a4 : fl x ≤ (2 : ℚ) ^ (ulpExp x + 53) := by
      unfold fl
      have : (roundHalfEven (x / 2 ^ ulpExp x) : ℚ) ≤ ((2 ^ 53 : Int) : ℚ) := by exact_mod_cast a3
      calc (roundHalfEven (x / 2 ^ ulpExp x) : ℚ) * 2 ^ ulpExp x
          ≤ ((2 ^ 53 : Int) : ℚ) * 2 ^ ulpExp x := mul_le_mul_of_nonneg_right this hpx.le
        _ = (2 : ℚ) ^ (ulpExp x + 53) := two_pow_mul_zpow 53 _ _ (by norm_num)
    -- the rounded `y` is at least the power of two below it
    have b1 : (2 : ℚ) ^ (ulpExp y + 52) ≤ y := by
      have := two_zpow_log_le y hy
      rw [hylog]
      simpa using this
    have b2 : ((2 ^ 52 : Int) : ℚ) ≤ y / 2 ^ ulpExp y := by
      rw [le_div_iff₀ hpy, two_pow_mul_zpow 52 _ (ulpExp y + 52) (by norm_num)]
      exact b1
    have b3 := roundHalfEven_mono _ _ b2
    rw [roundHalfEven_intCast] at b3
    have b4 : (2 : ℚ) ^ (ulpExp y + 52) ≤ fl y := by
      unfold fl
      have : ((2 ^ 52 : Int) : ℚ) ≤ (roundHalfEven (y / 2 ^ ulpExp y) : ℚ) := by exact_mod_cast b3
      calc (2 : ℚ) ^ (ulpExp y + 52) = ((2 ^ 52 : Int) : ℚ) * 2 ^ ulpExp y :=
            (two_pow_mul_zpow 52 _ _ (by norm_num)).symm
        _ ≤ (roundHalfEven (y / 2 ^ ulpExp y) : ℚ) * 2 ^ ulpExp y :=
          mul_le_mul_of_nonneg_right this hpy.le
    have c : (2 : ℚ) ^ (ulpExp x + 53) ≤ (2 : ℚ) ^ (ulpExp y + 52) :=
      zpow_le_zpow_right₀ (by norm_num) (by omega)
    linarith

/-- Rounding to binary64 is monotone. -/
theorem fl_mono (x y : ℚ) (h : x ≤ y) : fl x ≤ fl y := by
  rcases lt_trichotomy x 0 with hx | hx | hx
  · rcases lt_or_le y 0 with hy | hy
    · have := fl_mono_pos (-y) (-x) (by linarith) (by linarith)
      rw [fl_neg, fl_neg] at this
      linarith
    · have a := fl_nonneg (-x) (by linarith)
      rw [fl_neg] at a
      have b := fl_nonneg y hy
      linarith
  · rw [hx, fl_zero]
    exact fl_nonneg y (by rw [← hx]; exact h)
  · exact fl_mono_pos x y hx h

/-- A multiple of a power of two with fewer than 54 bits is a binary64
number. -/
theorem fl_grid (n e : Int) (hn : |n| < 2 ^ 53) (he : -1074 ≤ e) :
    fl (n * 2 ^ e) = n * 2 ^ e := by
  have h2 : (2 : ℚ) ≠ 0 := by norm_num
  rcases eq_or_ne n 0 with h0 | h0
  · rw [h0]
    simp [fl_zero]
  have hpe : (0 : ℚ) < 2 ^ e := zpow_pos (by norm_num) _
  have hv : |((n : ℚ) * 2 ^ e)| = |(n : ℚ)| * 2 ^ e := by rw [abs_mul, abs_of_pos hpe]
  have hnq : |(n : ℚ)| < 2 ^ 53 := by
    have : ((|n| : Int) : ℚ) < ((2 ^ 53 : Int) : ℚ) := Int.cast_lt.2 hn
    simpa using this
  have hpos : 0 < |((n : ℚ) * 2 ^ e)| := by
    rw [hv]
    exact mul_pos (abs_pos.2 (Int.cast_ne_zero.2 h0)) hpe
  have hlt : |((n : ℚ) * 2 ^ e)| < 2 ^ (e + 53) := by
    rw [hv, show (e + 53 : Int) = e + (53 : ℕ) by norm_num, zpow_add₀ h2, zpow_natCast,
      mul_comm ((2 : ℚ) ^ e)]
    exact mul_lt_mul_of_pos_right hnq hpe
  have hlog : Int.log 2 |((n : ℚ) * 2 ^ e)| < e + 53 :=
    (Int.lt_zpow_iff_log_lt (b := 2) one_lt_two hpos).1 (by simpa using hlt)
  have hle : ulpExp (n * 2 ^ e) ≤ e := by
    unfold ulpExp
    omega
  obtain ⟨d, hd⟩ : ∃ d : ℕ, e = ulpExp (n * 2 ^ e) + d :=
    ⟨(e - ulpExp (n * 2 ^ e)).toNat, by omega⟩
  have hq : (n : ℚ) * 2 ^ e / 2 ^ ulpExp (n * 2 ^ e) = ((n * 2 ^ d : Int) : ℚ) := by
    rw [div_eq_iff (zpow_ne_zero _ h2)]
    push_cast
    rw [mul_assoc, ← zpow_natCast, ← zpow_add₀ h2, add_comm, ← hd]
  unfold fl
  rw [hq, roundHalfEven_intCast]
  push_cast
  rw [mul_assoc, ← zpow_natCast, ← zpow_add₀ h2, add_comm, ← hd]

/-- A rounded number is a binary64 number. -/
theorem fl_fl (x : ℚ) : fl (fl x) = fl x := by
  have h2 : (2 : ℚ) ≠ 0 := by norm_num
  have hp : (0 : ℚ) < 2 ^ ulpExp x := zpow_pos (by norm_num) _
  have he : -1074 ≤ ulpExp x := by unfold ulpExp; omega
  have hx : |x| < 2 ^ (ulpExp x + 53) :=
    lt_of_lt_of_le (lt_two_zpow_log |x|)
      (zpow_le_zpow_right₀ (by norm_num) (by unfold ulpExp; omega))
  obtain ⟨x1, x2⟩ := abs_lt.1 hx
  have a1 : x / 2 ^ ulpExp x ≤ ((2 ^ 53 : Int) : ℚ) := by
    rw [div_le_iff₀ hp, two_pow_mul_zpow 53 _ (ulpExp x + 53) (by norm_num)]
    exact x2.le
  have a2 : ((-(2 ^ 53) : Int) : ℚ) ≤ x / 2 ^ ulpExp x := by
    rw [le_div_iff₀ hp, Int.cast_neg, neg_mul,
      two_pow_mul_zpow 53 _ (ulpExp x + 53) (by norm_num)]
    exact x1.le
  have b1 := roundHalfEven_mono _ _ a1
  have b2 := roundHalfEven_mono _ _ a2
  rw [roundHalfEven_intCast] at b1 b2
  have hfl : fl x = roundHalfEven (x / 2 ^ ulpExp x) * 2 ^ ulpExp x := rfl
  rcases lt_or_eq_of_le b1 with c1 | c1
  · rcases lt_or_eq_of_le b2 with c2 | c2
    · rw [hfl]
      exact fl_grid _ _ (abs_lt.2 ⟨c2, c1⟩) he
    · have e1 : fl x = ((-(2 ^ 52) : Int) : ℚ) * 2 ^ (ulpExp x + 1) := by
        rw [hfl, ← c2, zpow_add₀ h2]
        push_cast
        ring
      rw [e1]
      exact fl_grid _ _ (by norm_num) (by omega)
  · have e1 : fl x = ((2 ^ 52 : Int) : ℚ) * 2 ^ (ulpExp x + 1) := by
      rw [hfl, c1, zpow_add₀ h2]
      push_cast
      ring
    rw [e1]
    exact fl_grid _ _ (by norm_num) (by omega)

/-- An integer of at most 53 bits is a binary64 number. -/
theorem fl_intCast (n : Int) (hn : |n| < 2 ^ 53) : fl n = n := by
  have := fl_grid n 0 hn (by norm_num)
  simpa using this

/-- The binary64 numbers below 1 are at most `1 - 2⁻⁵³`. -/
theorem le_of_fl_eq_of_lt_one (r : ℚ) (hr : fl r = r) (h1 : r < 1) : r ≤ 1 - 1 / 2 ^ 53 := by
  by_contra hlt
  push_neg at hlt
  have hpos : 0 < r := by
    have : (0 : ℚ) < 1 - 1 / 2 ^ 53 := by norm_num
    linarith
  have e : ulpExp r = -1 - 52 :=
    ulpExp_eq r (-1) (by rw [abs_of_pos hpos]; norm_num; linarith)
      (by rw [abs_of_pos hpos]; norm_num; linarith) (by norm_num)
  unfold fl at hr
  rw [e] at hr
  have hr2 : (roundHalfEven (r / 2 ^ (-1 - 52 : Int)) : ℚ) = r * 2 ^ 53 := by
    have h : ((2 : ℚ) ^ (-1 - 52 : Int)) * 2 ^ 53 = 1 := by norm_num
    calc (roundHalfEven (r / 2 ^ (-1 - 52 : Int)) : ℚ)
        = roundHalfEven (r / 2 ^ (-1 - 52 : Int)) * (2 ^ (-1 - 52 : Int) * 2 ^ 53) := by
          rw [h, mul_one]
      _ = r * 2 ^ 53 := by rw [← mul_assoc, hr]
  have u1 : (roundHalfEven (r / 2 ^ (-1 - 52 : Int)) : ℚ) < ((2 ^ 53 : Int) : ℚ) := by
    rw [hr2]
    push_cast
    linarith
  have u2 : ((2 ^ 53 - 1 : Int) : ℚ) < (roundHalfEven (r / 2 ^ (-1 - 52 : Int)) : ℚ) := by
    rw [hr2]
    push_cast
    have : (1 - 1 / 2 ^ 53) * (2 : ℚ) ^ 53 < r * 2 ^ 53 :=
      mul_lt_mul_of_pos_right hlt (by norm_num)
    linarith
  have v1 := Int.cast_lt.1 u1
  have v2 := Int.cast_lt.1 u2
  omega

theorem fl_le_of_le (x c : ℚ) (h : x ≤ c) (hc : fl c = c) : fl x ≤ c := by
  have := fl_mono x c h
  rwa [hc] at this

theorem le_fl_of_le (x c : ℚ) (h : c ≤ x) (hc : fl c = c) : c ≤ fl x := by
  have := fl_mono c x h
  rwa [hc] at this

/-- The period of the lightning timer lies between 2000 and 5000. -/
theorem period_bounds (r : ℚ) (h0 : 0 ≤ r) (h1 : r < 1) :
    2000 ≤ fl (2000 + fl (r * 3000)) ∧ fl (2000 + fl (r * 3000)) ≤ 5000 := by
  have i0 : fl 0 = 0 := fl_zero
  have i2 : fl 2000 = 2000 := by simpa using fl_intCast 2000 (by norm_num)
  have i3 : fl 3000 = 3000 := by simpa using fl_intCast 3000 (by norm_num)
  have i5 : fl 5000 = 5000 := by simpa using fl_intCast 5000 (by norm_num)
  have a := le_fl_of_le (r * 3000) 0 (by linarith) i0
  have b := fl_le_of_le (r * 3000) 3000 (by linarith) i3
  exact ⟨le_fl_of_le _ _ (by linarith) i2, fl_le_of_le _ _ (by linarith) i5⟩

/-- At the draw `1 - 2⁻⁵²` the product rounds to `3000 - 2⁻⁴¹` and the sum,
half way between two binary64 numbers, to 5000. -/
theorem period_at_last_draw : fl (2000 + fl ((1 - 1 / 2 ^ 52) * 3000)) = 5000 := by
  have a : fl ((1 - 1 / 2 ^ 52) * 3000) = 3000 - 1 / 2 ^ 41 := by
    rw [fl_eq ((1 - 1 / 2 ^ 52) * 3000) 11 (3000 * 2 ^ 41 - 1) (by norm_num [abs_of_pos])
      (by norm_num [abs_of_pos]) (by norm_num) (by unfold RoundsTo; norm_num)]
    norm_num
  rw [a, fl_eq (2000 + (3000 - 1 / 2 ^ 41)) 12 (5000 * 2 ^ 40) (by norm_num [abs_of_pos])
    (by norm_num [abs_of_pos]) (by norm_num) (by unfold RoundsTo; norm_num)]
  norm_num

theorem fl_draw_52 : fl (1 - 1 / 2 ^ 52) = 1 - 1 / 2 ^ 52 := by
  have := fl_grid (2 ^ 52 - 1) (-52) (by norm_num) (by norm_num)
  have e : (((2 ^ 52 - 1 : Int) : ℚ)) * 2 ^ (-52 : Int) = 1 - 1 / 2 ^ 52 := by norm_num
  rwa [e] at this

theorem fl_draw_53 : fl (1 - 1 / 2 ^ 53) = 1 - 1 / 2 ^ 53 := by
  have := fl_grid (2 ^ 53 - 1) (-53) (by norm_num) (by norm_num)
  have e : (((2 ^ 53 - 1 : Int) : ℚ)) * 2 ^ (-53 : Int) = 1 - 1 / 2 ^ 53 := by norm_num
  rwa [e] at this

/-- The length of a drop, and its speed before the multiplier, lie between 15
and 30. -/
theorem rain_length_bounds (r : ℚ) (h0 : 0 ≤ r) (h1 : r < 1) :
    15 ≤ fl (fl (r * 15) + 15) ∧ fl (fl (r * 15) + 15) ≤ 30 := by
  have i15 : fl 15 = 15 := by simpa using fl_intCast 15 (by norm_num)
  have i30 : fl 30 = 30 := by simpa using fl_intCast 30 (by norm_num)
  have a := le_fl_of_le (r * 15) 0 (by linarith) fl_zero
  have b := fl_le_of_le (r * 15) 15 (by linarith) i15
  exact ⟨le_fl_of_le _ _ (by linarith) i15, fl_le_of_le _ _ (by linarith) i30⟩

/-- The speed of a drop of a thunderstorm lies between 22.5 and 45, that of a
drop of rain between 15 and 30. -/
theorem rain_speed_bounds (r : ℚ) (h0 : 0 ≤ r) (h1 : r < 1) :
    (45 / 2 ≤ fl (fl (fl (r * 15) + 15) * (3 / 2)) ∧ fl (fl (fl (r * 15) + 15) * (3 / 2)) ≤ 45) ∧
    (15 ≤ fl (fl (fl (r * 15) + 15) * 1) ∧ fl (fl (fl (r * 15) + 15) * 1) ≤ 30) := by
  obtain ⟨a, b⟩ := rain_length_bounds r h0 h1
  have i15 : fl 15 = 15 := by simpa using fl_intCast 15 (by norm_num)
  have i30 : fl 30 = 30 := by simpa using fl_intCast 30 (by norm_num)
  have i45 : fl 45 = 45 := by simpa using fl_intCast 45 (by norm_num)
  have i22 : fl (45 / 2) = 45 / 2 := by
    have := fl_grid 45 (-1) (by norm_num) (by norm_num)
    have e : ((45 : Int) : ℚ) * 2 ^ (-1 : Int) = 45 / 2 := by norm_num
    rwa [e] at this
  exact ⟨⟨le_fl_of_le _ _ (by linarith) i22, fl_le_of_le _ _ (by linarith) i45⟩,
    ⟨le_fl_of_le _ _ (by linarith) i15, fl_le_of_le _ _ (by linarith) i30⟩⟩

/-- The angle of a drop lies in `[-5, 5)` when the draw is a binary64 number. -/
theorem rain_angle_bounds (r : ℚ) (hd : fl r = r) (h0 : 0 ≤ r) (h1 : r < 1) :
    -5 ≤ fl (fl (r * 10) - 5) ∧ fl (fl (r * 10) - 5) < 5 := by
  have hr := le_of_fl_eq_of_lt_one r hd h1
  have i5 : fl (-5) = -5 := by simpa using fl_intCast (-5) (by norm_num)
  have top : fl (10 - 1 / 2 ^ 49) = 10 - 1 / 2 ^ 49 := by
    have := fl_grid (10 * 2 ^ 49 - 1) (-49) (by norm_num) (by norm_num)
    have e : (((10 * 2 ^ 49 - 1 : Int) : ℚ)) * 2 ^ (-49 : Int) = 10 - 1 / 2 ^ 49 := by norm_num
    rwa [e] at this
  have top5 : fl (5 - 1 / 2 ^ 49) = 5 - 1 / 2 ^ 49 := by
    have := fl_grid (5 * 2 ^ 49 - 1) (-49) (by norm_num) (by norm_num)
    have e : (((5 * 2 ^ 49 - 1 : Int) : ℚ)) * 2 ^ (-49 : Int) = 5 - 1 / 2 ^ 49 := by norm_num
    rwa [e] at this
  have c : fl ((1 - 1 / 2 ^ 53) * 10) = 10 - 1 / 2 ^ 49 := by
    rw [fl_eq ((1 - 1 / 2 ^ 53) * 10) 3 (10 * 2 ^ 49 - 1) (by norm_num [abs_of_pos])
      (by norm_num [abs_of_pos]) (by norm_num) (by unfold RoundsTo; norm_num)]
    norm_num
  have a := le_fl_of_le (r * 10) 0 (by linarith) fl_zero
  have b : fl (r * 10) ≤ 10 - 1 / 2 ^ 49 := by
    have := fl_mono (r * 10) ((1 - 1 / 2 ^ 53) * 10) (by linarith)
    rwa [c] at this
  have u := fl_le_of_le (fl (r * 10) - 5) (5 - 1 / 2 ^ 49) (by linarith) top5
  refine ⟨le_fl_of_le _ _ (by linarith) i5, lt_of_le_of_lt u (by norm_num)⟩

/-- At the draw `1 - 2⁻⁵³` the product rounds to `15 - 2⁻⁴⁹` and the sum, half
way between two binary64 numbers, to 30. -/
theorem rain_length_at_last_draw : fl (fl ((1 - 1 / 2 ^ 53) * 15) + 15) = 30 := by
  have a : fl ((1 - 1 / 2 ^ 53) * 15) = 15 - 1 / 2 ^ 49 := by
    rw [fl_eq ((1 - 1 / 2 ^ 53) * 15) 3 (15 * 2 ^ 49 - 1) (by norm_num [abs_of_pos])
      (by norm_num [abs_of_pos]) (by norm_num) (by unfold RoundsTo; norm_num)]
    norm_num
  rw [a, fl_eq (15 - 1 / 2 ^ 49 + 15) 4 (30 * 2 ^ 48) (by norm_num [abs_of_pos])
    (by norm_num [abs_of_pos]) (by norm_num) (by unfold RoundsTo; norm_num)]
  norm_num

/-- The opacity of a cloud lies between the baseline and the rounded sum of
the baseline and the variation, for a draw of `[0, 1)`. -/
theorem cloud_opacity_bounds (r b v : ℚ) (h0 : 0 ≤ r) (h1 : r < 1) (hb : fl b = b)
    (hv : fl v = v) (hv0 : 0 ≤ v) :
    b ≤ fl (fl (r * v) + b) ∧ fl (fl (r * v) + b) ≤ fl (b + v) := by
  have a := le_fl_of_le (r * v) 0 (mul_nonneg h0 hv0) fl_zero
  have c := fl_le_of_le (r * v) v (by nlinarith) hv
  exact ⟨le_fl_of_le _ _ (by linarith) hb, fl_mono _ _ (by linarith)⟩

/-- The shape of a cloud is 0, 1 or 2 when the draw is a binary64 number of
`[0, 1)`: the product rounds to `3 - 2⁻⁵¹` at most. -/
theorem cloud_shape (r : ℚ) (hd : fl r = r) (h0 : 0 ≤ r) (h1 : r < 1) :
    ⌊fl (r * 3)⌋ = 0 ∨ ⌊fl (r * 3)⌋ = 1 ∨ ⌊fl (r * 3)⌋ = 2 := by
  have hr := le_of_fl_eq_of_lt_one r hd h1
  have c : fl ((1 - 1 / 2 ^ 53) * 3) = 3 - 1 / 2 ^ 51 := by
    rw [fl_eq ((1 - 1 / 2 ^ 53) * 3) 1 (3 * 2 ^ 51 - 1) (by norm_num [abs_of_pos])
      (by norm_num [abs_of_pos]) (by norm_num) (by unfold RoundsTo; norm_num)]
    norm_num
  have a := le_fl_of_le (r * 3) 0 (by linarith) fl_zero
  have b : fl (r * 3) ≤ 3 - 1 / 2 ^ 51 := by
    have := fl_mono (r * 3) ((1 - 1 / 2 ^ 53) * 3) (by linarith)
    rwa [c] at this
  have f0 : 0 ≤ ⌊fl (r * 3)⌋ := Int.floor_nonneg.2 a
  have f3 : ⌊fl (r * 3)⌋ < 3 := Int.floor_lt.2 (by
    push_cast
    have : (3 : ℚ) - 1 / 2 ^ 51 < 3 := by norm_num
    linarith)
  omega

theorem fl_two_tenths : fl (2 / 10) = 3602879701896397 / 2 ^ 54 := by
  rw [fl_eq (2 / 10) (-3) 7205759403792794 (by norm_num [abs_of_pos])
    (by norm_num [abs_of_pos]) (by norm_num) (by unfold RoundsTo; norm_num)]
  norm_num

theorem fl_three_tenths : fl (3 / 10) = 5404319552844595 / 2 ^ 54 := by
  rw [fl_eq (3 / 10) (-2) 5404319552844595 (by norm_num [abs_of_pos])
    (by norm_num [abs_of_pos]) (by norm_num) (by unfold RoundsTo; norm_num)]
  norm_num

theorem fl_four_tenths : fl (4 / 10) = 3602879701896397 / 2 ^ 53 := by
  rw [fl_eq (4 / 10) (-2) 7205759403792794 (by norm_num [abs_of_pos])
    (by norm_num [abs_of_pos]) (by norm_num) (by unfold RoundsTo; norm_num)]
  norm_num

theorem fl_six_tenths : fl (6 / 10) = 5404319552844595 / 2 ^ 53 := by
  rw [fl_eq (6 / 10) (-1) 5404319552844595 (by norm_num [abs_of_pos])
    (by norm_num [abs_of_pos]) (by norm_num) (by unfold RoundsTo; norm_num)]
  norm_num

theorem fl_seven_tenths : fl (7 / 10) = 3152519739159347 / 2 ^ 52 := by
  rw [fl_eq (7 / 10) (-1) 6305039478318694 (by norm_num [abs_of_pos])
    (by norm_num [abs_of_pos]) (by norm_num) (by unfold RoundsTo; norm_num)]
  norm_num

/-- At the draw `1 - 2⁻⁵³`, with the baseline 0.3 and the variation 0.2, the
sum is half way between two binary64 numbers and rounds to 0.5. -/
theorem cloud_opacity_at_last_draw :
    fl (fl ((1 - 1 / 2 ^ 53) * fl (2 / 10)) + fl (3 / 10)) = 1 / 2 := by
  have a : fl ((1 - 1 / 2 ^ 53) * (3602879701896397 / 2 ^ 54)) = 7205759403792793 / 2 ^ 55 := by
    rw [fl_eq ((1 - 1 / 2 ^ 53) * (3602879701896397 / 2 ^ 54)) (-3) 7205759403792793
      (by norm_num [abs_of_pos]) (by norm_num [abs_of_pos]) (by norm_num)
      (by unfold RoundsTo; norm_num)]
    norm_num
  rw [fl_two_tenths, fl_three_tenths, a,
    fl_eq (7205759403792793 / 2 ^ 55 + 5404319552844595 / 2 ^ 54) (-2) (2 ^ 53)
      (by norm_num [abs_of_pos]) (by norm_num [abs_of_pos]) (by norm_num)
      (by unfold RoundsTo; norm_num)]
  norm_num

/-- The product `0.4 * 0.7` rounds to a number below 0.28. -/
theorem cloud_night_base : fl (fl (4 / 10) * fl (7 / 10)) = 5044031582654955 / 2 ^ 54 := by
  rw [fl_four_tenths, fl_seven_tenths,
    fl_eq (3602879701896397 / 2 ^ 53 * (3152519739159347 / 2 ^ 52)) (-2) 5044031582654955
      (by norm_num [abs_of_pos]) (by norm_num [abs_of_pos]) (by norm_num)
      (by unfold RoundsTo; norm_num)]
  norm_num

theorem fl_twentyeight : fl (7 / 10 * (4 / 10)) = 1261007895663739 / 2 ^ 52 := by
  rw [fl_eq (7 / 10 * (4 / 10)) (-2) 5044031582654956 (by norm_num [abs_of_pos])
    (by norm_num [abs_of_pos]) (by norm_num) (by unfold RoundsTo; norm_num)]
  norm_num

/-! ## Facts on dates -/

theorem timeClip_intCast (n : Int) (h : dateRange n) : timeClip (some (n : ℚ)) = some n := by
  have h1 : ¬ (abs (n : ℚ) > 8640000000000000) := by
    have : abs (n : ℚ) ≤ 8640000000000000 := by
      unfold dateRange at h
      exact_mod_cast h
    linarith
  simp only [timeClip, h1, if_false]
  by_cases h0 : (0 : ℚ) ≤ (n : ℚ)
  · simp [h0]
  · simp [h0]

theorem daySeconds_eq (env : Env) (t : Int) :
    daySeconds env t = (localTime env t / 1000) % 86400 := by
  unfold daySeconds hourFromTime minFromTime secFromTime
  generalize localTime env t = u
  omega

theorem secondsOfDay_some (env : Env) (t : Int) :
    secondsOfDay env (some t) = some (daySeconds env t) := by
  simp [secondsOfDay, secondsOfDayExpr, getHours, getMinutes, getSeconds, daySeconds]

theorem shiftedDate_denotes (v : SunTime) (t tz : Int) (hv : v.Denotes t)
    (hr : dateRange (t + tz * 1000)) :
    shiftedDate (toTimestamp v) tz = some (t + tz * 1000) := by
  have key : shiftedDate (some ((t : ℚ) / 1000)) tz = some (t + tz * 1000) := by
    have e : (t : ℚ) / 1000 * 1000 + (tz : ℚ) * 1000 = ((t + tz * 1000 : Int) : ℚ) := by
      push_cast
      ring
    simp only [shiftedDate, JSNum.add, JSNum.mul, e]
    exact timeClip_intCast _ hr
  rcases hv with h | h | h <;> subst h <;> simpa [toTimestamp, getTime] using key

theorem nowLocal_eq (now tz : Int) (hr : dateRange (now + tz * 1000)) :
    timeClip (JSNum.add (some (now : ℚ)) (some ((tz : ℚ) * 1000))) = some (now + tz * 1000) := by
  have e : (now : ℚ) + (tz : ℚ) * 1000 = ((now + tz * 1000 : Int) : ℚ) := by
    push_cast
    ring
  simp only [JSNum.add, e]
  exact timeClip_intCast _ hr

theorem isNightTime_eq (env : Env) (w : Weather) (tz : Int) (sunrise sunset : SunTime)
    (sr ss : Int) (hsr : sunrise.Denotes sr) (hss : sunset.Denotes ss)
    (hn : dateRange (env.now + tz * 1000)) (hr : dateRange (sr + tz * 1000))
    (hs : dateRange (ss + tz * 1000)) :
    isNightTime env (some ⟨⟨w, tz, sunrise, sunset⟩⟩)
      = (decide (daySeconds env (env.now + tz * 1000) < daySeconds env (sr + tz * 1000))
        || decide (daySeconds env (ss + tz * 1000) < daySeconds env (env.now + tz * 1000))) := by
  simp only [isNightTime, shiftedDate_denotes _ _ _ hsr hr, shiftedDate_denotes _ _ _ hss hs,
    nowLocal_eq _ _ hn, secondsOfDay_some, numLt, numGt]

theorem isNightTime_clearDay_morning : isNightTime (utcHost 36000000) (some clearDay) = false := by
  rw [clearDay, isNightTime_eq (utcHost 36000000) _ 0 _ _ 21600000 64800000
    (Or.inr (Or.inl rfl)) (Or.inr (Or.inl rfl)) (by norm_num [dateRange, utcHost])
    (by norm_num [dateRange]) (by norm_num [dateRange])]
  decide

theorem isNightTime_stormDay_noon : isNightTime (utcHost 43200000) (some stormDay) = false := by
  rw [stormDay, isNightTime_eq (utcHost 43200000) _ 0 _ _ 21600000 64800000
    (Or.inr (Or.inl rfl)) (Or.inr (Or.inl rfl)) (by norm_num [dateRange, utcHost])
    (by norm_num [dateRange]) (by norm_num [dateRange])]
  decide

theorem shiftedDate_malformed (tz : Int) : shiftedDate (toTimestamp (.str none)) tz = none := by
  rfl

theorem secondsOfDay_none (env : Env) : secondsOfDay env none = none := by
  rfl

theorem numLt_none_right (a : Option Int) : numLt a none = false := by
  cases a <;> rfl

theorem numLt_none_left (a : Option Int) : numLt none a = false := by
  cases a <;> rfl

/-- With a sunrise that does not parse only the test against the sunset is left. -/
theorem isNightTime_sunrise_malformed (env : Env) (w : Weather) (tz : Int) (sunset : SunTime)
    (ss : Int) (hss : sunset.Denotes ss) (hn : dateRange (env.now + tz * 1000))
    (hs : dateRange (ss + tz * 1000)) :
    isNightTime env (some ⟨⟨w, tz, .str none, sunset⟩⟩)
      = decide (daySeconds env (ss + tz * 1000) < daySeconds env (env.now + tz * 1000)) := by
  simp only [isNightTime, shiftedDate_malformed, shiftedDate_denotes _ _ _ hss hs,
    nowLocal_eq _ _ hn, secondsOfDay_some, secondsOfDay_none, numLt_none_right, numGt, numLt,
    Bool.false_or]

/-- With a sunset that does not parse only the test against the sunrise is left. -/
theorem isNightTime_sunset_malformed (env : Env) (w : Weather) (tz : Int) (sunrise : SunTime)
    (sr : Int) (hsr : sunrise.Denotes sr) (hn : dateRange (env.now + tz * 1000))
    (hr : dateRange (sr + tz * 1000)) :
    isNightTime env (some ⟨⟨w, tz, sunrise, .str none⟩⟩)
      = decide (daySeconds env (env.now + tz * 1000) < daySeconds env (sr + tz * 1000)) := by
  simp only [isNightTime, shiftedDate_malformed, shiftedDate_denotes _ _ _ hsr hr,
    nowLocal_eq _ _ hn, secondsOfDay_some, secondsOfDay_none, numLt_none_left, numGt, numLt,
    Bool.or_false]

theorem dateRange_between (a t b : Int) (ha : dateRange a) (hb : dateRange b) (h1 : a ≤ t)
    (h2 : t ≤ b) : dateRange t := by
  unfold dateRange at *
  rw [abs_le] at *
  omega

/-- On a host whose zone offset is fixed, an instant between 03:00:00 and
20:59:59 has its seconds of the day between those of the instants three hours
before and after. -/
theorem daySeconds_window (env : Env) (c : Int) (hc : ∀ t, env.localTZA t = c) (t : Int)
    (hlo : 10800 ≤ daySeconds env t) (hhi : daySeconds env t < 75600) :
    daySeconds env (t - 10800000) ≤ daySeconds env t ∧
    daySeconds env t ≤ daySeconds env (t + 10800000) := by
  simp only [daySeconds_eq, localTime, hc] at *
  omega

/-- On a host whose zone offset is fixed, an instant is night when the sun
rose six hours and set one hour before it. -/
theorem daySeconds_after_sunset (env : Env) (c : Int) (hc : ∀ t, env.localTZA t = c) (t : Int) :
    daySeconds env t < daySeconds env (t - 21600000) ∨
    daySeconds env (t - 3600000) < daySeconds env t := by
  simp only [daySeconds_eq, localTime, hc]
  omega

/-- On a host whose zone offsets at the three instants differ by at most five
hours, an instant is night when the sun rose twelve hours and set six hours
before it. -/
theorem daySeconds_forced_night (env : Env) (t : Int)
    (hz : env.zoneSpreadLe 18000000 [t, t - 21600000, t - 43200000]) :
    daySeconds env t < daySeconds env (t - 43200000) ∨
    daySeconds env (t - 21600000) < daySeconds env t := by
  have m0 : t ∈ [t, t - 21600000, t - 43200000] := by simp
  have m1 : t - 21600000 ∈ [t, t - 21600000, t - 43200000] := by simp
  have m2 : t - 43200000 ∈ [t, t - 21600000, t - 43200000] := by simp
  have h1 := hz _ m0 _ m1
  have h2 := hz _ m1 _ m0
  have h3 := hz _ m0 _ m2
  have h4 := hz _ m2 _ m0
  have h5 := hz _ m1 _ m2
  have h6 := hz _ m2 _ m1
  simp only [daySeconds_eq, localTime]
  generalize env.localTZA t = a at *
  generalize env.localTZA (t - 21600000) = b at *
  generalize env.localTZA (t - 43200000) = c at *
  omega

/-! ## Facts on the classifier -/

theorem clearStormEffects_effects (m : String) (s : State) :
    (clearStormEffects m s).effects = s.effects := by
  unfold clearStormEffects
  split <;> rfl

theorem applyNightRule_effects (env : Env) (n : Bool) (s : State) :
    (applyNightRule env n s).effects = { s.effects with stars := n } := by
  unfold applyNightRule
  cases n
  · simp
  · simp only [if_true]
    split <;> simp [createStarParticles]

theorem activateByCategory_effects (env : Env) (d : WeatherData) (m desc : String) (n : Bool)
    (s : State) :
    (activateByCategory env d m desc n s).effects =
      if m = "rain" ∨ m = "drizzle" then { s.effects with rain := true, clouds := true }
      else if m = "thunderstorm" then { s.effects with rain := true, storm := true, clouds := true }
      else if m = "snow" then { s.effects with snow := true, clouds := true }
      else if m = "clouds" then { s.effects with clouds := true }
      else if m = "clear" ∧ n = true then { s.effects with stars := true }
      else s.effects := by
  unfold activateByCategory
  by_cases h1 : m = "rain"
  · subst h1
    simp [createRainParticles, createCloudParticles]
  by_cases h2 : m = "drizzle"
  · subst h2
    simp [createRainParticles, createCloudParticles]
  by_cases h3 : m = "thunderstorm"
  · subst h3
    simp [createRainParticles, createCloudParticles, activateStormEffect]
  by_cases h4 : m = "snow"
  · subst h4
    simp [createSnowParticles, createCloudParticles]
  by_cases h5 : m = "clouds"
  · subst h5
    simp [createCloudParticles]
  by_cases h6 : m = "clear"
  · subst h6
    cases n <;> simp [createStarParticles]
  simp [h1, h2, h3, h4, h5, h6]

/-- The flags after `updateWeatherEffects` on a loaded snapshot. -/
theorem updateWeatherEffects_effects (env : Env) (s : State) (d : WeatherData)
    (h : s.currentWeatherData = some d) :
    (updateWeatherEffects env s).effects =
      { rain := (ruleTable (toLowerCase d.current.weather.main)).1
        snow := (ruleTable (toLowerCase d.current.weather.main)).2.1
        storm := (ruleTable (toLowerCase d.current.weather.main)).2.2.1
        stars := isNightTime env (some d)
        clouds := (ruleTable (toLowerCase d.current.weather.main)).2.2.2 } := by
  simp only [updateWeatherEffects, h, clearStormEffects_effects, applyNightRule_effects,
    activateByCategory_effects, resetEffects, ruleTable]
  split_ifs <;> rfl

theorem clearStormEffects_stars (m : String) (s : State) :
    (clearStormEffects m s).stars = s.stars := by
  unfold clearStormEffects
  split <;> rfl

theorem clearStormEffects_bodyClass (m : String) (s : State) :
    (clearStormEffects m s).bodyClass = s.bodyClass := by
  unfold clearStormEffects
  split <;> rfl

theorem clearStormEffects_data (m : String) (s : State) :
    (clearStormEffects m s).currentWeatherData = s.currentWeatherData := by
  unfold clearStormEffects
  split <;> rfl

theorem applyNightRule_bodyClass (env : Env) (n : Bool) (s : State) :
    (applyNightRule env n s).bodyClass = s.bodyClass := by
  cases n
  · rfl
  · simp only [applyNightRule, if_true]
    split <;> rfl

theorem applyNightRule_data (env : Env) (n : Bool) (s : State) :
    (applyNightRule env n s).currentWeatherData = s.currentWeatherData := by
  cases n
  · rfl
  · simp only [applyNightRule, if_true]
    split <;> rfl

theorem applyNightRule_timers (env : Env) (n : Bool) (s : State) :
    (applyNightRule env n s).timers = s.timers ∧
    (applyNightRule env n s).lightningInterval = s.lightningInterval ∧
    (applyNightRule env n s).nextTimerId = s.nextTimerId ∧
    (applyNightRule env n s).glitchOpacity = s.glitchOpacity := by
  cases n
  · exact ⟨rfl, rfl, rfl, rfl⟩
  · simp only [applyNightRule, if_true]
    split <;> exact ⟨rfl, rfl, rfl, rfl⟩

theorem activateByCategory_bodyClass (env : Env) (d : WeatherData) (m desc : String) (n : Bool)
    (s : State) : (activateByCategory env d m desc n s).bodyClass = s.bodyClass := by
  unfold activateByCategory
  split_ifs <;> rfl

theorem activateByCategory_data (env : Env) (d : WeatherData) (m desc : String) (n : Bool)
    (s : State) :
    (activateByCategory env d m desc n s).currentWeatherData = s.currentWeatherData := by
  unfold activateByCategory
  split_ifs <;> rfl

/-- The stars after `updateWeatherEffects` on a loaded snapshot by day. -/
theorem updateWeatherEffects_stars_day (env : Env) (s : State) (d : WeatherData)
    (h : s.currentWeatherData = some d) (hday : isNightTime env (some d) = false) :
    (updateWeatherEffects env s).stars = [] := by
  simp only [updateWeatherEffects, h, hday, clearStormEffects_stars]
  simp [applyNightRule]

theorem updateWeatherEffects_bodyClass (env : Env) (s : State) :
    (updateWeatherEffects env s).bodyClass = s.bodyClass := by
  unfold updateWeatherEffects
  cases h : s.currentWeatherData with
  | none => rfl
  | some d =>
    simp only [clearStormEffects_bodyClass, applyNightRule_bodyClass,
      activateByCategory_bodyClass, resetEffects]

theorem updateWeatherEffects_data (env : Env) (s : State) :
    (updateWeatherEffects env s).currentWeatherData = s.currentWeatherData := by
  unfold updateWeatherEffects
  cases h : s.currentWeatherData with
  | none => simp [h]
  | some d =>
    simp only [clearStormEffects_data, applyNightRule_data, activateByCategory_data,
      resetEffects, h]

theorem updateBackgroundTheme_data (env : Env) (s : State) :
    (updateBackgroundTheme env s).currentWeatherData = s.currentWeatherData := by
  unfold updateBackgroundTheme
  cases h : s.currentWeatherData with
  | none => simp [h]
  | some d => simp only [updateWeatherEffects_data, h]

theorem loadedPage_data (now : Int) (data : WeatherData) :
    (loadedPage now data).currentWeatherData = some data := by
  simp only [loadedPage, loadWeatherData, updateBackgroundTheme_data, updateWeatherEffects_data]

theorem weatherCondition_mem (m desc : String) :
    weatherCondition m desc ∈ ["clear", "cloudy", "rainy", "drizzle", "stormy", "snow"] := by
  unfold weatherCondition
  split_ifs <;> decide

theorem ruleTable_storm_of_ne (m : String) (hm : m ≠ "thunderstorm") :
    (ruleTable m).2.2.1 = false := by
  unfold ruleTable
  split_ifs <;> rfl

theorem ruleTable_storm : (ruleTable "thunderstorm").2.2.1 = true := by
  decide

theorem updateBackgroundTheme_bodyClass (env : Env) (s : State) (d : WeatherData)
    (h : s.currentWeatherData = some d) :
    (updateBackgroundTheme env s).bodyClass = themeClass env d := by
  simp only [updateBackgroundTheme, h, updateWeatherEffects_bodyClass]

theorem clearStormEffects_randomCalls (m : String) (s : State) :
    (clearStormEffects m s).randomCalls = s.randomCalls := by
  unfold clearStormEffects
  split <;> rfl

/-- On a Clear snapshot by night `updateWeatherEffects` calls
`createStarParticles` once, whatever stars there were: the stars are built
from the next 2100 draws. -/
theorem updateWeatherEffects_stars_clear_night (env : Env) (s : State) (d : WeatherData)
    (h : s.currentWeatherData = some d) (hm : toLowerCase d.current.weather.main = "clear")
    (hn : isNightTime env (some d) = true) :
    (updateWeatherEffects env s).stars
      = (List.range 300).map (fun i =>
          starParticle s.canvasWidth s.canvasHeight (fun k => rnd env s (7 * i + k))) ∧
    (updateWeatherEffects env s).randomCalls = s.randomCalls + 7 * 300 := by
  have h1 : ("clear" : String) ≠ "rain" := by decide
  have h2 : ("clear" : String) ≠ "drizzle" := by decide
  have h3 : ("clear" : String) ≠ "thunderstorm" := by decide
  have h4 : ("clear" : String) ≠ "snow" := by decide
  have h5 : ("clear" : String) ≠ "clouds" := by decide
  simp only [updateWeatherEffects, h, hm, hn, clearStormEffects_stars,
    clearStormEffects_randomCalls]
  simp [activateByCategory, h1, h2, h3, h4, h5, applyNightRule, createStarParticles,
    resetEffects, rnd]

theorem weatherCondition_clear (desc : String) : weatherCondition "clear" desc = "clear" := by
  simp [weatherCondition]

theorem ruleTable_clear : ruleTable "clear" = (false, false, false, false) := by
  decide

theorem ruleTable_thunderstorm : ruleTable "thunderstorm" = (true, false, true, true) := by
  decide

theorem forcedWeather_night (env : Env) (base : Current)
    (h1 : dateRange (env.now - 43200000)) (h2 : dateRange (env.now - 21600000)) :
    forcedWeather env "night" base
      = { base with
          weather := { main := "Clear", description := "Noite limpa", icon := "01n" }
          sunrise := .date (some (env.now - 43200000))
          sunset := .date (some (env.now - 21600000)) } := by
  have e1 : (env.now : ℚ) - 12 * 3600 * 1000 = ((env.now - 43200000 : Int) : ℚ) := by
    push_cast
    norm_num
  have e2 : (env.now : ℚ) - 6 * 3600 * 1000 = ((env.now - 21600000 : Int) : ℚ) := by
    push_cast
    norm_num
  have n1 : ("night" : String) ≠ "clear" := by decide
  have n2 : ("night" : String) ≠ "rain" := by decide
  have n3 : ("night" : String) ≠ "snow" := by decide
  have n4 : ("night" : String) ≠ "thunderstorm" := by decide
  have n5 : ("night" : String) ≠ "clouds" := by decide
  simp only [forcedWeather, n1, n2, n3, n4, n5, if_false, if_true, e1, e2,
    timeClip_intCast _ h1, timeClip_intCast _ h2]

/-! ## Facts on the populations -/

theorem clearStormEffects_particles (m : String) (s : State) :
    (clearStormEffects m s).particles = s.particles := by
  unfold clearStormEffects
  split <;> rfl

theorem applyNightRule_particles (env : Env) (n : Bool) (s : State) :
    (applyNightRule env n s).particles = s.particles := by
  cases n
  · rfl
  · simp only [applyNightRule, if_true]
    split <;> rfl

/-- On Rain and on Drizzle `updateWeatherEffects` leaves the population of
`createRainParticles` outside a thunderstorm: 150 drops of type rain. -/
theorem updateWeatherEffects_particles_rain (env : Env) (s : State) (d : WeatherData)
    (h : s.currentWeatherData = some d)
    (hm : toLowerCase d.current.weather.main = "rain" ∨
      toLowerCase d.current.weather.main = "drizzle") :
    (updateWeatherEffects env s).particles
      = (List.range 150).map (fun i =>
          rainParticle s.canvasWidth s.canvasHeight 1 (isNightTime env (some d))
            (fun k => rnd env s (6 * i + k))) := by
  have h1 : ("rain" : String) ≠ "thunderstorm" := by decide
  have h2 : ("drizzle" : String) ≠ "thunderstorm" := by decide
  have h3 : ("drizzle" : String) ≠ "rain" := by decide
  simp only [updateWeatherEffects, h, clearStormEffects_particles, applyNightRule_particles]
  rcases hm with hm | hm
  · simp [activateByCategory, hm, h1, createRainParticles, createCloudParticles, resetEffects,
      rnd]
  · simp [activateByCategory, hm, h2, h3, createRainParticles, createCloudParticles,
      resetEffects, rnd]

theorem cloudProfile_eq (m : String) :
    (cloudCount m, cloudOpacityBase m, cloudOpacityVariation m) = cloudProfile m := by
  unfold cloudCount cloudOpacityBase cloudOpacityVariation cloudProfile
  split_ifs <;> rfl

theorem updateWeatherEffects_canvas (env : Env) (s : State) :
    (updateWeatherEffects env s).canvasWidth = s.canvasWidth ∧
    (updateWeatherEffects env s).canvasHeight = s.canvasHeight := by
  unfold updateWeatherEffects
  cases h : s.currentWeatherData with
  | none => exact ⟨rfl, rfl⟩
  | some d =>
    simp only []
    generalize isNightTime env (some d) = n
    have a : ∀ (m : String) (t : State), (clearStormEffects m t).canvasWidth = t.canvasWidth ∧
        (clearStormEffects m t).canvasHeight = t.canvasHeight := by
      intro m t
      unfold clearStormEffects
      split <;> exact ⟨rfl, rfl⟩
    have b : ∀ (t : State), (applyNightRule env n t).canvasWidth = t.canvasWidth ∧
        (applyNightRule env n t).canvasHeight = t.canvasHeight := by
      intro t
      cases n
      · exact ⟨rfl, rfl⟩
      · simp only [applyNightRule, if_true]
        split <;> exact ⟨rfl, rfl⟩
    have c : ∀ (m desc : String) (t : State),
        (activateByCategory env d m desc n t).canvasWidth = t.canvasWidth ∧
        (activateByCategory env d m desc n t).canvasHeight = t.canvasHeight := by
      intro m desc t
      unfold activateByCategory
      split_ifs <;> exact ⟨rfl, rfl⟩
    rw [(a _ _).1, (a _ _).2, (b _).1, (b _).2, (c _ _ _).1, (c _ _ _).2]
    exact ⟨rfl, rfl⟩

theorem activateByCategory_stars_of_ne (env : Env) (d : WeatherData) (m desc : String)
    (n : Bool) (s : State) (hm : m ≠ "clear") :
    (activateByCategory env d m desc n s).stars = s.stars := by
  unfold activateByCategory
  split_ifs <;> rfl

/-- Outside Clear, by night, `updateWeatherEffects` keeps the stars there are. -/
theorem updateWeatherEffects_stars_kept (env : Env) (s : State) (d : WeatherData)
    (h : s.currentWeatherData = some d) (hm : toLowerCase d.current.weather.main ≠ "clear")
    (hn : isNightTime env (some d) = true) (hs : s.stars ≠ []) :
    (updateWeatherEffects env s).stars = s.stars ∧
    (updateWeatherEffects env s).effects.stars = true := by
  refine ⟨?_, by rw [updateWeatherEffects_effects env s d h, hn]⟩
  simp only [updateWeatherEffects, h, hn, clearStormEffects_stars]
  have a := activateByCategory_stars_of_ne env d (toLowerCase d.current.weather.main)
    (toLowerCase d.current.weather.description) true (resetEffects s) hm
  generalize activateByCategory env d (toLowerCase d.current.weather.main)
    (toLowerCase d.current.weather.description) true (resetEffects s) = s2 at a
  have hlen : s2.stars.length ≠ 0 := by
    rw [a]
    exact fun hc => hs (List.length_eq_zero.1 hc)
  simp only [applyNightRule, if_true, hlen, if_false]
  exact a

theorem isNightTime_starry :
    isNightTime (twoPhaseHost 72000000) (some (clearAfterSunset 72000000 0)) = true := by
  rw [clearAfterSunset, isNightTime_eq (twoPhaseHost 72000000) _ 0 _ _ (72000000 - 21600000)
    (72000000 - 3600000) (Or.inr (Or.inl rfl)) (Or.inr (Or.inl rfl))
    (by norm_num [dateRange, twoPhaseHost]) (by norm_num [dateRange]) (by norm_num [dateRange])]
  decide

/-! ## Facts on the lightning timer -/

/-- The timers `activateStormEffect` and `clearStormEffects` keep: all of them
when the field holds no handle, else those of another handle. -/
theorem clearInterval_mem (h : Handle) (timers : List Timer) (t : Timer) :
    t ∈ clearInterval h timers ↔ t ∈ timers ∧ h ≠ .id t.id := by
  cases h with
  | undefined => simp [clearInterval]
  | null => simp [clearInterval]
  | id n =>
    simp only [clearInterval, List.mem_filter, bne_iff_ne, ne_eq, Handle.id.injEq]
    constructor
    · rintro ⟨h1, h2⟩
      exact ⟨h1, fun h3 => h2 h3.symm⟩
    · rintro ⟨h1, h2⟩
      exact ⟨h1, fun h3 => h2 h3.symm⟩

theorem activateByCategory_lightning_of_ne (env : Env) (d : WeatherData) (m desc : String)
    (n : Bool) (s : State) (hm : m ≠ "thunderstorm") :
    (activateByCategory env d m desc n s).timers = s.timers ∧
    (activateByCategory env d m desc n s).lightningInterval = s.lightningInterval ∧
    (activateByCategory env d m desc n s).nextTimerId = s.nextTimerId ∧
    (activateByCategory env d m desc n s).glitchOpacity = s.glitchOpacity := by
  unfold activateByCategory
  split_ifs <;> exact ⟨rfl, rfl, rfl, rfl⟩

theorem activateByCategory_lightning_storm (env : Env) (d : WeatherData) (desc : String)
    (n : Bool) (s : State) :
    (activateByCategory env d "thunderstorm" desc n s).timers.map Timer.id
      = ((if s.lightningInterval.truthy then clearInterval s.lightningInterval s.timers
          else s.timers).map Timer.id) ++ [s.nextTimerId] ∧
    (activateByCategory env d "thunderstorm" desc n s).lightningInterval = .id s.nextTimerId ∧
    (activateByCategory env d "thunderstorm" desc n s).nextTimerId = s.nextTimerId + 1 ∧
    (activateByCategory env d "thunderstorm" desc n s).glitchOpacity = "1" := by
  have h1 : ("thunderstorm" : String) ≠ "rain" := by decide
  have h2 : ("thunderstorm" : String) ≠ "drizzle" := by decide
  simp [activateByCategory, h1, h2, activateStormEffect, createCloudParticles,
    createRainParticles]

/-- The lightning fields after `updateWeatherEffects` outside a thunderstorm. -/
theorem updateWeatherEffects_lightning_of_ne (env : Env) (s : State) (d : WeatherData)
    (h : s.currentWeatherData = some d)
    (hm : toLowerCase d.current.weather.main ≠ "thunderstorm") :
    (updateWeatherEffects env s).timers
      = (if s.lightningInterval.truthy then clearInterval s.lightningInterval s.timers
          else s.timers) ∧
    (updateWeatherEffects env s).lightningInterval
      = (if s.lightningInterval.truthy then .null else s.lightningInterval) ∧
    (updateWeatherEffects env s).nextTimerId = s.nextTimerId ∧
    (updateWeatherEffects env s).glitchOpacity
      = (if s.lightningInterval.truthy then "0" else s.glitchOpacity) := by
  simp only [updateWeatherEffects, h]
  generalize hn : isNightTime env (some d) = n
  generalize hx : toLowerCase d.current.weather.description = desc
  obtain ⟨a1, a2, a3, a4⟩ := activateByCategory_lightning_of_ne env d _ desc n (resetEffects s) hm
  obtain ⟨b1, b2, b3, b4⟩ := applyNightRule_timers env n
    (activateByCategory env d (toLowerCase d.current.weather.main) desc n (resetEffects s))
  generalize applyNightRule env n
    (activateByCategory env d (toLowerCase d.current.weather.main) desc n (resetEffects s)) = s3
    at b1 b2 b3 b4
  have c1 : s3.timers = s.timers := by rw [b1, a1]; rfl
  have c2 : s3.lightningInterval = s.lightningInterval := by rw [b2, a2]; rfl
  have c3 : s3.nextTimerId = s.nextTimerId := by rw [b3, a3]; rfl
  have c4 : s3.glitchOpacity = s.glitchOpacity := by rw [b4, a4]; rfl
  unfold clearStormEffects
  rw [c2]
  cases ht : s.lightningInterval.truthy
  · simp [c1, c2, c3, c4]
  · simp [hm, c1, c3]

/-- The lightning fields after `updateWeatherEffects` in a thunderstorm. -/
theorem updateWeatherEffects_lightning_storm (env : Env) (s : State) (d : WeatherData)
    (h : s.currentWeatherData = some d)
    (hm : toLowerCase d.current.weather.main = "thunderstorm") :
    (updateWeatherEffects env s).timers.map Timer.id
      = ((if s.lightningInterval.truthy then clearInterval s.lightningInterval s.timers
          else s.timers).map Timer.id) ++ [s.nextTimerId] ∧
    (updateWeatherEffects env s).lightningInterval = .id s.nextTimerId ∧
    (updateWeatherEffects env s).nextTimerId = s.nextTimerId + 1 ∧
    (updateWeatherEffects env s).glitchOpacity = "1" := by
  simp only [updateWeatherEffects, h, hm]
  generalize hn : isNightTime env (some d) = n
  generalize hx : toLowerCase d.current.weather.description = desc
  obtain ⟨a1, a2, a3, a4⟩ := activateByCategory_lightning_storm env d desc n (resetEffects s)
  obtain ⟨b1, b2, b3, b4⟩ := applyNightRule_timers env n
    (activateByCategory env d "thunderstorm" desc n (resetEffects s))
  have hc : ∀ s3 : State, clearStormEffects "thunderstorm" s3 = s3 := by
    intro s3
    simp [clearStormEffects]
  rw [hc, b1, b2, b3, b4]
  exact ⟨a1, a2, a3, a4⟩

theorem clearInterval_ids (h : Handle) (timers : List Timer) :
    (clearInterval h timers).map Timer.id = idsAfterClear h (timers.map Timer.id) := by
  cases h with
  | undefined => rfl
  | null => rfl
  | id n =>
    simp only [clearInterval, idsAfterClear]
    induction timers with
    | nil => rfl
    | cons t ts ih =>
      simp only [List.filter_cons, List.map_cons]
      by_cases ht : (t.id != n) = true
      · simp [ht, ih]
      · simp [ht, ih]

theorem clearInterval_of_truthy (h : Handle) (timers : List Timer) :
    (if h.truthy then clearInterval h timers else timers) = clearInterval h timers := by
  cases h <;> simp [Handle.truthy, clearInterval]

theorem updateBackgroundTheme_eq (env : Env) (s : State) (d : WeatherData)
    (h : s.currentWeatherData = some d) :
    updateBackgroundTheme env s
      = updateWeatherEffects env { s with bodyClass := themeClass env d } := by
  simp only [updateBackgroundTheme, h]

/-- The live handles after a successful load of a thunderstorm: both
`updateWeatherEffects` it runs create a timer, and the second cancels the
timer of the first. -/
theorem loadWeatherData_storm_ids (env : Env) (s : State) (d : WeatherData)
    (hm : toLowerCase d.current.weather.main = "thunderstorm") :
    (loadWeatherData env (some d) s).timers.map Timer.id
      = idsAfterClear (.id s.nextTimerId)
          (idsAfterClear s.lightningInterval (s.timers.map Timer.id) ++ [s.nextTimerId])
        ++ [s.nextTimerId + 1] ∧
    (loadWeatherData env (some d) s).lightningInterval = .id (s.nextTimerId + 1) ∧
    (loadWeatherData env (some d) s).nextTimerId = s.nextTimerId + 2 := by
  have key : ∀ (v : State) (ids : List Nat) (k : Nat), v.currentWeatherData = some d →
      v.timers.map Timer.id = ids → v.lightningInterval = .id k → v.nextTimerId = k + 1 →
      (updateWeatherEffects env v).timers.map Timer.id = idsAfterClear (.id k) ids ++ [k + 1] ∧
      (updateWeatherEffects env v).lightningInterval = .id (k + 1) ∧
      (updateWeatherEffects env v).nextTimerId = k + 2 := by
    intro v ids k hv h1 h2 h3
    obtain ⟨b1, b2, b3, _⟩ := updateWeatherEffects_lightning_storm env v d hv hm
    rw [clearInterval_of_truthy, clearInterval_ids, h1, h2, h3] at b1
    rw [h3] at b2 b3
    exact ⟨b1, b2, b3⟩
  obtain ⟨a1, a2, a3, _⟩ := updateWeatherEffects_lightning_storm env
    { s with currentWeatherData := some d } d rfl hm
  have hd : (updateWeatherEffects env { s with currentWeatherData := some d }).currentWeatherData
      = some d := by
    rw [updateWeatherEffects_data]
  rw [clearInterval_of_truthy, clearInterval_ids] at a1
  have hl : loadWeatherData env (some d) s
      = updateBackgroundTheme env (updateWeatherEffects env { s with currentWeatherData := some d }) :=
    rfl
  rw [hl, updateBackgroundTheme_eq env _ d hd]
  exact key _ _ _ hd a1 a2 a3

/-! ## Facts on the particle steps -/

theorem rainStep_isDrop (w h : ℚ) (hh : 0 ≤ h) (r : Nat → ℚ) (p : Particle) (L y v : ℚ)
    (hp : p.IsDrop "rain" L y v) (hL : 0 < L) :
    ∃ y', (rainStep w h r p).1.IsDrop "rain" L y' v ∧ y' ≤ h ∧ (h < y + v → y' = -L) := by
  obtain ⟨h1, h2, h3, h4⟩ := hp
  by_cases hy : h < y + v
  · refine ⟨-L, ?_, by linarith, fun _ => rfl⟩
    simp [rainStep, Particle.IsDrop, h1, h2, h3, h4, JSNum.add, JSNum.gt, JSNum.neg, hy]
  · refine ⟨y + v, ?_, by linarith, fun hc => absurd hc hy⟩
    simp [rainStep, Particle.IsDrop, h1, h2, h3, h4, JSNum.add, JSNum.gt, hy]

theorem drizzleStep_isDrop (w h : ℚ) (hh : 0 ≤ h) (r : Nat → ℚ) (p : Particle) (L y v : ℚ)
    (hp : p.IsDrop "drizzle" L y v) (hL : 0 < L) :
    ∃ y', (drizzleStep w h r p).1.IsDrop "drizzle" L y' v ∧ y' ≤ h ∧ (h < y + v → y' = -L) := by
  obtain ⟨h1, h2, h3, h4⟩ := hp
  by_cases hy : h < y + v
  · refine ⟨-L, ?_, by linarith, fun _ => rfl⟩
    simp [drizzleStep, Particle.IsDrop, h1, h2, h3, h4, JSNum.add, JSNum.gt, JSNum.neg, hy]
  · refine ⟨y + v, ?_, by linarith, fun hc => absurd hc hy⟩
    simp [drizzleStep, Particle.IsDrop, h1, h2, h3, h4, JSNum.add, JSNum.gt, hy]

theorem snowStep_fields (w h : ℚ) (r : Nat → ℚ) (p : Particle) :
    (snowStep w h r p).1.size = p.size ∧ (snowStep w h r p).1.speed = p.speed ∧
    (snowStep w h r p).1.drift = p.drift ∧
    (snowStep w h r p).1.y
      = (if JSNum.gt (JSNum.add p.y p.speed) (some h) then JSNum.neg p.size
          else JSNum.add p.y p.speed) := by
  unfold snowStep
  dsimp only
  split_ifs <;> exact ⟨rfl, rfl, rfl, rfl⟩

theorem snowStep_x (w h : ℚ) (r : Nat → ℚ) (p : Particle) (x dr : ℚ) (hx : p.x = some x)
    (hd : p.drift = some dr) : ∃ x', (snowStep w h r p).1.x = some x' := by
  unfold snowStep
  dsimp only
  split_ifs
  · exact ⟨_, rfl⟩
  · exact ⟨_, rfl⟩
  · exact ⟨_, rfl⟩
  · exact ⟨x + dr, by simp [hx, hd, JSNum.add]⟩

theorem snowStep_isFlake (w h : ℚ) (hh : 0 ≤ h) (r : Nat → ℚ) (p : Particle) (z y v : ℚ)
    (hp : p.IsFlake z y v) (hz : 0 < z) :
    ∃ y', (snowStep w h r p).1.IsFlake z y' v ∧ y' ≤ h ∧ (h < y + v → y' = -z) := by
  obtain ⟨h1, h2, h3, ⟨x, h4⟩, ⟨dr, h5⟩⟩ := hp
  obtain ⟨a1, a2, a3, a4⟩ := snowStep_fields w h r p
  have ax := snowStep_x w h r p x dr h4 h5
  by_cases hy : h < y + v
  · refine ⟨-z, ⟨by rw [a1, h1], ?_, by rw [a2, h3], ax, ⟨dr, by rw [a3, h5]⟩⟩, by linarith,
      fun _ => rfl⟩
    rw [a4]
    simp [h1, h2, h3, JSNum.add, JSNum.gt, JSNum.neg, hy]
  · refine ⟨y + v, ⟨by rw [a1, h1], ?_, by rw [a2, h3], ax, ⟨dr, by rw [a3, h5]⟩⟩, by linarith,
      fun hc => absurd hc hy⟩
    rw [a4]
    simp [h2, h3, JSNum.add, JSNum.gt, hy]

theorem rainFrames_isDrop (w h : ℚ) (hh : 0 ≤ h) (rs : Nat → Nat → ℚ) (p : Particle)
    (L y v : ℚ) (hp : p.IsDrop "rain" L y v) (hL : 0 < L) (n : Nat) :
    ∃ y', (rainFrames w h rs (n + 1) p).IsDrop "rain" L y' v ∧ y' ≤ h := by
  induction n with
  | zero =>
    obtain ⟨y', a, b, _⟩ := rainStep_isDrop w h hh (rs 0) p L y v hp hL
    exact ⟨y', a, b⟩
  | succ n ih =>
    obtain ⟨y1, a, _⟩ := ih
    obtain ⟨y', c, d, _⟩ := rainStep_isDrop w h hh (rs (n + 1)) _ L y1 v a hL
    exact ⟨y', c, d⟩

theorem drizzleFrames_isDrop (w h : ℚ) (hh : 0 ≤ h) (rs : Nat → Nat → ℚ) (p : Particle)
    (L y v : ℚ) (hp : p.IsDrop "drizzle" L y v) (hL : 0 < L) (n : Nat) :
    ∃ y', (drizzleFrames w h rs (n + 1) p).IsDrop "drizzle" L y' v ∧ y' ≤ h := by
  induction n with
  | zero =>
    obtain ⟨y', a, b, _⟩ := drizzleStep_isDrop w h hh (rs 0) p L y v hp hL
    exact ⟨y', a, b⟩
  | succ n ih =>
    obtain ⟨y1, a, _⟩ := ih
    obtain ⟨y', c, d, _⟩ := drizzleStep_isDrop w h hh (rs (n + 1)) _ L y1 v a hL
    exact ⟨y', c, d⟩

theorem snowFrames_isFlake (w h : ℚ) (hh : 0 ≤ h) (rs : Nat → Nat → ℚ) (p : Particle)
    (z y v : ℚ) (hp : p.IsFlake z y v) (hz : 0 < z) (n : Nat) :
    ∃ y', (snowFrames w h rs (n + 1) p).IsFlake z y' v ∧ y' ≤ h := by
  induction n with
  | zero =>
    obtain ⟨y', a, b, _⟩ := snowStep_isFlake w h hh (rs 0) p z y v hp hz
    exact ⟨y', a, b⟩
  | succ n ih =>
    obtain ⟨y1, a, _⟩ := ih
    obtain ⟨y', c, d, _⟩ := snowStep_isFlake w h hh (rs (n + 1)) _ z y1 v a hz
    exact ⟨y', c, d⟩

/-! ## Facts on the page without a snapshot -/

theorem step_idle (env : Env) (a : Action) (s : State) (hs : s.Idle)
    (ha : a.bringsData = false) : (step env a s).Idle := by
  obtain ⟨h1, h2, h3, h4, h5, h6⟩ := hs
  cases a with
  | load fetched =>
    cases fetched with
    | none => exact ⟨h1, h2, h3, h4, h5, h6⟩
    | some data => simp [Action.bringsData] at ha
  | force scenario =>
    simp only [step, forceScenario, h1]
    exact ⟨h1, h2, h3, h4, h5, h6⟩
  | initEnd => exact ⟨h1, h2, h3, h4, h5, h6⟩

theorem run_idle (trace : List (Env × Action)) (s : State) (hs : s.Idle)
    (ht : ∀ ea ∈ trace, ea.2.bringsData = false) : (run s trace).Idle := by
  induction trace generalizing s with
  | nil => exact hs
  | cons ea rest ih =>
    have h1 : (step ea.1 ea.2 s).Idle := step_idle ea.1 ea.2 s hs (ht ea (List.mem_cons_self _ _))
    exact ih (step ea.1 ea.2 s) h1 (fun x hx => ht x (List.mem_cons_of_mem _ hx))

/-! ## Facts on the frame -/

theorem clearStormEffects_clouds (m : String) (s : State) :
    (clearStormEffects m s).clouds = s.clouds := by
  unfold clearStormEffects
  split <;> rfl

theorem applyNightRule_clouds (env : Env) (n : Bool) (s : State) :
    (applyNightRule env n s).clouds = s.clouds := by
  cases n
  · rfl
  · simp only [applyNightRule, if_true]
    split <;> rfl

theorem activateByCategory_clouds (env : Env) (d : WeatherData) (m desc : String) (n : Bool)
    (s : State) (h0 : s.effects.clouds = false)
    (h : (activateByCategory env d m desc n s).effects.clouds = true) :
    (activateByCategory env d m desc n s).clouds.isSome = true := by
  rw [activateByCategory_effects] at h
  unfold activateByCategory
  by_cases h1 : m = "rain"
  · simp [h1, createCloudParticles]
  by_cases h2 : m = "drizzle"
  · simp [h1, h2, createCloudParticles]
  by_cases h3 : m = "thunderstorm"
  · simp [h1, h2, h3, createCloudParticles, activateStormEffect]
  by_cases h4 : m = "snow"
  · simp [h1, h2, h3, h4, createCloudParticles]
  by_cases h5 : m = "clouds"
  · simp [h1, h2, h3, h4, h5, createCloudParticles]
  · exfalso
    simp only [h1, h2, h3, h4, h5, or_self, if_false] at h
    split at h <;> simp [h0] at h

theorem updateWeatherEffects_frameSafe (env : Env) (s : State) (hs : s.FrameSafe) :
    (updateWeatherEffects env s).FrameSafe := by
  cases hd : s.currentWeatherData with
  | none =>
    have : updateWeatherEffects env s = s := by simp only [updateWeatherEffects, hd]
    rw [this]
    exact hs
  | some d =>
    refine ⟨?_, fun _ => by rw [updateWeatherEffects_data, hd]; rfl⟩
    intro hc
    simp only [updateWeatherEffects, hd, clearStormEffects_effects, applyNightRule_effects,
      clearStormEffects_clouds, applyNightRule_clouds] at hc ⊢
    exact activateByCategory_clouds env d _ _ _ (resetEffects s) rfl hc

theorem updateBackgroundTheme_frameSafe (env : Env) (s : State) (hs : s.FrameSafe) :
    (updateBackgroundTheme env s).FrameSafe := by
  cases hd : s.currentWeatherData with
  | none =>
    have : updateBackgroundTheme env s = s := by simp only [updateBackgroundTheme, hd]
    rw [this]
    exact hs
  | some d =>
    rw [updateBackgroundTheme_eq env s d hd]
    exact updateWeatherEffects_frameSafe env _ hs

theorem forceScenario_eq (env : Env) (scenario : String) (s : State) (d : WeatherData)
    (hd : s.currentWeatherData = some d) :
    forceScenario env scenario s
      = updateBackgroundTheme env (updateWeatherEffects env
          { s with currentWeatherData := some ⟨forcedWeather env scenario d.current⟩ }) := by
  simp only [forceScenario, hd]

theorem step_frameSafe (env : Env) (a : Action) (s : State) (hs : s.FrameSafe) :
    (step env a s).FrameSafe := by
  cases a with
  | load fetched =>
    cases fetched with
    | none => exact hs
    | some data =>
      refine updateBackgroundTheme_frameSafe env _ (updateWeatherEffects_frameSafe env _ ?_)
      exact ⟨hs.1, fun _ => rfl⟩
  | force scenario =>
    cases hd : s.currentWeatherData with
    | none =>
      have : step env (.force scenario) s = s := by simp only [step, forceScenario, hd]
      rw [this]
      exact hs
    | some d =>
      have : step env (.force scenario) s = forceScenario env scenario s := rfl
      rw [this, forceScenario_eq env scenario s d hd]
      refine updateBackgroundTheme_frameSafe env _ (updateWeatherEffects_frameSafe env _ ?_)
      exact ⟨hs.1, fun _ => rfl⟩
  | initEnd => exact hs

theorem run_frameSafe (trace : List (Env × Action)) (s : State) (hs : s.FrameSafe) :
    (run s trace).FrameSafe := by
  induction trace generalizing s with
  | nil => exact hs
  | cons ea rest ih => exact ih (step ea.1 ea.2 s) (step_frameSafe ea.1 ea.2 s hs)

theorem construct_frameSafe (width height : ℚ) : (construct width height).FrameSafe :=
  ⟨fun h => by simp [construct] at h, fun h => by simp [construct] at h⟩

theorem animate_isSome (env : Env) (s : State) (hs : s.FrameSafe) :
    (animate env s).isSome = true := by
  obtain ⟨h1, h2⟩ := hs
  simp only [animate, animateStars, ite_self]
  cases hc : s.effects.clouds
  · cases hn : s.effects.snow
    · cases hr : s.effects.rain
      · simp [hc, hn, hr]
      · obtain ⟨d, hd⟩ := Option.isSome_iff_exists.1 (h2 hr)
        simp [animateRain, hc, hn, hr, hd]
    · cases hr : s.effects.rain
      · simp [animateSnow, hc, hn, hr]
      · obtain ⟨d, hd⟩ := Option.isSome_iff_exists.1 (h2 hr)
        simp [animateSnow, animateRain, hc, hn, hr, hd]
  · obtain ⟨cs, hcs⟩ := Option.isSome_iff_exists.1 (h1 hc)
    cases hn : s.effects.snow
    · cases hr : s.effects.rain
      · simp [animateClouds, hcs, hc, hn, hr]
      · obtain ⟨d, hd⟩ := Option.isSome_iff_exists.1 (h2 hr)
        simp [animateClouds, animateRain, hcs, hc, hn, hr, hd]
    · cases hr : s.effects.rain
      · simp [animateClouds, animateSnow, hcs, hc, hn, hr]
      · obtain ⟨d, hd⟩ := Option.isSome_iff_exists.1 (h2 hr)
        simp [animateClouds, animateSnow, animateRain, hcs, hc, hn, hr, hd]

/-! ## The day/night test -/

/-- C1 (amended). For a snapshot whose sunrise and sunset stand for instants,
`isNightTime` is true exactly when the seconds of the day of the shifted
current instant are strictly below those of the shifted sunrise or strictly
above those of the shifted sunset; and when the sunrise's seconds of the day
do not exceed the sunset's, an instant whose seconds of the day equal either
of them is day. -/
theorem isNightTime_iff_daySeconds (env : Env) (w : Weather) (tz : Int)
    (sunrise sunset : SunTime) (sr ss : Int)
    (hsr : sunrise.Denotes sr) (hss : sunset.Denotes ss)
    (hn : dateRange (env.now + tz * 1000)) (hr : dateRange (sr + tz * 1000))
    (hs : dateRange (ss + tz * 1000)) :
    (isNightTime env (some ⟨⟨w, tz, sunrise, sunset⟩⟩) = true ↔
      daySeconds env (env.now + tz * 1000) < daySeconds env (sr + tz * 1000) ∨
      daySeconds env (env.now + tz * 1000) > daySeconds env (ss + tz * 1000)) ∧
    (daySeconds env (sr + tz * 1000) ≤ daySeconds env (ss + tz * 1000) →
      daySeconds env (env.now + tz * 1000) = daySeconds env (sr + tz * 1000) ∨
      daySeconds env (env.now + tz * 1000) = daySeconds env (ss + tz * 1000) →
      isNightTime env (some ⟨⟨w, tz, sunrise, sunset⟩⟩) = false) := by
  rw [isNightTime_eq env w tz sunrise sunset sr ss hsr hss hn hr hs]
  constructor
  · simp [Bool.or_eq_true, decide_eq_true_eq]
  · intro hle heq
    rw [Bool.or_eq_false_iff]
    simp only [decide_eq_false_iff_not, not_lt]
    omega

/-- C1, witness: a clear day at 06:00 sharp, the instant of sunrise. -/
theorem isNightTime_iff_daySeconds_witness :
    (isNightTime (utcHost 21600000) (some clearDay) = true ↔
      daySeconds (utcHost 21600000) (21600000 + 0 * 1000)
        < daySeconds (utcHost 21600000) (21600000 + 0 * 1000) ∨
      daySeconds (utcHost 21600000) (21600000 + 0 * 1000)
        > daySeconds (utcHost 21600000) (64800000 + 0 * 1000)) ∧
    (daySeconds (utcHost 21600000) (21600000 + 0 * 1000)
        ≤ daySeconds (utcHost 21600000) (64800000 + 0 * 1000) →
      daySeconds (utcHost 21600000) (21600000 + 0 * 1000)
        = daySeconds (utcHost 21600000) (21600000 + 0 * 1000) ∨
      daySeconds (utcHost 21600000) (21600000 + 0 * 1000)
        = daySeconds (utcHost 21600000) (64800000 + 0 * 1000) →
      isNightTime (utcHost 21600000) (some clearDay) = false) :=
  isNightTime_iff_daySeconds (utcHost 21600000) ⟨"Clear", "clear sky", "01d"⟩ 0
    (.date (some 21600000)) (.date (some 64800000)) 21600000 64800000
    (Or.inr (Or.inl rfl)) (Or.inr (Or.inl rfl))
    (by norm_num [dateRange, utcHost]) (by norm_num [dateRange]) (by norm_num [dateRange])

/-- C1, counterexample to the boundary clause: at the instant of sunrise of
the polar snapshot the seconds of the day equal those of sunrise, yet
`isNightTime` is true, since the sunset's seconds of the day (00:30) lie below. -/
theorem isNightTime_sunrise_boundary_night :
    daySeconds (utcHost 0) ((utcHost 0).now + 7200 * 1000)
      = daySeconds (utcHost 0) (0 + 7200 * 1000) ∧
    daySeconds (utcHost 0) (81000000 + 7200 * 1000) = 1800 ∧
    isNightTime (utcHost 0) (some polarDay) = true := by
  refine ⟨by decide, by decide, ?_⟩
  rw [polarDay, isNightTime_eq (utcHost 0) _ 7200 _ _ 0 81000000 (Or.inr (Or.inl rfl))
    (Or.inr (Or.inl rfl)) (by norm_num [dateRange, utcHost]) (by norm_num [dateRange])
    (by norm_num [dateRange])]
  decide

/-- C5, the code at the failing input: the same instant (10:00 UTC), offset,
sunrise (06:00 UTC) and sunset (18:00 UTC) give day on a host whose clock is
UTC and night on a host eight hours ahead. -/
theorem isNightTime_differs_across_hosts :
    (utcHost 36000000).now = (aheadHost 36000000).now ∧
    isNightTime (utcHost 36000000) (some clearDay) = false ∧
    isNightTime (aheadHost 36000000) (some clearDay) = true := by
  refine ⟨rfl, isNightTime_clearDay_morning, ?_⟩
  · rw [clearDay, isNightTime_eq (aheadHost 36000000) _ 0 _ _ 21600000 64800000
      (Or.inr (Or.inl rfl)) (Or.inr (Or.inl rfl)) (by norm_num [dateRange, aheadHost])
      (by norm_num [dateRange]) (by norm_num [dateRange])]
    decide

/-! ## The effect flags and the theme -/

/-- C2. After `updateWeatherEffects` on a loaded snapshot the flags (rain,
snow, storm, clouds) are those of the rule table at the lower-cased category,
whatever the description, the night state and the previous state; and a
Thunderstorm by day gives rain, storm and clouds with snow and stars off. -/
theorem updateWeatherEffects_ruleTable (env : Env) (s : State) (d : WeatherData)
    (h : s.currentWeatherData = some d) :
    ((updateWeatherEffects env s).effects.rain, (updateWeatherEffects env s).effects.snow,
      (updateWeatherEffects env s).effects.storm, (updateWeatherEffects env s).effects.clouds)
      = ruleTable (toLowerCase d.current.weather.main) ∧
    (d.current.weather.main = "Thunderstorm" → isNightTime env (some d) = false →
      (updateWeatherEffects env s).effects
        = { rain := true, snow := false, storm := true, stars := false, clouds := true }) := by
  rw [updateWeatherEffects_effects env s d h]
  refine ⟨rfl, ?_⟩
  intro hm hday
  have hl : toLowerCase d.current.weather.main = "thunderstorm" := by
    rw [hm]
    decide
  rw [hl, hday]
  simp [ruleTable]

/-- C2, witness: the page loaded with a thunderstorm, updated at noon, has
rain, storm and clouds on, snow and stars off. -/
theorem updateWeatherEffects_ruleTable_witness :
    (updateWeatherEffects (utcHost 43200000) (loadedPage 43200000 stormDay)).effects
      = { rain := true, snow := false, storm := true, stars := false, clouds := true } :=
  (updateWeatherEffects_ruleTable (utcHost 43200000) (loadedPage 43200000 stormDay) stormDay
    (loadedPage_data 43200000 stormDay)).2 rfl isNightTime_stormDay_noon

/-- C3. After `updateWeatherEffects` on a loaded snapshot the stars flag is
the night state, whatever the category, and by day no star is left. -/
theorem updateWeatherEffects_stars_eq_night (env : Env) (s : State) (d : WeatherData)
    (h : s.currentWeatherData = some d) :
    (updateWeatherEffects env s).effects.stars = isNightTime env (some d) ∧
    (isNightTime env (some d) = false → (updateWeatherEffects env s).stars = []) := by
  rw [updateWeatherEffects_effects env s d h]
  exact ⟨rfl, updateWeatherEffects_stars_day env s d h⟩

/-- C3, witness: the page loaded with a clear day, updated at 10:00, has no
star left. -/
theorem updateWeatherEffects_stars_eq_night_witness :
    (updateWeatherEffects (utcHost 36000000) (loadedPage 36000000 clearDay)).stars = [] :=
  (updateWeatherEffects_stars_eq_night (utcHost 36000000) (loadedPage 36000000 clearDay) clearDay
    (loadedPage_data 36000000 clearDay)).2 isNightTime_clearDay_morning

/-- C4. The class `updateBackgroundTheme` puts on the body is the condition,
a dash, and `night` or `day` by `isNightTime`; the condition follows the
table of the categories, Rain being split by its description; so the class is
one of the twelve theme keys. -/
theorem updateBackgroundTheme_key (env : Env) (s : State) (d : WeatherData)
    (h : s.currentWeatherData = some d) :
    (updateBackgroundTheme env s).bodyClass
      = weatherCondition (toLowerCase d.current.weather.main)
          (toLowerCase d.current.weather.description)
        ++ "-" ++ (if isNightTime env (some d) then "night" else "day") ∧
    (∀ m desc : String,
      (m = "clear" → weatherCondition m desc = "clear") ∧
      (m = "clouds" → weatherCondition m desc = "cloudy") ∧
      (m = "rain" → (includes desc "light" = true ∨ includes desc "drizzle" = true) →
        weatherCondition m desc = "drizzle") ∧
      (m = "rain" → includes desc "light" = false → includes desc "drizzle" = false →
        weatherCondition m desc = "rainy") ∧
      (m = "drizzle" → weatherCondition m desc = "drizzle") ∧
      (m = "thunderstorm" → weatherCondition m desc = "stormy") ∧
      (m = "snow" → weatherCondition m desc = "snow") ∧
      (m ≠ "clear" → m ≠ "clouds" → m ≠ "rain" → m ≠ "drizzle" → m ≠ "thunderstorm" →
        m ≠ "snow" → weatherCondition m desc = "clear")) ∧
    (updateBackgroundTheme env s).bodyClass ∈ themeKeys := by
  have hb : (updateBackgroundTheme env s).bodyClass = themeClass env d := by
    simp only [updateBackgroundTheme, h, updateWeatherEffects_bodyClass]
  refine ⟨by rw [hb]; rfl, ?_, ?_⟩
  · intro m desc
    refine ⟨?_, ?_, ?_, ?_, ?_, ?_, ?_, ?_⟩
    · intro hm; subst hm; simp [weatherCondition]
    · intro hm; subst hm; simp [weatherCondition]
    · intro hm hd; subst hm
      rcases hd with hd | hd <;> simp [weatherCondition, hd]
    · intro hm h1 h2; subst hm; simp [weatherCondition, h1, h2]
    · intro hm; subst hm; simp [weatherCondition]
    · intro hm; subst hm; simp [weatherCondition]
    · intro hm; subst hm; simp [weatherCondition]
    · intro h1 h2 h3 h4 h5 h6; simp [weatherCondition, h1, h2, h3, h4, h5, h6]
  · rw [hb]
    have hc := weatherCondition_mem (toLowerCase d.current.weather.main)
      (toLowerCase d.current.weather.description)
    simp only [themeClass]
    generalize weatherCondition (toLowerCase d.current.weather.main)
      (toLowerCase d.current.weather.description) = c at hc
    simp only [List.mem_cons, List.mem_singleton, List.not_mem_nil, or_false] at hc
    cases isNightTime env (some d) <;> rcases hc with hc | hc | hc | hc | hc | hc <;>
      subst hc <;> decide

/-- C4, witness: a thunderstorm loaded at noon has the class `stormy-day`. -/
theorem updateBackgroundTheme_key_witness :
    (updateBackgroundTheme (utcHost 43200000) (loadedPage 43200000 stormDay)).bodyClass
      = "stormy-day" :=
  (updateBackgroundTheme_key (utcHost 43200000) (loadedPage 43200000 stormDay) stormDay
    (loadedPage_data 43200000 stormDay)).1.trans (by rw [isNightTime_stormDay_noon]; decide)

/-! ## The lightning timer -/

/-- C6, the code at the failing input: a page whose first load and whose next
load both report a thunderstorm has two live lightning timers, of handles 2
and 4, after the second load. -/
theorem two_live_lightning_timers :
    (run (construct 800 600) (pageTrace [] (utcHost 43200000) (some stormDay)
      [(utcHost 43800000, .load (some stormDay))])).timers.map Timer.id = [2, 4] := by
  have hm : toLowerCase stormDay.current.weather.main = "thunderstorm" := by decide
  obtain ⟨a1, a2, a3⟩ := loadWeatherData_storm_ids (utcHost 43200000) (construct 800 600)
    stormDay hm
  simp only [run, pageTrace, List.nil_append, List.cons_append, List.foldl, step, initEnd]
  generalize loadWeatherData (utcHost 43200000) (some stormDay) (construct 800 600) = s1
    at a1 a2 a3 ⊢
  obtain ⟨b1, _, _⟩ := loadWeatherData_storm_ids (utcHost 43800000)
    { s1 with lightningInterval := .null } stormDay hm
  rw [b1]
  simp only [a1, a3]
  decide

/-- C7. On a loaded snapshot whose category is not Thunderstorm,
`updateWeatherEffects` cancels the timer whose handle is stored, leaves the
field `null`, the storm flag false and the overlay's opacity `0`; on a
Thunderstorm it leaves a handle stored; and after it a handle is stored
exactly when the storm flag is set. -/
theorem updateWeatherEffects_handle_iff_storm (env : Env) (s : State) (d : WeatherData)
    (h : s.currentWeatherData = some d) :
    (∀ n, toLowerCase d.current.weather.main ≠ "thunderstorm" → s.lightningInterval = .id n →
      (∀ t ∈ (updateWeatherEffects env s).timers, t.id ≠ n) ∧
      (updateWeatherEffects env s).lightningInterval = .null ∧
      (updateWeatherEffects env s).effects.storm = false ∧
      (updateWeatherEffects env s).glitchOpacity = "0") ∧
    (toLowerCase d.current.weather.main = "thunderstorm" →
      ∃ k, (updateWeatherEffects env s).lightningInterval = .id k) ∧
    ((updateWeatherEffects env s).lightningInterval.truthy = true ↔
      (updateWeatherEffects env s).effects.storm = true) := by
  have he := updateWeatherEffects_effects env s d h
  refine ⟨?_, ?_, ?_⟩
  · intro n hm hn
    obtain ⟨a1, a2, _, a4⟩ := updateWeatherEffects_lightning_of_ne env s d h hm
    rw [a1, a2, a4, he, hn, clearInterval_of_truthy]
    refine ⟨?_, by simp [Handle.truthy], ruleTable_storm_of_ne _ hm, by simp [Handle.truthy]⟩
    intro t ht hid
    exact ((clearInterval_mem _ _ _).1 ht).2 (by rw [hid])
  · intro hm
    obtain ⟨_, a2, _, _⟩ := updateWeatherEffects_lightning_storm env s d h hm
    exact ⟨_, a2⟩
  · rw [he]
    by_cases hm : toLowerCase d.current.weather.main = "thunderstorm"
    · obtain ⟨_, a2, _, _⟩ := updateWeatherEffects_lightning_storm env s d h hm
      rw [a2, hm]
      simp [Handle.truthy, ruleTable_storm]
    · obtain ⟨_, a2, _, _⟩ := updateWeatherEffects_lightning_of_ne env s d h hm
      rw [a2]
      cases hl : s.lightningInterval <;> simp [Handle.truthy, ruleTable_storm_of_ne _ hm]

/-- C7, witness: the page that holds the handle of a thunderstorm's timer is
updated after a clear day has replaced the snapshot. -/
theorem updateWeatherEffects_handle_iff_storm_witness :
    (updateWeatherEffects (utcHost 43200000)
        { loadedPage 43200000 stormDay with currentWeatherData := some clearDay }).lightningInterval.truthy
      = true ↔
    (updateWeatherEffects (utcHost 43200000)
        { loadedPage 43200000 stormDay with currentWeatherData := some clearDay }).effects.storm
      = true :=
  (updateWeatherEffects_handle_iff_storm (utcHost 43200000)
    { loadedPage 43200000 stormDay with currentWeatherData := some clearDay } clearDay rfl).2.2

/-- C8, the claim at a failing input. The draw `1 - 2⁻⁵²` is a binary64 number
of `[0, 1)`, and with it the timer `activateStormEffect` creates and stores
has the period 5000, which is not below 5000. -/
theorem lightning_period_reaches_5000 :
    (fl (1 - 1 / 2 ^ 52) = 1 - 1 / 2 ^ 52 ∧ (0 : ℚ) ≤ 1 - 1 / 2 ^ 52 ∧
      (1 - 1 / 2 ^ 52 : ℚ) < 1) ∧
    ∃ t ∈ (activateStormEffect (drawHost 0 (1 - 1 / 2 ^ 52)) (construct 800 600)).timers,
      (activateStormEffect (drawHost 0 (1 - 1 / 2 ^ 52)) (construct 800 600)).lightningInterval
        = .id t.id ∧
      t.period = 5000 ∧ ¬ t.period < 5000 := by
  refine ⟨⟨fl_draw_52, by norm_num, by norm_num⟩, ⟨1, 5000⟩, ?_, rfl, rfl, lt_irrefl _⟩
  have e : rnd (drawHost 0 (1 - 1 / 2 ^ 52)) (construct 800 600) 0 = 1 - 1 / 2 ^ 52 := rfl
  simp only [activateStormEffect, e, period_at_last_draw]
  simp [construct]

/-- C8. The timer `activateStormEffect` creates and stores has the period
`2000 + r * 3000` for the draw `r`, product and sum rounded to binary64, which
lies from 2000 to 5000, both included, when `r` lies in `[0, 1)`, and no other
timer is created; the callback of a lightning timer starts a flash exactly
when the storm flag is set at that time and its draw is below 0.15, hence
never while the storm flag is off. -/
theorem lightning_period_and_guard (env : Env) (s : State)
    (hr : 0 ≤ rnd env s 0 ∧ rnd env s 0 < 1) :
    (∃ t ∈ (activateStormEffect env s).timers,
      (activateStormEffect env s).lightningInterval = .id t.id ∧
      t.period = fl (2000 + fl (rnd env s 0 * 3000)) ∧ 2000 ≤ t.period ∧ t.period ≤ 5000) ∧
    (∀ t ∈ (activateStormEffect env s).timers,
      t ∈ s.timers ∨ t.period = fl (2000 + fl (rnd env s 0 * 3000))) ∧
    (∀ (e : Env) (st : State),
      (lightningCallback e st).1 = true ↔ st.effects.storm = true ∧ rnd e st 0 < 15 / 100) ∧
    (∀ (e : Env) (st : State), st.effects.storm = false → (lightningCallback e st).1 = false) := by
  obtain ⟨h0, h1⟩ := hr
  obtain ⟨b0, b1⟩ := period_bounds (rnd env s 0) h0 h1
  refine ⟨⟨⟨s.nextTimerId, fl (2000 + fl (rnd env s 0 * 3000))⟩, ?_, rfl, rfl, b0, b1⟩, ?_, ?_, ?_⟩
  · simp [activateStormEffect]
  · intro t ht
    simp only [activateStormEffect, clearInterval_of_truthy, List.mem_append,
      List.mem_singleton] at ht
    rcases ht with ht | ht
    · exact Or.inl ((clearInterval_mem _ _ _).1 ht).1
    · right
      rw [ht]
  · intro e st
    unfold lightningCallback
    cases hst : st.effects.storm <;> simp
  · intro e st hst
    simp [lightningCallback, hst]

/-- C8, witness: the first timer of a fresh page whose draw is 0 has a period
in the range. -/
theorem lightning_period_and_guard_witness :
    ∃ t ∈ (activateStormEffect (utcHost 0) (construct 800 600)).timers,
      (activateStormEffect (utcHost 0) (construct 800 600)).lightningInterval = .id t.id ∧
      t.period = fl (2000 + fl (rnd (utcHost 0) (construct 800 600) 0 * 3000)) ∧
      2000 ≤ t.period ∧ t.period ≤ 5000 :=
  (lightning_period_and_guard (utcHost 0) (construct 800 600)
    (by norm_num [rnd, utcHost])).1

/-! ## The particles -/

/-- C9. On a canvas of height `h ≥ 0`, one step of a rain drop, of a drizzle
drop or of a snowflake whose length or size is positive leaves its `y` at most
`h`: when the advanced `y` exceeds `h` the particle is put back at `-length`
or `-size`, which is at most 0. So does any positive number of frames. -/
theorem particle_y_le_height (w h : ℚ) (hh : 0 ≤ h) :
    (∀ (r : Nat → ℚ) (p : Particle) (L y v : ℚ), p.IsDrop "rain" L y v → 0 < L →
      (∃ y', (rainStep w h r p).1.y = some y' ∧ y' ≤ h) ∧
      (h < y + v → (rainStep w h r p).1.y = some (-L) ∧ -L ≤ 0)) ∧
    (∀ (r : Nat → ℚ) (p : Particle) (L y v : ℚ), p.IsDrop "drizzle" L y v → 0 < L →
      (∃ y', (drizzleStep w h r p).1.y = some y' ∧ y' ≤ h) ∧
      (h < y + v → (drizzleStep w h r p).1.y = some (-L) ∧ -L ≤ 0)) ∧
    (∀ (r : Nat → ℚ) (p : Particle) (z y v : ℚ), p.IsFlake z y v → 0 < z →
      (∃ y', (snowStep w h r p).1.y = some y' ∧ y' ≤ h) ∧
      (h < y + v → (snowStep w h r p).1.y = some (-z) ∧ -z ≤ 0)) ∧
    (∀ (rs : Nat → Nat → ℚ) (n : Nat) (p : Particle) (L y v : ℚ), p.IsDrop "rain" L y v →
      0 < L → ∃ y', (rainFrames w h rs (n + 1) p).y = some y' ∧ y' ≤ h) ∧
    (∀ (rs : Nat → Nat → ℚ) (n : Nat) (p : Particle) (L y v : ℚ), p.IsDrop "drizzle" L y v →
      0 < L → ∃ y', (drizzleFrames w h rs (n + 1) p).y = some y' ∧ y' ≤ h) ∧
    (∀ (rs : Nat → Nat → ℚ) (n : Nat) (p : Particle) (z y v : ℚ), p.IsFlake z y v →
      0 < z → ∃ y', (snowFrames w h rs (n + 1) p).y = some y' ∧ y' ≤ h) := by
  refine ⟨?_, ?_, ?_, ?_, ?_, ?_⟩
  · intro r p L y v hp hL
    obtain ⟨y', a, b, c⟩ := rainStep_isDrop w h hh r p L y v hp hL
    exact ⟨⟨y', a.2.2.1, b⟩, fun hy => ⟨by rw [a.2.2.1, c hy], by linarith⟩⟩
  · intro r p L y v hp hL
    obtain ⟨y', a, b, c⟩ := drizzleStep_isDrop w h hh r p L y v hp hL
    exact ⟨⟨y', a.2.2.1, b⟩, fun hy => ⟨by rw [a.2.2.1, c hy], by linarith⟩⟩
  · intro r p z y v hp hz
    obtain ⟨y', a, b, c⟩ := snowStep_isFlake w h hh r p z y v hp hz
    exact ⟨⟨y', a.2.1, b⟩, fun hy => ⟨by rw [a.2.1, c hy], by linarith⟩⟩
  · intro rs n p L y v hp hL
    obtain ⟨y', a, b⟩ := rainFrames_isDrop w h hh rs p L y v hp hL n
    exact ⟨y', a.2.2.1, b⟩
  · intro rs n p L y v hp hL
    obtain ⟨y', a, b⟩ := drizzleFrames_isDrop w h hh rs p L y v hp hL n
    exact ⟨y', a.2.2.1, b⟩
  · intro rs n p z y v hp hz
    obtain ⟨y', a, b⟩ := snowFrames_isFlake w h hh rs p z y v hp hz n
    exact ⟨y', a.2.1, b⟩

/-- C9, witness: on a canvas of 800 by 600 a rain drop of length 15 at
`y = 590` falling at 20 a frame is put back at `y = -15`. -/
theorem particle_y_le_height_witness :
    (rainStep 800 600 (fun _ => 0) (mkDrop "rain" 100 590 20 15 (1 / 2) 0)).1.y = some (-15) ∧
    (-15 : ℚ) ≤ 0 :=
  ((particle_y_le_height 800 600 (by norm_num)).1 (fun _ => 0)
    (mkDrop "rain" 100 590 20 15 (1 / 2) 0) 15 590 20 ⟨rfl, rfl, rfl, rfl⟩ (by norm_num)).2
    (by norm_num)

/-! ## The page without a snapshot -/

/-- C10. With no snapshot loaded `isNightTime` is false and
`updateWeatherEffects`, `updateBackgroundTheme` and `forceScenario` return the
state as it is; and a page on which no load has succeeded has every flag
false and no particle, star or cloud population. -/
theorem no_snapshot_no_effect (env : Env) (s : State) (hs : s.currentWeatherData = none) :
    isNightTime env s.currentWeatherData = false ∧
    updateWeatherEffects env s = s ∧
    updateBackgroundTheme env s = s ∧
    (∀ scenario : String, forceScenario env scenario s = s) ∧
    (∀ (width height : ℚ) (trace : List (Env × Action)),
      (∀ ea ∈ trace, ea.2.bringsData = false) →
      (run (construct width height) trace).currentWeatherData = none ∧
      (run (construct width height) trace).effects
        = { rain := false, snow := false, storm := false, stars := false, clouds := false } ∧
      (run (construct width height) trace).particles = [] ∧
      (run (construct width height) trace).stars = [] ∧
      (run (construct width height) trace).clouds = none) := by
  refine ⟨by rw [hs]; rfl, by simp only [updateWeatherEffects, hs],
    by simp only [updateBackgroundTheme, hs], fun sc => by simp only [forceScenario, hs], ?_⟩
  intro width height trace ht
  obtain ⟨h1, h2, h3, h4, h5, _⟩ := run_idle trace (construct width height)
    ⟨rfl, rfl, rfl, rfl, rfl, rfl⟩ ht
  exact ⟨h1, h2, h3, h4, h5⟩

/-- C10, witness: the page as constructed, on which a scenario button is
clicked and `init` ends after a failed load. -/
theorem no_snapshot_no_effect_witness :
    forceScenario (utcHost 0) "night" (construct 800 600) = construct 800 600 ∧
    (run (construct 800 600)
      [(utcHost 0, .force "night"), (utcHost 0, .load none), (utcHost 0, .initEnd)]).effects
      = { rain := false, snow := false, storm := false, stars := false, clouds := false } :=
  ⟨(no_snapshot_no_effect (utcHost 0) (construct 800 600) rfl).2.2.2.1 "night",
    ((no_snapshot_no_effect (utcHost 0) (construct 800 600) rfl).2.2.2.2 800 600
      [(utcHost 0, .force "night"), (utcHost 0, .load none), (utcHost 0, .initEnd)]
      (by simp [Action.bringsData])).2.1⟩

/-! ## Malformed sunrise or sunset -/

/-- C11 (amended). `isNightTime` is a total function: it returns a boolean on
every input. When sunrise and sunset are both strings that do not parse it
returns false for every instant and offset; when only the sunrise does not
parse it returns true exactly when the current seconds of the day exceed the
sunset's, and when only the sunset does not parse exactly when they are below
the sunrise's. -/
theorem isNightTime_malformed (env : Env) (w : Weather) (tz : Int) :
    isNightTime env (some ⟨⟨w, tz, .str none, .str none⟩⟩) = false ∧
    (∀ (sunset : SunTime) (ss : Int), sunset.Denotes ss →
      dateRange (env.now + tz * 1000) → dateRange (ss + tz * 1000) →
      (isNightTime env (some ⟨⟨w, tz, .str none, sunset⟩⟩) = true ↔
        daySeconds env (env.now + tz * 1000) > daySeconds env (ss + tz * 1000))) ∧
    (∀ (sunrise : SunTime) (sr : Int), sunrise.Denotes sr →
      dateRange (env.now + tz * 1000) → dateRange (sr + tz * 1000) →
      (isNightTime env (some ⟨⟨w, tz, sunrise, .str none⟩⟩) = true ↔
        daySeconds env (env.now + tz * 1000) < daySeconds env (sr + tz * 1000))) := by
  refine ⟨?_, ?_, ?_⟩
  · simp only [isNightTime, shiftedDate_malformed, secondsOfDay_none, numLt_none_right, numGt,
      numLt_none_left, Bool.or_false]
  · intro sunset ss hss hn hs
    rw [isNightTime_sunrise_malformed env w tz sunset ss hss hn hs]
    simp
  · intro sunrise sr hsr hn hr
    rw [isNightTime_sunset_malformed env w tz sunrise sr hsr hn hr]
    simp

/-- C11, counterexample: with a sunrise that does not parse and a sunset at
18:00, `isNightTime` is true at 20:00. -/
theorem isNightTime_malformed_sunrise_night :
    isNightTime (utcHost 72000000)
      (some ⟨⟨⟨"Clear", "clear sky", "01d"⟩, 0, .str none, .date (some 64800000)⟩⟩) = true := by
  rw [isNightTime_sunrise_malformed (utcHost 72000000) _ 0 _ 64800000 (Or.inr (Or.inl rfl))
    (by norm_num [dateRange, utcHost]) (by norm_num [dateRange])]
  decide

/-! ## The frame -/

/-- C12. In every state reached from the constructed page by loads, scenario
clicks and the end of `init`, the clouds exist when their flag is set and a
snapshot is loaded when the rain flag is set, so a frame runs to its end
without reading a missing field; and a frame with no active effect calls
`clearCanvas` only and leaves the state as it is. -/
theorem frame_never_throws (width height : ℚ) (trace : List (Env × Action)) (env : Env) :
    ((run (construct width height) trace).effects.clouds = true →
      (run (construct width height) trace).clouds.isSome = true) ∧
    ((run (construct width height) trace).effects.rain = true →
      (run (construct width height) trace).currentWeatherData.isSome = true) ∧
    (animate env (run (construct width height) trace)).isSome = true ∧
    ((run (construct width height) trace).effects
        = { rain := false, snow := false, storm := false, stars := false, clouds := false } →
      frameCalls (run (construct width height) trace) = ["clearCanvas"] ∧
      animate env (run (construct width height) trace)
        = some (run (construct width height) trace)) := by
  have hs := run_frameSafe trace (construct width height) (construct_frameSafe width height)
  refine ⟨hs.1, hs.2, animate_isSome env _ hs, ?_⟩
  intro he
  constructor
  · simp [frameCalls, he]
  · simp [animate, he]

/-! ## The two scenarios of the specification -/

/-- C13 (amended). At an instant `T` whose seconds of the day on the host's
clock are not below those of `T - 3h` and not above those of `T + 3h`, the
snapshot Thunderstorm, "heavy thunderstorm", sunrise `T - 3h`, sunset
`T + 3h`, offset 0 gives `isNightTime` false, the flags rain, storm and clouds
only, and the theme key `stormy-day`. -/
theorem thunderstorm_scenario (env : Env) (s : State) (icon : String)
    (sunrise sunset : SunTime)
    (hsr : sunrise.Denotes (env.now - 10800000)) (hss : sunset.Denotes (env.now + 10800000))
    (hr1 : dateRange (env.now - 10800000)) (hr2 : dateRange (env.now + 10800000))
    (hwin : daySeconds env (env.now - 10800000) ≤ daySeconds env env.now ∧
      daySeconds env env.now ≤ daySeconds env (env.now + 10800000)) :
    isNightTime env
      (some ⟨⟨⟨"Thunderstorm", "heavy thunderstorm", icon⟩, 0, sunrise, sunset⟩⟩) = false ∧
    (updateWeatherEffects env (s.withData
        ⟨⟨⟨"Thunderstorm", "heavy thunderstorm", icon⟩, 0, sunrise, sunset⟩⟩)).effects
      = { rain := true, snow := false, storm := true, stars := false, clouds := true } ∧
    (updateBackgroundTheme env (s.withData
        ⟨⟨⟨"Thunderstorm", "heavy thunderstorm", icon⟩, 0, sunrise, sunset⟩⟩)).bodyClass
      = "stormy-day" := by
  have hr0 : dateRange env.now := dateRange_between _ _ _ hr1 hr2 (by omega) (by omega)
  have hnight : isNightTime env
      (some ⟨⟨⟨"Thunderstorm", "heavy thunderstorm", icon⟩, 0, sunrise, sunset⟩⟩) = false := by
    rw [isNightTime_eq env _ 0 sunrise sunset _ _ hsr hss (by simpa using hr0)
      (by simpa using hr1) (by simpa using hr2)]
    simp only [zero_mul, add_zero, Bool.or_eq_false_iff, decide_eq_false_iff_not, not_lt]
    exact hwin
  have hl : toLowerCase "Thunderstorm" = "thunderstorm" := by decide
  refine ⟨hnight, ?_, ?_⟩
  · rw [updateWeatherEffects_effects env _ _ rfl, hnight]
    simp only [hl, ruleTable_thunderstorm]
  · rw [updateBackgroundTheme_bodyClass env _ _ rfl]
    simp only [themeClass, hnight]
    decide

/-- C13, witness: the scenario at noon on a host whose clock is UTC. -/
theorem thunderstorm_scenario_witness :
    isNightTime (utcHost 43200000) (some (stormAround 43200000)) = false ∧
    (updateWeatherEffects (utcHost 43200000)
        ((construct 800 600).withData (stormAround 43200000))).effects
      = { rain := true, snow := false, storm := true, stars := false, clouds := true } ∧
    (updateBackgroundTheme (utcHost 43200000)
        ((construct 800 600).withData (stormAround 43200000))).bodyClass = "stormy-day" :=
  thunderstorm_scenario (utcHost 43200000) (construct 800 600) "11d" _ _
    (Or.inr (Or.inl rfl)) (Or.inr (Or.inl rfl)) (by norm_num [dateRange, utcHost])
    (by norm_num [dateRange, utcHost])
    (daySeconds_window (utcHost 43200000) 0 (fun _ => rfl) 43200000 (by decide) (by decide))

/-- C13, counterexample: at 01:00 of the second day of the epoch, on a host
whose clock is UTC, the sunrise of the scenario falls at 22:00 of the day
before and `isNightTime` is true. -/
theorem thunderstorm_scenario_night_at_one :
    isNightTime (utcHost 90000000) (some (stormAround 90000000)) = true := by
  rw [stormAround, isNightTime_eq (utcHost 90000000) _ 0 _ _ (90000000 - 10800000)
    (90000000 + 10800000) (Or.inr (Or.inl rfl)) (Or.inr (Or.inl rfl))
    (by norm_num [dateRange, utcHost]) (by norm_num [dateRange]) (by norm_num [dateRange])]
  decide

/-- C14, the code at the failing input, and the scenario on hosts of fixed
zone offset. On a host on Santiago's clock, at 2024-04-07 07:30 UTC with the
offset -14400 (the shifted instant falls half an hour after the clock went
back from 24:00 to 23:00), the snapshot Clear, sunrise `T - 6h`, sunset
`T - 1h` gives `isNightTime` false, the stars flag off and no star. On every
host whose zone offset is fixed the scenario gives `isNightTime` true, the
stars flag only, the theme key `clear-night` and 300 stars. -/
theorem clear_night_scenario_on_hosts :
    (isNightTime (santiagoHost 1712475000000)
        (some (clearAfterSunset 1712475000000 (-14400))) = false ∧
      (updateWeatherEffects (santiagoHost 1712475000000)
        ((construct 800 600).withData (clearAfterSunset 1712475000000 (-14400)))).effects.stars
        = false ∧
      (updateWeatherEffects (santiagoHost 1712475000000)
        ((construct 800 600).withData (clearAfterSunset 1712475000000 (-14400)))).stars = []) ∧
    (∀ (env : Env) (c : Int), (∀ t, env.localTZA t = c) →
      ∀ (s : State) (description icon : String) (tz : Int) (sunrise sunset : SunTime),
      sunrise.Denotes (env.now - 21600000) → sunset.Denotes (env.now - 3600000) →
      dateRange (env.now + tz * 1000) → dateRange (env.now - 21600000 + tz * 1000) →
      dateRange (env.now - 3600000 + tz * 1000) →
      isNightTime env (some ⟨⟨⟨"Clear", description, icon⟩, tz, sunrise, sunset⟩⟩) = true ∧
      (updateWeatherEffects env
          (s.withData ⟨⟨⟨"Clear", description, icon⟩, tz, sunrise, sunset⟩⟩)).effects
        = { rain := false, snow := false, storm := false, stars := true, clouds := false } ∧
      (updateBackgroundTheme env
          (s.withData ⟨⟨⟨"Clear", description, icon⟩, tz, sunrise, sunset⟩⟩)).bodyClass
        = "clear-night" ∧
      (updateWeatherEffects env
          (s.withData ⟨⟨⟨"Clear", description, icon⟩, tz, sunrise, sunset⟩⟩)).stars.length
        = 300) := by
  have hl : toLowerCase "Clear" = "clear" := by decide
  constructor
  · have hday : isNightTime (santiagoHost 1712475000000)
        (some (clearAfterSunset 1712475000000 (-14400))) = false := by
      rw [clearAfterSunset, isNightTime_eq (santiagoHost 1712475000000) _ (-14400) _ _
        (1712475000000 - 21600000) (1712475000000 - 3600000) (Or.inr (Or.inl rfl))
        (Or.inr (Or.inl rfl)) (by norm_num [dateRange, santiagoHost])
        (by norm_num [dateRange]) (by norm_num [dateRange])]
      decide
    refine ⟨hday, ?_, updateWeatherEffects_stars_day _ _ _ rfl hday⟩
    rw [updateWeatherEffects_effects _ _ _ rfl, hday]
  · intro env c hc s description icon tz sunrise sunset hsr hss hn hr hs
    have hnight : isNightTime env
        (some ⟨⟨⟨"Clear", description, icon⟩, tz, sunrise, sunset⟩⟩) = true := by
      rw [isNightTime_eq env _ tz sunrise sunset _ _ hsr hss hn hr hs]
      have e1 : env.now - 21600000 + tz * 1000 = env.now + tz * 1000 - 21600000 := by ring
      have e2 : env.now - 3600000 + tz * 1000 = env.now + tz * 1000 - 3600000 := by ring
      rw [e1, e2]
      simpa using daySeconds_after_sunset env c hc (env.now + tz * 1000)
    refine ⟨hnight, ?_, ?_, ?_⟩
    · rw [updateWeatherEffects_effects env _ _ rfl, hnight]
      simp only [hl, ruleTable_clear]
    · rw [updateBackgroundTheme_bodyClass env _ _ rfl]
      simp only [themeClass, hnight, hl, weatherCondition_clear]
      decide
    · rw [(updateWeatherEffects_stars_clear_night env _ _ rfl hl hnight).1]
      simp

/-- C15. On a loaded snapshot `forceScenario("night")` sets the category to
Clear, the sunrise to twelve hours and the sunset to six hours before the
current instant, keeps the offset, and `isNightTime` at that instant is true
on the new snapshot (on a host whose zone offsets at the three instants read
differ by at most five hours). -/
theorem forceScenario_night (env : Env) (s : State) (d : WeatherData)
    (h : s.currentWeatherData = some d)
    (h0 : dateRange env.now) (h1 : dateRange (env.now - 43200000))
    (hn : dateRange (env.now + d.current.timezone * 1000))
    (hr : dateRange (env.now - 43200000 + d.current.timezone * 1000))
    (hz : env.zoneSpreadLe 18000000
      [env.now + d.current.timezone * 1000, env.now + d.current.timezone * 1000 - 21600000,
        env.now + d.current.timezone * 1000 - 43200000]) :
    ∃ d', (forceScenario env "night" s).currentWeatherData = some d' ∧
      d'.current.weather.main = "Clear" ∧
      d'.current.timezone = d.current.timezone ∧
      d'.current.sunrise = .date (some (env.now - 43200000)) ∧
      d'.current.sunset = .date (some (env.now - 21600000)) ∧
      isNightTime env (some d') = true := by
  have h2 : dateRange (env.now - 21600000) := dateRange_between _ _ _ h1 h0 (by omega) (by omega)
  have hs : dateRange (env.now - 21600000 + d.current.timezone * 1000) :=
    dateRange_between _ _ _ hr hn (by omega) (by omega)
  refine ⟨⟨forcedWeather env "night" d.current⟩, ?_, ?_, ?_, ?_, ?_, ?_⟩
  · rw [forceScenario_eq env "night" s d h, updateBackgroundTheme_data,
      updateWeatherEffects_data]
  · rw [forcedWeather_night env _ h1 h2]
  · rw [forcedWeather_night env _ h1 h2]
  · rw [forcedWeather_night env _ h1 h2]
  · rw [forcedWeather_night env _ h1 h2]
  · rw [forcedWeather_night env _ h1 h2]
    have key := isNightTime_eq env ⟨"Clear", "Noite limpa", "01n"⟩ d.current.timezone
      (.date (some (env.now - 43200000))) (.date (some (env.now - 21600000)))
      (env.now - 43200000) (env.now - 21600000) (Or.inr (Or.inl rfl)) (Or.inr (Or.inl rfl))
      hn hr hs
    refine key.trans ?_
    have e1 : env.now - 43200000 + d.current.timezone * 1000
        = env.now + d.current.timezone * 1000 - 43200000 := by ring
    have e2 : env.now - 21600000 + d.current.timezone * 1000
        = env.now + d.current.timezone * 1000 - 21600000 := by ring
    rw [e1, e2]
    simpa using daySeconds_forced_night env (env.now + d.current.timezone * 1000) hz

/-- C15, witness: the night scenario forced at 10:00 on the page loaded with a
clear day. -/
theorem forceScenario_night_witness :
    ∃ d', (forceScenario (utcHost 36000000) "night"
        (loadedPage 36000000 clearDay)).currentWeatherData = some d' ∧
      d'.current.weather.main = "Clear" ∧
      d'.current.timezone = clearDay.current.timezone ∧
      d'.current.sunrise = .date (some ((utcHost 36000000).now - 43200000)) ∧
      d'.current.sunset = .date (some ((utcHost 36000000).now - 21600000)) ∧
      isNightTime (utcHost 36000000) (some d') = true :=
  forceScenario_night (utcHost 36000000) (loadedPage 36000000 clearDay) clearDay
    (loadedPage_data 36000000 clearDay) (by norm_num [dateRange, utcHost])
    (by norm_num [dateRange, utcHost]) (by norm_num [dateRange, utcHost, clearDay])
    (by norm_num [dateRange, utcHost, clearDay]) (fun _ _ _ _ => by simp [utcHost])

/-! ## The populations -/

/-- C16, the claim at a failing input. The draw `1 - 2⁻⁵³` is a binary64
number of `[0, 1)`, and when every draw is that one the 200 drops
`createRainParticles` builds on a Thunderstorm have the length 30 and the
speed 45, neither of them below the end of the range stated. -/
theorem rain_length_reaches_30 :
    (fl (1 - 1 / 2 ^ 53) = 1 - 1 / 2 ^ 53 ∧ (0 : ℚ) ≤ 1 - 1 / 2 ^ 53 ∧
      (1 - 1 / 2 ^ 53 : ℚ) < 1) ∧
    (createRainParticles (drawHost 43200000 (1 - 1 / 2 ^ 53)) stormDay
      (construct 800 600)).particles.length = 200 ∧
    ∀ p ∈ (createRainParticles (drawHost 43200000 (1 - 1 / 2 ^ 53)) stormDay
        (construct 800 600)).particles,
      p.length = some 30 ∧ p.speed = some 45 := by
  have hm : toLowerCase stormDay.current.weather.main = "thunderstorm" := by decide
  have i45 : fl (30 * (3 / 2)) = 45 := by
    have : (30 : ℚ) * (3 / 2) = 45 := by norm_num
    rw [this]
    simpa using fl_intCast 45 (by norm_num)
  refine ⟨⟨fl_draw_53, by norm_num, by norm_num⟩, ?_, ?_⟩
  · simp [createRainParticles, hm]
  · intro p hp
    simp only [createRainParticles, hm, if_true, List.mem_map, List.mem_range] at hp
    obtain ⟨i, _, rfl⟩ := hp
    simp only [rainParticle, mkDrop, rnd, drawHost, rain_length_at_last_draw, i45]
    refine ⟨?_, ?_⟩ <;> first | rfl | trivial

/-- C16. With draws that are binary64 numbers of `[0, 1)`,
`createRainParticles` replaces the particles by 200 drops of speed
`(r * 15 + 15) * 1.5`, from 22.5 to 45, on a Thunderstorm and by 150 drops of
speed `(r * 15 + 15) * 1`, from 15 to 30, on Rain, every operation rounded to
binary64 and both ends included; every drop has the type rain, a length from
15 to 30, both included, and an angle in `[-5, 5)`; and on Rain neither
`createRainParticles` nor the population `updateWeatherEffects` leaves depends
on the description. -/
theorem createRainParticles_profile (env : Env) (d : WeatherData) (s : State)
    (hrand : ∀ n, fl (env.random n) = env.random n ∧ 0 ≤ env.random n ∧ env.random n < 1) :
    (toLowerCase d.current.weather.main = "thunderstorm" →
      (createRainParticles env d s).particles.length = 200 ∧
      ∀ p ∈ (createRainParticles env d s).particles, ∃ r : ℚ, 0 ≤ r ∧ r < 1 ∧
        p.speed = some (fl (fl (fl (r * 15) + 15) * (3 / 2))) ∧
        45 / 2 ≤ fl (fl (fl (r * 15) + 15) * (3 / 2)) ∧
        fl (fl (fl (r * 15) + 15) * (3 / 2)) ≤ 45) ∧
    (toLowerCase d.current.weather.main = "rain" →
      (createRainParticles env d s).particles.length = 150 ∧
      ∀ p ∈ (createRainParticles env d s).particles, ∃ r : ℚ, 0 ≤ r ∧ r < 1 ∧
        p.speed = some (fl (fl (fl (r * 15) + 15) * 1)) ∧
        15 ≤ fl (fl (fl (r * 15) + 15) * 1) ∧ fl (fl (fl (r * 15) + 15) * 1) ≤ 30) ∧
    (∀ p ∈ (createRainParticles env d s).particles, p.type = some "rain" ∧
      ∃ L a : ℚ, p.length = some L ∧ 15 ≤ L ∧ L ≤ 30 ∧ p.angle = some a ∧ -5 ≤ a ∧ a < 5) ∧
    (∀ description : String,
      createRainParticles env
          ⟨{ d.current with weather := { d.current.weather with description := description } }⟩ s
        = createRainParticles env d s) ∧
    (toLowerCase d.current.weather.main = "rain" → ∀ description : String,
      (updateWeatherEffects env (s.withData
          ⟨{ d.current with
              weather := { d.current.weather with description := description } }⟩)).particles
        = (updateWeatherEffects env (s.withData d)).particles) := by
  have hthunder : ("rain" : String) ≠ "thunderstorm" := by decide
  refine ⟨?_, ?_, ?_, ?_, ?_⟩
  · intro hm
    simp only [createRainParticles, hm, if_true, List.length_map, List.length_range,
      List.mem_map, List.mem_range, true_and]
    rintro p ⟨i, _, rfl⟩
    obtain ⟨_, h0, h1⟩ := hrand (s.randomCalls + (6 * i + 2))
    obtain ⟨⟨b0, b1⟩, _⟩ := rain_speed_bounds _ h0 h1
    exact ⟨env.random (s.randomCalls + (6 * i + 2)), h0, h1, rfl, b0, b1⟩
  · intro hm
    simp only [createRainParticles, hm, hthunder, if_false, List.length_map, List.length_range,
      List.mem_map, List.mem_range, true_and]
    rintro p ⟨i, _, rfl⟩
    obtain ⟨_, h0, h1⟩ := hrand (s.randomCalls + (6 * i + 2))
    obtain ⟨_, b0, b1⟩ := rain_speed_bounds _ h0 h1
    exact ⟨env.random (s.randomCalls + (6 * i + 2)), h0, h1, rfl, b0, b1⟩
  · intro p hp
    simp only [createRainParticles, List.mem_map, List.mem_range] at hp
    obtain ⟨i, _, rfl⟩ := hp
    obtain ⟨_, h0, h1⟩ := hrand (s.randomCalls + (6 * i + 3))
    obtain ⟨gd, g0, g1⟩ := hrand (s.randomCalls + (6 * i + 5))
    obtain ⟨a0, a1⟩ := rain_length_bounds _ h0 h1
    obtain ⟨c0, c1⟩ := rain_angle_bounds _ gd g0 g1
    exact ⟨rfl, _, _, rfl, a0, a1, rfl, c0, c1⟩
  · intro description
    rfl
  · intro hm description
    have e1 := updateWeatherEffects_particles_rain env (s.withData d) d rfl (Or.inl hm)
    have e2 := updateWeatherEffects_particles_rain env
      (s.withData
        ⟨{ d.current with weather := { d.current.weather with description := description } }⟩)
      ⟨{ d.current with weather := { d.current.weather with description := description } }⟩
      rfl (Or.inl hm)
    rw [e1, e2]
    rfl

/-- C16, witness: a thunderstorm on a fresh page, all draws 0, gets 200 drops. -/
theorem createRainParticles_profile_witness :
    (createRainParticles (utcHost 43200000) stormDay (construct 800 600)).particles.length
      = 200 :=
  ((createRainParticles_profile (utcHost 43200000) stormDay (construct 800 600)
    (fun _ => ⟨fl_zero, le_refl _, by norm_num [utcHost]⟩)).1 (by decide)).1

/-- C17, the code at the failing input: on a Drizzle snapshot
`updateWeatherEffects` leaves the population of `createRainParticles`, 150
drops of type rain with a length of at least 15, where `createDrizzleParticles`
would build 200 drops of type drizzle. -/
theorem drizzle_gets_rain_profile :
    (updateWeatherEffects (utcHost 43200000)
      ((construct 800 600).withData drizzleDay)).particles.length = 150 ∧
    (∀ p ∈ (updateWeatherEffects (utcHost 43200000)
        ((construct 800 600).withData drizzleDay)).particles,
      p.type = some "rain" ∧ p.length = some 15 ∧ p.speed = some 15) ∧
    (createDrizzleParticles (utcHost 43200000)
      ((construct 800 600).withData drizzleDay)).particles.length = 200 ∧
    (∀ p ∈ (createDrizzleParticles (utcHost 43200000)
        ((construct 800 600).withData drizzleDay)).particles,
      p.type = some "drizzle" ∧ p.length = some 5 ∧ p.speed = some (56 / 10)) := by
  have hm : toLowerCase drizzleDay.current.weather.main = "drizzle" := by decide
  have i15 : fl 15 = 15 := by simpa using fl_intCast 15 (by norm_num)
  rw [updateWeatherEffects_particles_rain _ _ drizzleDay rfl (Or.inr hm)]
  refine ⟨by simp, ?_, by simp [createDrizzleParticles], ?_⟩
  · intro p hp
    simp only [List.mem_map, List.mem_range] at hp
    obtain ⟨i, _, rfl⟩ := hp
    simp only [rainParticle, mkDrop, rnd, utcHost, zero_mul, fl_zero, zero_add, i15, mul_one]
    refine ⟨?_, ?_, ?_⟩ <;> first | rfl | trivial
  · intro p hp
    simp only [createDrizzleParticles, List.mem_map, List.mem_range] at hp
    obtain ⟨i, _, rfl⟩ := hp
    simp only [drizzleParticle, mkDrop, rnd, utcHost]
    norm_num

/-- C18, the claim at failing inputs. When every draw is `1 - 2⁻⁵³`, a
binary64 number of `[0, 1)`, the 15 clouds `createCloudParticles` builds on
Snow by day have the opacity 0.5, the sum of the baseline 0.3 and the
variation 0.2 and not below it; and when every draw is 0 the 25 clouds it
builds on Clouds by night have an opacity below 0.7 times the baseline 0.4. -/
theorem cloud_opacity_outside_range :
    (fl (1 - 1 / 2 ^ 53) = 1 - 1 / 2 ^ 53 ∧ (0 : ℚ) ≤ 1 - 1 / 2 ^ 53 ∧
      (1 - 1 / 2 ^ 53 : ℚ) < 1) ∧
    (isNightTime (drawHost 43200000 (1 - 1 / 2 ^ 53)) (some snowDay) = false ∧
      ∃ clouds,
        (createCloudParticles (drawHost 43200000 (1 - 1 / 2 ^ 53)) snowDay
          (construct 800 600)).clouds = some clouds ∧
        clouds.length = 15 ∧
        ∀ c ∈ clouds, c.opacity = 1 / 2 ∧ ¬ c.opacity < 3 / 10 + 2 / 10 ∧
          ¬ c.opacity < fl (3 / 10) + fl (2 / 10)) ∧
    (isNightTime (utcHost 72000000) (some cloudsDay) = true ∧
      ∃ clouds,
        (createCloudParticles (utcHost 72000000) cloudsDay (construct 800 600)).clouds
          = some clouds ∧
        clouds.length = 25 ∧
        ∀ c ∈ clouds, c.opacity = 5044031582654955 / 2 ^ 54 ∧
          ¬ 7 / 10 * (4 / 10) ≤ c.opacity ∧ ¬ fl (7 / 10 * (4 / 10)) ≤ c.opacity) := by
  have hday : isNightTime (drawHost 43200000 (1 - 1 / 2 ^ 53)) (some snowDay) = false := by
    rw [snowDay, isNightTime_eq (drawHost 43200000 (1 - 1 / 2 ^ 53)) _ 0 _ _ 21600000 64800000
      (Or.inr (Or.inl rfl)) (Or.inr (Or.inl rfl)) (by norm_num [dateRange, drawHost])
      (by norm_num [dateRange]) (by norm_num [dateRange])]
    decide
  have hnight : isNightTime (utcHost 72000000) (some cloudsDay) = true := by
    rw [cloudsDay, isNightTime_eq (utcHost 72000000) _ 0 _ _ 21600000 64800000
      (Or.inr (Or.inl rfl)) (Or.inr (Or.inl rfl)) (by norm_num [dateRange, utcHost])
      (by norm_num [dateRange]) (by norm_num [dateRange])]
    decide
  have hs : toLowerCase snowDay.current.weather.main = "snow" := by decide
  have hc : toLowerCase cloudsDay.current.weather.main = "clouds" := by decide
  have s1 : ("snow" : String) ≠ "clouds" := by decide
  have s2 : ("snow" : String) ≠ "rain" := by decide
  have s3 : ("snow" : String) ≠ "drizzle" := by decide
  have s4 : ("snow" : String) ≠ "thunderstorm" := by decide
  refine ⟨⟨fl_draw_53, by norm_num, by norm_num⟩, ⟨hday, _, rfl, ?_, ?_⟩,
    ⟨hnight, _, rfl, ?_, ?_⟩⟩
  · simp [hs, cloudCount, s1, s2, s3, s4]
  · intro c hc'
    simp only [List.mem_map, List.mem_range] at hc'
    obtain ⟨i, _, rfl⟩ := hc'
    have e : (cloudParticle (construct 800 600).canvasWidth (construct 800 600).canvasHeight
        (if isNightTime (drawHost 43200000 (1 - 1 / 2 ^ 53)) (some snowDay) = true then
          fl (fl (cloudOpacityBase (toLowerCase snowDay.current.weather.main)) * fl (7 / 10))
          else fl (cloudOpacityBase (toLowerCase snowDay.current.weather.main)))
        (fl (cloudOpacityVariation (toLowerCase snowDay.current.weather.main)))
        (fun k => rnd (drawHost 43200000 (1 - 1 / 2 ^ 53)) (construct 800 600)
          (6 * i + k))).opacity = 1 / 2 := by
      simp only [hday, hs, Bool.false_eq_true, if_false]
      simp only [cloudParticle, rnd, drawHost, cloudOpacityBase, cloudOpacityVariation,
        s1, s2, s3, s4, if_false, or_self]
      exact cloud_opacity_at_last_draw
    rw [e, fl_three_tenths, fl_two_tenths]
    norm_num
  · simp [hc, cloudCount]
  · intro c hc'
    simp only [List.mem_map, List.mem_range] at hc'
    obtain ⟨i, _, rfl⟩ := hc'
    have e : (cloudParticle (construct 800 600).canvasWidth (construct 800 600).canvasHeight
        (if isNightTime (utcHost 72000000) (some cloudsDay) = true then
          fl (fl (cloudOpacityBase (toLowerCase cloudsDay.current.weather.main)) * fl (7 / 10))
          else fl (cloudOpacityBase (toLowerCase cloudsDay.current.weather.main)))
        (fl (cloudOpacityVariation (toLowerCase cloudsDay.current.weather.main)))
        (fun k => rnd (utcHost 72000000) (construct 800 600) (6 * i + k))).opacity
        = 5044031582654955 / 2 ^ 54 := by
      simp only [hnight, hc, if_true]
      simp only [cloudParticle, rnd, utcHost, cloudOpacityBase, if_true, zero_mul,
        fl_zero, zero_add, fl_fl]
      exact cloud_night_base
    rw [e, fl_twentyeight]
    norm_num

/-- C18. With draws that are binary64 numbers of `[0, 1)`,
`createCloudParticles` creates the number of clouds of the table, each with an
opacity from `b` to the rounded sum of `b` and `v`, both included, where `v` is
the binary64 number of the variation of the table and `b` that of its
baseline, multiplied by 0.7 and rounded by night, and with a shape among 0, 1,
2. -/
theorem createCloudParticles_profile (env : Env) (d : WeatherData) (s : State)
    (hrand : ∀ n, fl (env.random n) = env.random n ∧ 0 ≤ env.random n ∧ env.random n < 1) :
    ∃ clouds, (createCloudParticles env d s).clouds = some clouds ∧
      clouds.length = (cloudProfile (toLowerCase d.current.weather.main)).1 ∧
      ∀ c ∈ clouds,
        (if isNightTime env (some d) = true
          then fl (fl (cloudProfile (toLowerCase d.current.weather.main)).2.1 * fl (7 / 10))
          else fl (cloudProfile (toLowerCase d.current.weather.main)).2.1) ≤ c.opacity ∧
        c.opacity ≤
          fl ((if isNightTime env (some d) = true
              then fl (fl (cloudProfile (toLowerCase d.current.weather.main)).2.1 * fl (7 / 10))
              else fl (cloudProfile (toLowerCase d.current.weather.main)).2.1)
            + fl (cloudProfile (toLowerCase d.current.weather.main)).2.2) ∧
        (c.shape = 0 ∨ c.shape = 1 ∨ c.shape = 2) := by
  have hp := cloudProfile_eq (toLowerCase d.current.weather.main)
  have hv : 0 ≤ cloudOpacityVariation (toLowerCase d.current.weather.main) := by
    unfold cloudOpacityVariation
    split_ifs <;> norm_num
  refine ⟨_, rfl, ?_, ?_⟩
  · rw [← hp]
    simp
  · intro c hc
    simp only [List.mem_map, List.mem_range] at hc
    obtain ⟨i, _, rfl⟩ := hc
    rw [← hp]
    obtain ⟨_, h0, h1⟩ := hrand (s.randomCalls + (6 * i + 2))
    obtain ⟨gd, g0, g1⟩ := hrand (s.randomCalls + (6 * i + 5))
    have hb : fl (if isNightTime env (some d) = true
        then fl (fl (cloudOpacityBase (toLowerCase d.current.weather.main)) * fl (7 / 10))
        else fl (cloudOpacityBase (toLowerCase d.current.weather.main)))
        = (if isNightTime env (some d) = true
          then fl (fl (cloudOpacityBase (toLowerCase d.current.weather.main)) * fl (7 / 10))
          else fl (cloudOpacityBase (toLowerCase d.current.weather.main))) := by
      split_ifs <;> exact fl_fl _
    obtain ⟨b0, b1⟩ := cloud_opacity_bounds _ _ _ h0 h1 hb (fl_fl _) (fl_nonneg _ hv)
    exact ⟨b0, b1, cloud_shape _ gd g0 g1⟩

/-- C18, witness: a thunderstorm by day, all draws 0, gets 30 clouds. -/
theorem createCloudParticles_profile_witness :
    ∃ clouds, (createCloudParticles (utcHost 43200000) stormDay (construct 800 600)).clouds
        = some clouds ∧ clouds.length = 30 :=
  (createCloudParticles_profile (utcHost 43200000) stormDay (construct 800 600)
    (fun _ => ⟨fl_zero, le_refl _, by norm_num [utcHost]⟩)).imp
    (fun _ h => ⟨h.1, h.2.1.trans (by decide)⟩)

/-- C19, the code at the failing input, and the other categories. On the page
of a clear night that holds 300 stars, `updateWeatherEffects` makes the 2100
draws of `createStarParticles` and leaves stars that differ from those it
found; outside Clear, by night, it keeps the stars there are. -/
theorem stars_recreated_on_clear_night :
    (isNightTime (twoPhaseHost 72000000) starryPage.currentWeatherData = true ∧
      starryPage.stars.length = 300 ∧
      (updateWeatherEffects (twoPhaseHost 72000000) starryPage).randomCalls
        = starryPage.randomCalls + 2100 ∧
      (updateWeatherEffects (twoPhaseHost 72000000) starryPage).stars ≠ starryPage.stars) ∧
    (∀ (env : Env) (s : State) (d : WeatherData), s.currentWeatherData = some d →
      toLowerCase d.current.weather.main ≠ "clear" → isNightTime env (some d) = true →
      s.stars ≠ [] → (updateWeatherEffects env s).stars = s.stars) := by
  have hl : toLowerCase (clearAfterSunset 72000000 0).current.weather.main = "clear" := by
    decide
  have hd : starryPage.currentWeatherData = some (clearAfterSunset 72000000 0) := by
    rw [starryPage, updateWeatherEffects_data]
    rfl
  obtain ⟨a1, a2⟩ := updateWeatherEffects_stars_clear_night (twoPhaseHost 72000000)
    ((construct 800 600).withData (clearAfterSunset 72000000 0)) _ rfl hl isNightTime_starry
  obtain ⟨b1, b2⟩ := updateWeatherEffects_stars_clear_night (twoPhaseHost 72000000)
    starryPage _ hd hl isNightTime_starry
  have hw : starryPage.canvasWidth = 800 := by
    rw [starryPage, (updateWeatherEffects_canvas _ _).1]
    rfl
  have hc : starryPage.randomCalls = 2100 := by
    rw [starryPage, a2]
    rfl
  refine ⟨⟨by rw [hd]; exact isNightTime_starry, ?_, by rw [b2], ?_⟩, ?_⟩
  · rw [starryPage, a1]
    simp
  · intro heq
    have a1' : starryPage.stars = _ := a1
    rw [b1, a1'] at heq
    have h0 := congrArg (fun l => (l.head?).map Star.x) heq
    simp [List.head?_range, starParticle, rnd, twoPhaseHost, hc, hw, State.withData,
      construct] at h0
  · intro env s d h hm hn hs
    exact (updateWeatherEffects_stars_kept env s d h hm hn hs).1

/-- C20 (amended). The callback of `animateRain` calls `createRainSplash` for
a rain drop exactly when its advanced `y` exceeds the canvas height minus 20,
hence for every drop it recycles, and never for a particle of another type;
the callback of `animateDrizzle` never calls it. -/
theorem rainStep_splash (w h : ℚ) (r : Nat → ℚ) (p : Particle) :
    (∀ L y v : ℚ, p.IsDrop "rain" L y v →
      ((rainStep w h r p).2.2 = true ↔ h - 20 < y + v) ∧
      (h < y + v → (rainStep w h r p).2.2 = true ∧ (rainStep w h r p).1.y = some (-L))) ∧
    (p.type ≠ some "rain" → (rainStep w h r p).2.2 = false) ∧
    (drizzleStep w h r p).2.2 = false := by
  refine ⟨?_, ?_, ?_⟩
  · rintro L y v ⟨h1, h2, h3, h4⟩
    have hs : (rainStep w h r p).2.2 = decide (h - 20 < y + v) := by
      simp only [rainStep, h1, h3, h4, JSNum.add, JSNum.gt, ne_eq, not_true_eq_false, if_false]
      split <;> rfl
    refine ⟨by rw [hs]; simp, fun hy => ⟨by rw [hs]; simp; linarith, ?_⟩⟩
    simp [rainStep, h1, h2, h3, h4, JSNum.add, JSNum.gt, JSNum.neg, hy]
  · intro ht
    simp [rainStep, ht]
  · unfold drizzleStep
    dsimp only
    split_ifs <;> rfl

/-- C20, counterexample: on a canvas of height 600 a rain drop at `y = 570`
falling at 20 a frame reaches 590; `createRainSplash` is called and the drop
is not recycled. -/
theorem rainStep_splash_without_recycle :
    (rainStep 800 600 (fun _ => 0) (mkDrop "rain" 100 570 20 15 (1 / 2) 0)).2.2 = true ∧
    (rainStep 800 600 (fun _ => 0) (mkDrop "rain" 100 570 20 15 (1 / 2) 0)).1.y = some 590 ∧
    ¬ ((600 : ℚ) < 570 + 20) := by
  refine ⟨?_, ?_, by norm_num⟩
  · simp [rainStep, mkDrop, JSNum.add, JSNum.gt]
    norm_num
  · simp [rainStep, mkDrop, JSNum.add, JSNum.gt]
    norm_num

/-! ## Facts on the loops -/

theorem forEachDraws_length {α : Type} (f : (Nat → ℚ) → α → α × Nat) (l : List α)
    (r : Nat → ℚ) : (forEachDraws f r l).1.length = l.length := by
  induction l generalizing r with
  | nil => rfl
  | cons a rest ih => simp [forEachDraws, ih]

theorem forEachDraws_map {α β : Type} (f : (Nat → ℚ) → α → α × Nat) (g : α → β)
    (hf : ∀ r a, g (f r a).1 = g a) (l : List α) (r : Nat → ℚ) :
    (forEachDraws f r l).1.map g = l.map g := by
  induction l generalizing r with
  | nil => rfl
  | cons a rest ih => simp [forEachDraws, ih, hf]

theorem forEachDraws_forall {α : Type} (f : (Nat → ℚ) → α → α × Nat) (P Q : α → Prop)
    (hf : ∀ r a, (∀ n, 0 ≤ r n ∧ r n < 1) → P a → Q (f r a).1) (l : List α) (r : Nat → ℚ)
    (hr : ∀ n, 0 ≤ r n ∧ r n < 1) (hl : ∀ a ∈ l, P a) :
    ∀ b ∈ (forEachDraws f r l).1, Q b := by
  induction l generalizing r with
  | nil =>
    intro b hb
    simp [forEachDraws] at hb
  | cons a rest ih =>
    intro b hb
    simp only [forEachDraws, List.mem_cons] at hb
    rcases hb with hb | hb
    · rw [hb]
      exact hf r a hr (hl a (List.mem_cons_self _ _))
    · exact ih _ (fun n => hr _) (fun x hx => hl x (List.mem_cons_of_mem _ hx)) b hb

/-- After the callback of `animateSnow` a flake that had a position and a
drift has them still, its `x` within the canvas; and when its advanced `x`
was outside, the new `x` is a draw times the width. -/
theorem snowStep_x_bounds (w h : ℚ) (hw : 0 ≤ w) (r : Nat → ℚ)
    (hr : ∀ n, 0 ≤ r n ∧ r n < 1) (p : Particle) (x dr : ℚ) (hx : p.x = some x)
    (hd : p.drift = some dr) :
    ∃ x', (snowStep w h r p).1.x = some x' ∧ 0 ≤ x' ∧ x' ≤ w ∧
      (snowStep w h r p).1.drift = some dr ∧
      (x + dr < 0 ∨ w < x + dr → ∃ u, 0 ≤ u ∧ u < 1 ∧ x' = u * w) := by
  have b0 := hr 0
  have m0 : 0 ≤ r 0 * w := mul_nonneg b0.1 hw
  have m1 : r 0 * w ≤ w := by nlinarith
  unfold snowStep
  dsimp only
  generalize JSNum.gt (JSNum.add p.y p.speed) (some h) = g
  have c1 : ¬ (w < r 0 * w) := by linarith
  have c2 : ¬ (r 0 * w < 0) := by linarith
  cases g
  · simp only [Bool.false_eq_true, if_false, hx, hd, JSNum.add, JSNum.gt, JSNum.lt]
    by_cases hout : w < x + dr ∨ x + dr < 0
    · have : (decide (w < x + dr) || decide (x + dr < 0)) = true := by simpa using hout
      simp only [this, if_true]
      exact ⟨_, rfl, m0, m1, trivial, fun _ => ⟨r 0, b0.1, b0.2, rfl⟩⟩
    · have : (decide (w < x + dr) || decide (x + dr < 0)) = false := by simpa using hout
      simp only [this, Bool.false_eq_true, if_false]
      push_neg at hout
      exact ⟨_, rfl, hout.2, hout.1, trivial, fun hc => by rcases hc with hc | hc <;> linarith⟩
  · simp only [if_true, hd, JSNum.gt, JSNum.lt, c1, c2, decide_False, Bool.or_self,
      Bool.false_eq_true, if_false]
    exact ⟨_, rfl, m0, m1, trivial, fun _ => ⟨r 0, b0.1, b0.2, rfl⟩⟩

/-! ## Snow -/

/-- C21. With draws in `[0, 1)`, `createSnowParticles` creates 50 flakes with
a speed in `[1, 4)` and a drift in `[-1, 1)`; `animateSnow` keeps the number
of particles, their speeds and their drifts; after it, on a canvas of positive
width, every flake that had a position and a drift has an `x` from 0 to the
width; and a flake whose advanced `x` is below 0 or above the width gets a
draw times the width, in `[0, width)`. -/
theorem snow_population (env : Env) (s : State)
    (hrand : ∀ n, 0 ≤ env.random n ∧ env.random n < 1) (hw : 0 < s.canvasWidth) :
    ((createSnowParticles env s).particles.length = 50 ∧
      ∀ p ∈ (createSnowParticles env s).particles, ∃ x v dr : ℚ,
        p.x = some x ∧ p.speed = some v ∧ 1 ≤ v ∧ v < 4 ∧
        p.drift = some dr ∧ -1 ≤ dr ∧ dr < 1) ∧
    (∃ s', animateSnow env s = some s' ∧
      s'.particles.length = s.particles.length ∧
      s'.particles.map Particle.speed = s.particles.map Particle.speed ∧
      s'.particles.map Particle.drift = s.particles.map Particle.drift ∧
      ((∀ p ∈ s.particles, ∃ x dr : ℚ, p.x = some x ∧ p.drift = some dr) →
        ∀ q ∈ s'.particles, ∃ x' dr' : ℚ,
          q.x = some x' ∧ q.drift = some dr' ∧ 0 ≤ x' ∧ x' ≤ s.canvasWidth)) ∧
    (∀ (r : Nat → ℚ) (p : Particle) (x dr : ℚ), (∀ n, 0 ≤ r n ∧ r n < 1) →
      p.x = some x → p.drift = some dr → (x + dr < 0 ∨ s.canvasWidth < x + dr) →
      ∃ u : ℚ, 0 ≤ u ∧ u < 1 ∧
        (snowStep s.canvasWidth s.canvasHeight r p).1.x = some (u * s.canvasWidth) ∧
        0 ≤ u * s.canvasWidth ∧ u * s.canvasWidth < s.canvasWidth) := by
  refine ⟨⟨by simp [createSnowParticles], ?_⟩, ⟨_, rfl, ?_, ?_, ?_, ?_⟩, ?_⟩
  · intro p hp
    simp only [createSnowParticles, List.mem_map, List.mem_range] at hp
    obtain ⟨i, _, rfl⟩ := hp
    obtain ⟨h0, h1⟩ := hrand (s.randomCalls + (6 * i + 2))
    obtain ⟨g0, g1⟩ := hrand (s.randomCalls + (6 * i + 5))
    refine ⟨_, _, _, rfl, rfl, ?_, ?_, rfl, ?_, ?_⟩ <;> simp only [rnd] <;> linarith
  · exact forEachDraws_length _ _ _
  · exact forEachDraws_map _ _ (fun r a => (snowStep_fields _ _ r a).2.1) _ _
  · exact forEachDraws_map _ _ (fun r a => (snowStep_fields _ _ r a).2.2.1) _ _
  · intro hl
    refine forEachDraws_forall (snowStep s.canvasWidth s.canvasHeight)
      (fun p => ∃ x dr : ℚ, p.x = some x ∧ p.drift = some dr)
      (fun q => ∃ x' dr' : ℚ, q.x = some x' ∧ q.drift = some dr' ∧ 0 ≤ x' ∧
        x' ≤ s.canvasWidth) ?_ s.particles (rnd env s) (fun n => hrand _) hl
    rintro r a hr ⟨x, dr, hx, hd⟩
    obtain ⟨x', a1, a2, a3, a4, _⟩ :=
      snowStep_x_bounds s.canvasWidth s.canvasHeight hw.le r hr a x dr hx hd
    exact ⟨x', dr, a1, a4, a2, a3⟩
  · intro r p x dr hr hx hd hout
    obtain ⟨x', a1, _, _, _, a5⟩ :=
      snowStep_x_bounds s.canvasWidth s.canvasHeight hw.le r hr p x dr hx hd
    obtain ⟨u, u0, u1, hu⟩ := a5 hout
    exact ⟨u, u0, u1, by rw [a1, hu], mul_nonneg u0 hw.le, by nlinarith⟩

/-- C21, witness: on a fresh page of 800 by 600 with all draws 0 the snow has
50 flakes. -/
theorem snow_population_witness :
    (createSnowParticles (utcHost 0) (construct 800 600)).particles.length = 50 :=
  (snow_population (utcHost 0) (construct 800 600) (fun _ => by norm_num [utcHost])
    (by norm_num [construct])).1.1

/-! ## Clouds -/

/-- The clouds `createCloudParticles` builds on a Thunderstorm by day have an
opacity of at least the binary64 number 0.6, for draws that are not negative. -/
theorem createCloudParticles_storm_day (env : Env) (d : WeatherData) (s : State)
    (hrand : ∀ n, 0 ≤ env.random n ∧ env.random n < 1)
    (hm : toLowerCase d.current.weather.main = "thunderstorm")
    (hday : isNightTime env (some d) = false) :
    ∃ clouds, (createCloudParticles env d s).clouds = some clouds ∧ clouds.length = 30 ∧
      ∀ c ∈ clouds, fl (6 / 10) ≤ c.opacity := by
  have h1 : ("thunderstorm" : String) ≠ "clouds" := by decide
  have h2 : ("thunderstorm" : String) ≠ "rain" := by decide
  have h3 : ("thunderstorm" : String) ≠ "drizzle" := by decide
  refine ⟨_, rfl, ?_, ?_⟩
  · simp [hm, cloudCount, h1, h2, h3]
  · intro c hc
    simp only [List.mem_map, List.mem_range] at hc
    obtain ⟨i, _, rfl⟩ := hc
    obtain ⟨h0, g1⟩ := hrand (s.randomCalls + (6 * i + 2))
    simp only [cloudParticle, rnd, hm, hday, cloudOpacityBase, cloudOpacityVariation, h1, h2, h3,
      if_false, if_true, or_self, Bool.false_eq_true]
    exact (cloud_opacity_bounds _ _ _ h0 g1 (fl_fl _) (fl_fl _)
      (fl_nonneg _ (by norm_num))).1

/-- C22. The callback of `animateClouds` keeps the speed, the size and the
shape of a cloud. When the advanced `x` exceeds the width plus the size the
cloud goes to `x = -2 * size` with a new `y` in `[0, 0.7 * height)` and a new
opacity in `[0.2, 0.5)`, which no weather condition or night state enters;
else `x` is advanced by the speed and `y` and the opacity are kept. So a cloud
built on a Thunderstorm by day, of opacity at least the binary64 number 0.6,
has an opacity below 0.5 once recycled. -/
theorem cloudStep_recycle (w h : ℚ) (hh : 0 ≤ h) (r : Nat → ℚ)
    (hr : ∀ n, 0 ≤ r n ∧ r n < 1) (c : Cloud) :
    ((cloudStep w h r c).1.speed = c.speed ∧ (cloudStep w h r c).1.size = c.size ∧
      (cloudStep w h r c).1.shape = c.shape) ∧
    (c.x + c.speed > w + c.size →
      (cloudStep w h r c).1.x = -2 * c.size ∧
      0 ≤ (cloudStep w h r c).1.y ∧ (0 < h → (cloudStep w h r c).1.y < 7 / 10 * h) ∧
      2 / 10 ≤ (cloudStep w h r c).1.opacity ∧ (cloudStep w h r c).1.opacity < 5 / 10) ∧
    (¬ (c.x + c.speed > w + c.size) →
      (cloudStep w h r c).1.x = c.x + c.speed ∧ (cloudStep w h r c).1.y = c.y ∧
      (cloudStep w h r c).1.opacity = c.opacity) ∧
    (∀ (env : Env) (d : WeatherData) (s : State), (∀ n, 0 ≤ env.random n ∧ env.random n < 1) →
      toLowerCase d.current.weather.main = "thunderstorm" → isNightTime env (some d) = false →
      ∃ clouds, (createCloudParticles env d s).clouds = some clouds ∧
        ∀ c0 ∈ clouds, fl (6 / 10) ≤ c0.opacity ∧
          (c0.x + c0.speed > w + c0.size → (cloudStep w h r c0).1.opacity < 5 / 10)) := by
  obtain ⟨a0, a1⟩ := hr 0
  obtain ⟨b0, b1⟩ := hr 1
  have key : ∀ c : Cloud, c.x + c.speed > w + c.size →
      (cloudStep w h r c).1 =
        { c with x := -c.size * 2, y := r 0 * h * (7 / 10), opacity := r 1 * (3 / 10) + 2 / 10 } := by
    intro c hc
    simp [cloudStep, hc]
  refine ⟨?_, ?_, ?_, ?_⟩
  · unfold cloudStep
    dsimp only
    split_ifs <;> exact ⟨rfl, rfl, rfl⟩
  · intro hc
    rw [key c hc]
    refine ⟨by ring, ?_, fun hpos => ?_, ?_, ?_⟩
    · show 0 ≤ r 0 * h * (7 / 10)
      have := mul_nonneg a0 hh
      linarith
    · show r 0 * h * (7 / 10) < 7 / 10 * h
      nlinarith
    · show (2 : ℚ) / 10 ≤ r 1 * (3 / 10) + 2 / 10
      linarith
    · show r 1 * (3 / 10) + 2 / 10 < (5 : ℚ) / 10
      linarith
  · intro hc
    simp [cloudStep, hc]
  · intro env d s hrand hm hday
    obtain ⟨clouds, e1, _, e3⟩ := createCloudParticles_storm_day env d s hrand hm hday
    refine ⟨clouds, e1, fun c0 hc0 => ⟨e3 c0 hc0, fun hc => ?_⟩⟩
    rw [key c0 hc]
    show r 1 * (3 / 10) + 2 / 10 < (5 : ℚ) / 10
    linarith

/-- C22, witness: on a canvas of 800 by 600 a cloud of size 100 at `x = 900`
moving at 1 a frame goes back to `x = -200`. -/
theorem cloudStep_recycle_witness :
    (cloudStep 800 600 (fun _ => 0) ⟨900, 50, 1, 100, 6 / 10, 0⟩).1.x = -2 * 100 ∧
    (cloudStep 800 600 (fun _ => 0) ⟨900, 50, 1, 100, 6 / 10, 0⟩).1.opacity < 5 / 10 :=
  ⟨((cloudStep_recycle 800 600 (by norm_num) (fun _ => 0) (fun _ => by norm_num)
      ⟨900, 50, 1, 100, 6 / 10, 0⟩).2.1 (by norm_num)).1,
    ((cloudStep_recycle 800 600 (by norm_num) (fun _ => 0) (fun _ => by norm_num)
      ⟨900, 50, 1, 100, 6 / 10, 0⟩).2.1 (by norm_num)).2.2.2.2⟩

/-! ## Reclassification -/

theorem updateWeatherEffects_effects_eq (env : Env) (s t : State) (d : WeatherData)
    (hs : s.currentWeatherData = some d) (ht : t.currentWeatherData = some d) :
    (updateWeatherEffects env s).effects = (updateWeatherEffects env t).effects := by
  rw [updateWeatherEffects_effects env s d hs, updateWeatherEffects_effects env t d ht]

theorem updateBackgroundTheme_effects (env : Env) (s : State) (d : WeatherData)
    (h : s.currentWeatherData = some d) :
    (updateBackgroundTheme env s).effects = (updateWeatherEffects env s).effects := by
  rw [updateBackgroundTheme_eq env s d h]
  exact updateWeatherEffects_effects_eq env _ _ d h h

/-- C23. For a fixed snapshot and instant, a second `updateWeatherEffects`
leaves the flags of the first and a second `updateBackgroundTheme` the flags
and the theme key of the first; and on a loaded snapshot neither the flags nor
the key depend on the flags there were before. -/
theorem reclassification_idempotent (env : Env) (s : State) :
    (updateWeatherEffects env (updateWeatherEffects env s)).effects
      = (updateWeatherEffects env s).effects ∧
    (updateBackgroundTheme env (updateWeatherEffects env s)).effects
      = (updateWeatherEffects env s).effects ∧
    (updateBackgroundTheme env (updateBackgroundTheme env s)).effects
      = (updateBackgroundTheme env s).effects ∧
    (updateBackgroundTheme env (updateBackgroundTheme env s)).bodyClass
      = (updateBackgroundTheme env s).bodyClass ∧
    (∀ (d : WeatherData) (e : Effects), s.currentWeatherData = some d →
      (updateWeatherEffects env { s with effects := e }).effects
        = (updateWeatherEffects env s).effects ∧
      (updateBackgroundTheme env { s with effects := e }).effects
        = (updateBackgroundTheme env s).effects ∧
      (updateBackgroundTheme env { s with effects := e }).bodyClass
        = (updateBackgroundTheme env s).bodyClass) := by
  have last : ∀ (d : WeatherData) (e : Effects), s.currentWeatherData = some d →
      (updateWeatherEffects env { s with effects := e }).effects
        = (updateWeatherEffects env s).effects ∧
      (updateBackgroundTheme env { s with effects := e }).effects
        = (updateBackgroundTheme env s).effects ∧
      (updateBackgroundTheme env { s with effects := e }).bodyClass
        = (updateBackgroundTheme env s).bodyClass := by
    intro d e hd
    have he : ({ s with effects := e } : State).currentWeatherData = some d := hd
    refine ⟨updateWeatherEffects_effects_eq env _ _ d he hd, ?_, ?_⟩
    · rw [updateBackgroundTheme_effects env _ d he, updateBackgroundTheme_effects env s d hd]
      exact updateWeatherEffects_effects_eq env _ _ d he hd
    · rw [updateBackgroundTheme_bodyClass env _ d he, updateBackgroundTheme_bodyClass env s d hd]
  obtain h | ⟨d, h⟩ : s.currentWeatherData = none ∨ ∃ d, s.currentWeatherData = some d := by
    cases s.currentWeatherData
    · exact Or.inl rfl
    · exact Or.inr ⟨_, rfl⟩
  · have h1 : updateWeatherEffects env s = s := by simp only [updateWeatherEffects, h]
    have h2 : updateBackgroundTheme env s = s := by simp only [updateBackgroundTheme, h]
    refine ⟨?_, ?_, ?_, ?_, last⟩ <;> simp only [h1, h2]
  · have hu : (updateWeatherEffects env s).currentWeatherData = some d := by
      rw [updateWeatherEffects_data, h]
    have ht : (updateBackgroundTheme env s).currentWeatherData = some d := by
      rw [updateBackgroundTheme_data, h]
    refine ⟨updateWeatherEffects_effects_eq env _ _ d hu h, ?_, ?_, ?_, last⟩
    · rw [updateBackgroundTheme_effects env _ d hu]
      exact updateWeatherEffects_effects_eq env _ _ d hu h
    · rw [updateBackgroundTheme_effects env _ d ht, updateBackgroundTheme_effects env s d h]
      exact updateWeatherEffects_effects_eq env _ _ d ht h
    · rw [updateBackgroundTheme_bodyClass env _ d ht, updateBackgroundTheme_bodyClass env s d h]

/-! ## Sunrise after sunset -/

/-- C25. When the seconds of the day of the shifted sunrise exceed those of
the shifted sunset, `isNightTime` is true at every current instant. -/
theorem isNightTime_of_sunrise_after_sunset (env : Env) (w : Weather) (tz : Int)
    (sunrise sunset : SunTime) (sr ss : Int)
    (hsr : sunrise.Denotes sr) (hss : sunset.Denotes ss)
    (hn : dateRange (env.now + tz * 1000)) (hr : dateRange (sr + tz * 1000))
    (hs : dateRange (ss + tz * 1000))
    (hgt : daySeconds env (sr + tz * 1000) > daySeconds env (ss + tz * 1000)) :
    isNightTime env (some ⟨⟨w, tz, sunrise, sunset⟩⟩) = true := by
  rw [isNightTime_eq env w tz sunrise sunset sr ss hsr hss hn hr hs]
  simp only [Bool.or_eq_true, decide_eq_true_eq]
  omega

/-- C25, witness: the polar snapshot, sunrise at 02:00 and sunset at 00:30
local time, is night at 14:00 local time. -/
theorem isNightTime_of_sunrise_after_sunset_witness :
    isNightTime (utcHost 43200000) (some polarDay) = true :=
  isNightTime_of_sunrise_after_sunset (utcHost 43200000) ⟨"Clear", "clear sky", "01d"⟩ 7200
    (.date (some 0)) (.date (some 81000000)) 0 81000000 (Or.inr (Or.inl rfl))
    (Or.inr (Or.inl rfl)) (by norm_num [dateRange, utcHost]) (by norm_num [dateRange])
    (by norm_num [dateRange]) (by decide)

/-! ## Consistency of the flags -/

/-- C26. After `updateWeatherEffects` on a loaded snapshot rain and snow are
not both active, storm implies rain and clouds, and rain or snow implies
clouds; and `createRainParticles` and `createSnowParticles` each replace the
particles there were. -/
theorem effects_consistent (env : Env) (s : State) (d : WeatherData)
    (h : s.currentWeatherData = some d) :
    ¬ ((updateWeatherEffects env s).effects.rain = true ∧
      (updateWeatherEffects env s).effects.snow = true) ∧
    ((updateWeatherEffects env s).effects.storm = true →
      (updateWeatherEffects env s).effects.rain = true ∧
      (updateWeatherEffects env s).effects.clouds = true) ∧
    ((updateWeatherEffects env s).effects.rain = true ∨
      (updateWeatherEffects env s).effects.snow = true →
      (updateWeatherEffects env s).effects.clouds = true) ∧
    (∀ particles : List Particle,
      (createRainParticles env d { s with particles := particles }).particles
        = (createRainParticles env d s).particles ∧
      (createSnowParticles env { s with particles := particles }).particles
        = (createSnowParticles env s).particles) := by
  rw [updateWeatherEffects_effects env s d h]
  refine ⟨?_, ?_, ?_, fun _ => ⟨rfl, rfl⟩⟩ <;>
    (unfold ruleTable; split_ifs <;> simp)

/-- C26, witness: on the page loaded with a thunderstorm rain and snow are
not both active. -/
theorem effects_consistent_witness :
    (loadedPage 43200000 stormDay).currentWeatherData = some stormDay ∧
    ¬ ((updateWeatherEffects (utcHost 43200000) (loadedPage 43200000 stormDay)).effects.rain
        = true ∧
      (updateWeatherEffects (utcHost 43200000) (loadedPage 43200000 stormDay)).effects.snow
        = true) :=
  ⟨loadedPage_data 43200000 stormDay,
    (effects_consistent (utcHost 43200000) (loadedPage 43200000 stormDay) stormDay
      (loadedPage_data 43200000 stormDay)).1⟩

/-! ## Facts on the flash -/

theorem runFlash_succ (n : Nat) (st : FlashState) (t : FlashState × List FlashStage)
    (h : runFlash n st = some t) : runFlash (n + 1) st = some t := by
  induction n generalizing st t with
  | zero => simp [runFlash] at h
  | succ n ih =>
    rw [runFlash] at h ⊢
    rcases he : executeFlash st with ⟨st1, _ | flash⟩
    · rw [he] at h
      exact h
    · rw [he] at h
      simp only [Option.map_eq_some'] at h ⊢
      obtain ⟨u, hu, rfl⟩ := h
      exact ⟨u, ih st1 u hu, rfl⟩

theorem runFlash_add (n k : Nat) (st : FlashState) (t : FlashState × List FlashStage)
    (h : runFlash n st = some t) : runFlash (n + k) st = some t := by
  induction k with
  | zero => exact h
  | succ k ih => exact runFlash_succ (n + k) st t ih

/-- A call of `executeFlash` within the sequence applies the stage at
`currentFlash` and schedules the next call. -/
theorem executeFlash_stage (st : FlashState) (flash : FlashStage)
    (h : flashSequence.get? st.currentFlash = some flash) :
    executeFlash st =
      (if flash.intensity > 0 then
        { st with
          overlayBackground := .white flash.intensity
          bodyBrightness := some (1 + flash.intensity)
          currentFlash := st.currentFlash + 1 }
      else
        { st with
          overlayBackground := st.originalBg
          bodyBrightness := some 1
          currentFlash := st.currentFlash + 1 }, some flash) := by
  obtain ⟨hlt, hget⟩ := List.get?_eq_some.1 h
  unfold executeFlash
  rw [dif_neg (Nat.not_le.2 hlt)]
  simp only [hget]
  split <;> rfl

/-- A call of `executeFlash` past the sequence restores the background and
schedules nothing. -/
theorem executeFlash_end (st : FlashState) (h : 6 ≤ st.currentFlash) :
    executeFlash st = ({ st with overlayBackground := st.originalBg }, none) := by
  unfold executeFlash
  rw [dif_pos (by simpa [flashSequence] using h)]

/-- The seven calls of `executeFlash` one flash makes. -/
theorem runFlash_seven (bg : Background) (b : Option ℚ) :
    runFlash 7 (createOrganicLightning bg b)
      = some ({ originalBg := bg, currentFlash := 6, overlayBackground := bg,
                bodyBrightness := some 1 }, flashSequence) := by
  have p0 : (0 : ℚ) < 4 / 10 := by norm_num
  have p2 : (0 : ℚ) < 7 / 10 := by norm_num
  have p4 : (0 : ℚ) < 9 / 10 := by norm_num
  have z : ¬ ((0 : ℚ) < 0) := lt_irrefl 0
  have e0 := fun st (h : st.currentFlash = 0) =>
    executeFlash_stage st ⟨4 / 10, 50⟩ (by rw [h]; rfl)
  have e1 := fun st (h : st.currentFlash = 1) =>
    executeFlash_stage st ⟨0, 30⟩ (by rw [h]; rfl)
  have e2 := fun st (h : st.currentFlash = 2) =>
    executeFlash_stage st ⟨7 / 10, 80⟩ (by rw [h]; rfl)
  have e3 := fun st (h : st.currentFlash = 3) =>
    executeFlash_stage st ⟨0, 20⟩ (by rw [h]; rfl)
  have e4 := fun st (h : st.currentFlash = 4) =>
    executeFlash_stage st ⟨9 / 10, 40⟩ (by rw [h]; rfl)
  have e5 := fun st (h : st.currentFlash = 5) =>
    executeFlash_stage st ⟨0, 100⟩ (by rw [h]; rfl)
  simp only [gt_iff_lt, p0, p2, p4, z, if_true, if_false] at e0 e1 e2 e3 e4 e5
  rw [runFlash, e0 _ rfl]
  simp only [createOrganicLightning]
  rw [runFlash, e1 _ rfl]
  simp only []
  rw [runFlash, e2 _ rfl]
  simp only []
  rw [runFlash, e3 _ rfl]
  simp only []
  rw [runFlash, e4 _ rfl]
  simp only []
  rw [runFlash, e5 _ rfl]
  simp only []
  rw [runFlash, executeFlash_end _ (le_refl 6)]
  rfl

/-- Six calls are not enough: the sixth schedules a seventh. -/
theorem runFlash_six (bg : Background) (b : Option ℚ) :
    runFlash 6 (createOrganicLightning bg b) = none := by
  have p0 : (0 : ℚ) < 4 / 10 := by norm_num
  have p2 : (0 : ℚ) < 7 / 10 := by norm_num
  have p4 : (0 : ℚ) < 9 / 10 := by norm_num
  have z : ¬ ((0 : ℚ) < 0) := lt_irrefl 0
  have e0 := fun st (h : st.currentFlash = 0) =>
    executeFlash_stage st ⟨4 / 10, 50⟩ (by rw [h]; rfl)
  have e1 := fun st (h : st.currentFlash = 1) =>
    executeFlash_stage st ⟨0, 30⟩ (by rw [h]; rfl)
  have e2 := fun st (h : st.currentFlash = 2) =>
    executeFlash_stage st ⟨7 / 10, 80⟩ (by rw [h]; rfl)
  have e3 := fun st (h : st.currentFlash = 3) =>
    executeFlash_stage st ⟨0, 20⟩ (by rw [h]; rfl)
  have e4 := fun st (h : st.currentFlash = 4) =>
    executeFlash_stage st ⟨9 / 10, 40⟩ (by rw [h]; rfl)
  have e5 := fun st (h : st.currentFlash = 5) =>
    executeFlash_stage st ⟨0, 100⟩ (by rw [h]; rfl)
  simp only [gt_iff_lt, p0, p2, p4, z, if_true, if_false] at e0 e1 e2 e3 e4 e5
  rw [runFlash, e0 _ rfl]
  simp only [createOrganicLightning]
  rw [runFlash, e1 _ rfl]
  simp only []
  rw [runFlash, e2 _ rfl]
  simp only []
  rw [runFlash, e3 _ rfl]
  simp only []
  rw [runFlash, e4 _ rfl]
  simp only []
  rw [runFlash, e5 _ rfl]
  simp only []
  rw [runFlash]
  rfl

/-! ## The lightning flash -/

/-- C24. The flash sequence has six stages of intensities 0.4, 0, 0.7, 0, 0.9,
0, the positive ones increasing, and of durations 50, 30, 80, 20, 40, 100 ms,
320 ms in all. A call of `executeFlash` within the sequence applies the stage
at `currentFlash`, white of its intensity or the original background, and
moves to the next; the seventh call restores the original background and
schedules nothing: the run takes seven calls, no fewer, and applies the six
stages once each in order. -/
theorem flash_runs_six_stages (bg : Background) (b : Option ℚ) :
    flashSequence.map FlashStage.intensity = [4 / 10, 0, 7 / 10, 0, 9 / 10, 0] ∧
    ((0 : ℚ) < 4 / 10 ∧ (4 : ℚ) / 10 < 7 / 10 ∧ (7 : ℚ) / 10 < 9 / 10) ∧
    flashSequence.map FlashStage.duration = [50, 30, 80, 20, 40, 100] ∧
    (flashSequence.map FlashStage.duration).sum = 320 ∧
    (∀ (st : FlashState) (flash : FlashStage),
      flashSequence.get? st.currentFlash = some flash →
      (executeFlash st).2 = some flash ∧
      (executeFlash st).1.currentFlash = st.currentFlash + 1 ∧
      (executeFlash st).1.overlayBackground
        = (if flash.intensity > 0 then .white flash.intensity else st.originalBg)) ∧
    (∀ fuel, 7 ≤ fuel → ∃ st,
      runFlash fuel (createOrganicLightning bg b) = some (st, flashSequence) ∧
      st.overlayBackground = bg ∧ st.bodyBrightness = some 1 ∧ (executeFlash st).2 = none) ∧
    (∀ fuel, fuel < 7 → runFlash fuel (createOrganicLightning bg b) = none) := by
  refine ⟨rfl, by norm_num, rfl, rfl, ?_, ?_, ?_⟩
  · intro st flash h
    rw [executeFlash_stage st flash h]
    refine ⟨rfl, ?_, ?_⟩ <;> split <;> rfl
  · intro fuel hf
    obtain ⟨k, rfl⟩ := Nat.exists_eq_add_of_le hf
    refine ⟨_, runFlash_add 7 k _ _ (runFlash_seven bg b), rfl, rfl, ?_⟩
    rw [executeFlash_end _ (le_refl 6)]
  · intro fuel hf
    cases hr : runFlash fuel (createOrganicLightning bg b) with
    | none => rfl
    | some t =>
      obtain ⟨k, hk⟩ := Nat.exists_eq_add_of_le (Nat.lt_succ_iff.1 hf)
      have h6 := runFlash_add fuel k _ t hr
      rw [← hk, runFlash_six] at h6
      simp at h6

end SkyCast
